import Mathlib

/-!
# Android audio HAL: stream format negotiation and platform state engine

A shallow embedding of `AudioStream::set` and `AudioStream::setStandby`
(audio_stream_manager/AudioStream.cpp), of the criteria engine of
`AudioPlatformState` (audio_platform_state/src/AudioPlatformState.cpp) and of
the hardware read, effect chain and effect registration of the capture
stream (audio_stream_manager/AudioStreamInImpl.cpp), with the properties of
the specification proved about them.

Conventions of the embedding:
* `uint32_t` values are natural numbers, `int` values are integers;
* a pointer argument is an `Option`: `none` is the null pointer, `some v` a
  pointer to a cell holding `v`; the three pointers of `set` name three
  distinct cells;
* constants that come from headers outside the sources (Android audio
  definitions) are fields of `AudioDefs`, with `androidDefs` the usual values;
* a fatal assertion (`AUDIOCOMMS_ASSERT`) ends the run: functions of the
  platform state return a `Result` that is either `ok` with a value and the
  new state or `fatal` with the state at the failed assertion; functions of
  the stream return an `Outcome`;
* what the hardware, the effects and the parent do is given by an
  environment (`CaptureEnv`, `EffectEnv`), and loops that the code does not
  bound take a number of passes (`fuel`).
-/

namespace AudioHal

/-! ## Constants of the Android headers -/

/-- Constants of the Android audio headers used by the sources. -/
structure AudioDefs where
  AUDIO_FORMAT_PCM_16_BIT : Int
  AUDIO_FORMAT_PCM_8_24_BIT : Int
  CHANNEL_OUT_FRONT_LEFT : Nat
  CHANNEL_OUT_FRONT_RIGHT : Nat
  CHANNEL_IN_LEFT : Nat
  CHANNEL_IN_RIGHT : Nat
  /-- Models `AudioSystem::MODE_IN_CALL`. -/
  MODE_IN_CALL : Nat
  /-- Models `CAudioBand::ENarrow`. -/
  ENarrow : Nat
  /-- Models `CAudioBand::EWide`. -/
  EWide : Nat
  /-- Models `AudioPlatformState::mVoiceStreamRateForNarrowBandProcessing`. -/
  mVoiceStreamRateForNarrowBandProcessing : Nat

/-- The values these constants have in the Android tree the HAL builds against. -/
def androidDefs : AudioDefs where
  AUDIO_FORMAT_PCM_16_BIT := 1
  AUDIO_FORMAT_PCM_8_24_BIT := 4
  CHANNEL_OUT_FRONT_LEFT := 1
  CHANNEL_OUT_FRONT_RIGHT := 2
  CHANNEL_IN_LEFT := 4
  CHANNEL_IN_RIGHT := 8
  MODE_IN_CALL := 2
  ENarrow := 0
  EWide := 1
  mVoiceStreamRateForNarrowBandProcessing := 8000

/-- Status codes returned by the HAL functions modelled here
(`NO_ERROR` and `OK` are the same code). -/
inductive status_t where
  | NO_ERROR
  | BAD_VALUE
  deriving DecidableEq, Repr

/-- The code `OK`, which is `NO_ERROR`. -/
abbrev OK : status_t := status_t.NO_ERROR

/-- Number of bits set in a 32-bit word (`popcount` of cutils/bitops.h). -/
def popcount (x : Nat) : Nat :=
  ((List.range 32).filter (fun i => x.testBit i)).length

/-! ## Sample specification and `AudioStream::set` -/

/-- Modelled from the spec: SampleSpec (SampleSpec.hpp is not among the sources):
sample rate, channel mask, channel count and format, each with a plain
setter and getter. -/
structure SampleSpec where
  sampleRate : Nat
  channelMask : Nat
  channelCount : Nat
  format : Int
  deriving DecidableEq, Repr

/-- Models `SampleSpec::setChannelMask`. -/
def SampleSpec.setChannelMask (s : SampleSpec) (m : Nat) : SampleSpec :=
  { s with channelMask := m }

/-- Models `SampleSpec::setChannelCount`. -/
def SampleSpec.setChannelCount (s : SampleSpec) (n : Nat) : SampleSpec :=
  { s with channelCount := n }

/-- Models `SampleSpec::setSampleRate`. -/
def SampleSpec.setSampleRate (s : SampleSpec) (r : Nat) : SampleSpec :=
  { s with sampleRate := r }

/-- Models `SampleSpec::setFormat`. -/
def SampleSpec.setFormat (s : SampleSpec) (f : Int) : SampleSpec :=
  { s with format := f }

/-- Models `AudioStream::mDefaultSampleRate`. -/
def mDefaultSampleRate : Nat := 48000

/-- Models `AudioStream::mDefaultFormat`. -/
def mDefaultFormat (defs : AudioDefs) : Int := defs.AUDIO_FORMAT_PCM_16_BIT

/-- The stereo mask `set` falls back to, by direction (AudioStream.cpp:116-123). -/
def defaultChannels (defs : AudioDefs) (isOut : Bool) : Nat :=
  if isOut then defs.CHANNEL_OUT_FRONT_LEFT ||| defs.CHANNEL_OUT_FRONT_RIGHT
  else defs.CHANNEL_IN_LEFT ||| defs.CHANNEL_IN_RIGHT

/-- What `AudioStream::set` leaves behind: the returned status, the stream's
`mSampleSpec`, and the contents of the three cells the caller passed. -/
structure SetResult where
  status : status_t
  mSampleSpec : SampleSpec
  format : Option Int
  channels : Option Nat
  rate : Option Nat
  deriving DecidableEq, Repr

/-- The `channels` block of `AudioStream::set` (AudioStream.cpp:94-130):
returns `bad_channels`, the sample spec and the cell. -/
def setChannels (defs : AudioDefs) (isOut : Bool) (mSampleSpec : SampleSpec)
    (channels : Option Nat) : Bool × SampleSpec × Option Nat :=
  match channels with
  | none => (false, mSampleSpec, none)
  | some c =>
    -- if (*channels != 0) { setChannelMask(*channels); if (popcount > 2) bad_channels = true; }
    let spec1 := if c != 0 then mSampleSpec.setChannelMask c else mSampleSpec
    let bad_channels := c != 0 && decide (popcount c > 2)
    -- if (bad_channels || *channels == 0) { *channels = default; setChannelMask(*channels); }
    let c2 := if bad_channels || c == 0 then defaultChannels defs isOut else c
    let spec2 := if bad_channels || c == 0 then spec1.setChannelMask c2 else spec1
    -- setChannelCount(popcount(getChannelMask()))
    (bad_channels, spec2.setChannelCount (popcount spec2.channelMask), some c2)

/-- The `rate` block of `AudioStream::set` (AudioStream.cpp:132-149);
`bad_rate` is never raised. -/
def setRate (mSampleSpec : SampleSpec) (rate : Option Nat) :
    Bool × SampleSpec × Option Nat :=
  match rate with
  | none => (false, mSampleSpec, none)
  | some r =>
    let bad_rate := false
    let spec1 := if r != 0 then mSampleSpec.setSampleRate r else mSampleSpec
    let r2 := if bad_rate || r == 0 then mDefaultSampleRate else r
    let spec2 := if bad_rate || r == 0 then spec1.setSampleRate r2 else spec1
    (bad_rate, spec2, some r2)

/-- The `format` block of `AudioStream::set` (AudioStream.cpp:151-174). -/
def setFormat (defs : AudioDefs) (mSampleSpec : SampleSpec) (format : Option Int) :
    Bool × SampleSpec × Option Int :=
  match format with
  | none => (false, mSampleSpec, none)
  | some f =>
    let bad_format := f != 0 &&
      (f != defs.AUDIO_FORMAT_PCM_16_BIT && f != defs.AUDIO_FORMAT_PCM_8_24_BIT)
    let spec1 := if f != 0 then mSampleSpec.setFormat f else mSampleSpec
    let f2 := if bad_format || f == 0 then mDefaultFormat defs else f
    let spec2 := if bad_format || f == 0 then spec1.setFormat f2 else spec1
    (bad_format, spec2, some f2)

/-- Models `AudioStream::set(int *format, uint32_t *channels, uint32_t *rate)`
(AudioStream.cpp:86-184) on a stream of direction `isOut` whose sample spec
is `mSampleSpec`. -/
def AudioStream.set (defs : AudioDefs) (isOut : Bool) (mSampleSpec : SampleSpec)
    (format : Option Int) (channels : Option Nat) (rate : Option Nat) : SetResult :=
  let (bad_channels, spec1, channels1) := setChannels defs isOut mSampleSpec channels
  let (bad_rate, spec2, rate1) := setRate spec1 rate
  let (bad_format, spec3, format1) := setFormat defs spec2 format
  { status := if bad_channels || bad_rate || bad_format then status_t.BAD_VALUE
              else status_t.NO_ERROR
    mSampleSpec := spec3
    format := format1
    channels := channels1
    rate := rate1 }

/-! ### Validity of a request, in the words of the specification -/

/-- A requested rate is valid when it is non-zero. -/
def validRate (r : Nat) : Prop := r ≠ 0

/-- A requested channel mask is valid when it is non-zero with at most two bits set. -/
def validChannels (c : Nat) : Prop := c ≠ 0 ∧ popcount c ≤ 2

/-- A requested format is valid when it is one of the two supported PCM formats. -/
def validFormat (defs : AudioDefs) (f : Int) : Prop :=
  f = defs.AUDIO_FORMAT_PCM_16_BIT ∨ f = defs.AUDIO_FORMAT_PCM_8_24_BIT

instance (r : Nat) : Decidable (validRate r) := by unfold validRate; infer_instance
instance (c : Nat) : Decidable (validChannels c) := by unfold validChannels; infer_instance
instance (defs : AudioDefs) (f : Int) : Decidable (validFormat defs f) := by
  unfold validFormat; infer_instance

/-! ## Platform state engine (AudioPlatformState.cpp) -/

/-- Models `AudioPlatformState::mStateChangedCriterionName`. -/
def mStateChangedCriterionName : String := "StatesChanged"
/-- Models `AudioPlatformState::mVoipBandCriterionName`. -/
def mVoipBandCriterionName : String := "VoIPBandType"
/-- Models `AudioPlatformState::mOutputFlagsCriterionName`. -/
def mOutputFlagsCriterionName : String := "OutputFlags"
/-- Models `AudioPlatformState::mInputDevicesCriterionName`. -/
def mInputDevicesCriterionName : String := "InputDevices"
/-- Models `AudioPlatformState::mAndroidModeCriterionName`. -/
def mAndroidModeCriterionName : String := "AndroidMode"
/-- Models `AudioPlatformState::mInputSourcesCriterionName`. -/
def mInputSourcesCriterionName : String := "InputSources"
/-- Models `AudioPlatformState::mPreProcRequestedByActiveInputCriterionName`. -/
def mPreProcRequestedByActiveInputCriterionName : String :=
  "PreProcessorRequestedByActiveInput"

/-- Handle of a stream (`const Stream *`); `NULL` is the handle 0. -/
abbrev StreamPtr := Nat

/-- The null stream handle. -/
def NULL : StreamPtr := 0

/-- What the platform state reads of a stream through its handle: the getters
called in AudioPlatformState.cpp. -/
structure Stream where
  isOut : Bool
  getDevices : Nat
  getApplicabilityMask : Nat
  getEffectRequested : Nat
  sampleRate : Nat
  deriving DecidableEq, Repr

/-- The streams behind the handles at the time of a call. -/
abbrev Heap := StreamPtr → Stream

/-- Calls that leave the platform state object, in the order they are made. -/
inductive Event where
  /-- Models `mPfwLock.writeLock()`. -/
  | writeLock
  /-- Models `mPfwLock.unlock()`. -/
  | unlock
  /-- A criterion state handed to the route parameter framework. -/
  | setCriterionState (name : String) (value : Nat)
  /-- Models `mRoutePfwConnector->applyConfigurations()`. -/
  | applyConfigurations
  /-- Models `mStreamInterface->reconsiderRouting()`. -/
  | reconsiderRouting
  /-- Models `VolumeKeys::wakeup(isInCall)`. -/
  | wakeup (isInCall : Bool)
  deriving DecidableEq, Repr

/-- Modelled from the spec: CriterionType (CriterionType.hpp is not among the
sources): a named value domain, inclusive or exclusive, mapping symbolic
literals to numeric codes; `addValuePair` adds one pair. -/
structure CriterionType where
  name : String
  isInclusive : Bool
  valuePairs : List (Nat × String)
  deriving DecidableEq, Repr

/-- Models `CriterionType::addValuePair(numericValue, literalValue)`. -/
def CriterionType.addValuePair (t : CriterionType) (numericValue : Nat)
    (literalValue : String) : CriterionType :=
  { t with valuePairs := t.valuePairs ++ [(numericValue, literalValue)] }

/-- Models `getNumericalValue(literal, value)` of the type interface: the code of a
literal, `none` when the literal is not a value of the type. -/
def CriterionType.getNumericalValue (t : CriterionType) (literal : String) : Option Nat :=
  (t.valuePairs.find? (fun p => p.2 == literal)).map (fun p => p.1)

/-- Modelled from the spec: Criterion (Criterion.hpp is not among the sources): a
named state variable bound to a criterion type, holding a numeric value. The
type is held by its name in the criterion type map. -/
structure Criterion where
  name : String
  criterionType : String
  value : Nat
  deriving DecidableEq, Repr

/-- Modelled from the spec: Parameter (Parameter.hpp and its subclasses are not
among the sources): a binding between an externally settable key and a
criterion or rogue target. Its behaviour is a parameter of the model:
`set value` tells whether the value could be applied (false counts as an
error) and which event name, if any, the parameter reports to the platform
state through `parameterHasChanged`. -/
structure Parameter where
  key : String
  name : String
  valuePairs : List (String × String)
  set : String → Bool × Option String

/-- Models `android::AudioParameter`: the parsed key/value pairs of a
"key1=value1;key2=value2" string. -/
abbrev AudioParameter := List (String × String)

/-- Models `AudioParameter::get(key, value)`. -/
def AudioParameter.get (p : AudioParameter) (key : String) : Option String := p.lookup key

/-- Models `AudioParameter::remove(key)`. -/
def AudioParameter.remove (p : AudioParameter) (key : String) : AudioParameter :=
  p.filter (fun kv => kv.1 != key)

/-- Models `std::map::find`: the element stored under a key. -/
def mapFind {α : Type} (m : List (String × α)) (k : String) : Option α := m.lookup k

/-- The assignment `m[k] = v` on a `std::map`: replaces the element under `k` or adds it. -/
def mapInsert {α : Type} (m : List (String × α)) (k : String) (v : α) : List (String × α) :=
  if (mapFind m k).isSome then m.map (fun p => if p.1 == k then (k, v) else p)
  else m ++ [(k, v)]

/-- The members of `AudioPlatformState` the modelled functions touch, and the
trace of the calls made to the lock, the route parameter framework and the
stream interface. -/
structure AudioPlatformState where
  mRouteCriterionTypeMap : List (String × CriterionType)
  mRouteCriterionMap : List (String × Criterion)
  mParameterVector : List Parameter
  mActiveStreamsList : Bool → List StreamPtr
  mAudioPfwHasChanged : Bool
  trace : List Event

/-- Outcome of a call on the platform state: it returns a value and leaves a
state, or a fatal assertion stops it in the given state. -/
inductive Result (α : Type) where
  | ok (a : α) (s : AudioPlatformState)
  | fatal (s : AudioPlatformState)

/-- Sequencing of calls: a fatal outcome ends the run. -/
def Result.bind {α β : Type} (r : Result α) (f : α → AudioPlatformState → Result β) :
    Result β :=
  match r with
  | Result.ok a s => f a s
  | Result.fatal s => Result.fatal s

/-- The state a call leaves, returned or stopped. -/
def Result.state {α : Type} : Result α → AudioPlatformState
  | Result.ok _ s => s
  | Result.fatal s => s

/-- Whether the call returned. -/
def Result.isOk {α : Type} : Result α → Bool
  | Result.ok _ _ => true
  | Result.fatal _ => false

/-- Records a call in the trace. -/
def AudioPlatformState.emit (s : AudioPlatformState) (e : Event) : AudioPlatformState :=
  { s with trace := s.trace ++ [e] }

/-- Writes the value held by the criterion object stored under `name`
(`Criterion::setValue`). -/
def AudioPlatformState.setCriterionValue (s : AudioPlatformState) (name : String)
    (value : Nat) : AudioPlatformState :=
  { s with
    mRouteCriterionMap :=
      s.mRouteCriterionMap.map
        (fun p => (p.1, if p.1 == name then { p.2 with value := value } else p.2)) }

/-- Models `AudioPlatformState::hasPlatformStateChanged` (AudioPlatformState.cpp:760-767);
`none` is the failed assertion. -/
def hasPlatformStateChanged (s : AudioPlatformState) : Option Bool :=
  match mapFind s.mRouteCriterionMap mStateChangedCriterionName with
  | none => none
  | some c => some (c.value != 0 || s.mAudioPfwHasChanged)

/-- Models `AudioPlatformState::setPlatformStateEvent` (AudioPlatformState.cpp:769-784). -/
def setPlatformStateEvent (eventStateName : String) (s : AudioPlatformState) : Result Unit :=
  match mapFind s.mRouteCriterionMap mStateChangedCriterionName with
  | none => Result.fatal s
  | some stateChange =>
    match mapFind s.mRouteCriterionTypeMap stateChange.criterionType with
    | none => Result.fatal s
    | some ty =>
      match ty.getNumericalValue eventStateName with
      | some eventId =>
        Result.ok () (s.setCriterionValue mStateChangedCriterionName
          (stateChange.value ||| eventId))
      | none =>
        Result.ok () (AudioPlatformState.setCriterionValue
          { s with mAudioPfwHasChanged := true }
          mStateChangedCriterionName (stateChange.value ||| 0))

/-- Models `AudioPlatformState::setValue` (AudioPlatformState.cpp:867-873):
`Criterion::setCriterionState(value)` stores the value, hands it to the
parameter framework and tells whether it changed. -/
def setValue (value : Nat) (stateName : String) (s : AudioPlatformState) : Result Unit :=
  match mapFind s.mRouteCriterionMap stateName with
  | none => Result.fatal s
  | some c =>
    if c.value != value then
      setPlatformStateEvent stateName
        ((s.setCriterionValue stateName value).emit (Event.setCriterionState stateName value))
    else Result.ok () s

/-- Models `AudioPlatformState::getValue` (AudioPlatformState.cpp:875-878). -/
def getValue (stateName : String) (s : AudioPlatformState) : Option Nat :=
  (mapFind s.mRouteCriterionMap stateName).map (fun c => c.value)

/-- Models `AudioPlatformState::clearPlatformStateEvents` (AudioPlatformState.cpp:847-851). -/
def clearPlatformStateEvents (s : AudioPlatformState) : Result Unit :=
  match mapFind s.mRouteCriterionMap mStateChangedCriterionName with
  | none => Result.fatal s
  | some _ =>
    Result.ok ()
      { s.setCriterionValue mStateChangedCriterionName 0 with mAudioPfwHasChanged := false }

/-- Models `AudioPlatformState::applyPlatformConfiguration` (AudioPlatformState.cpp:860-865). -/
def applyPlatformConfiguration (s : AudioPlatformState) : Result Unit :=
  match mapFind s.mRouteCriterionMap mStateChangedCriterionName with
  | none => Result.fatal s
  | some c =>
    clearPlatformStateEvents
      ((s.emit (Event.setCriterionState mStateChangedCriterionName c.value)).emit
        Event.applyConfigurations)

/-- Models `AudioPlatformState::setVoipBandType` (AudioPlatformState.cpp:786-794). -/
def setVoipBandType (defs : AudioDefs) (activeStream : Stream) (s : AudioPlatformState) :
    Result Unit :=
  let band :=
    if activeStream.sampleRate == defs.mVoiceStreamRateForNarrowBandProcessing
    then defs.ENarrow else defs.EWide
  setValue band mVoipBandCriterionName s

/-- The loop of `updateActiveStreamsParameters` (AudioPlatformState.cpp:808-821)
over the rest of the roster, from the current `streamsMask` and
`effectRequested`. -/
def updateActiveStreamsLoop (defs : AudioDefs) (heap : Heap) (isOut : Bool) :
    List StreamPtr → Nat → Nat → AudioPlatformState → Result (Nat × Nat)
  | [], streamsMask, effectRequested, s => Result.ok (streamsMask, effectRequested) s
  | it :: rest, streamsMask, effectRequested, s =>
    let stream := heap it
    if stream.getDevices != 0 then
      if !isOut then
        -- effectRequested = stream->getEffectRequested(); setVoipBandType(stream); break;
        (setVoipBandType defs stream s).bind fun _ s1 =>
          Result.ok (streamsMask ||| stream.getApplicabilityMask, stream.getEffectRequested) s1
      else
        updateActiveStreamsLoop defs heap isOut rest
          (streamsMask ||| stream.getApplicabilityMask) effectRequested s
    else
      updateActiveStreamsLoop defs heap isOut rest streamsMask effectRequested s

/-- Models `AudioPlatformState::updateActiveStreamsParameters` (AudioPlatformState.cpp:802-827). -/
def updateActiveStreamsParameters (defs : AudioDefs) (heap : Heap) (isOut : Bool)
    (s : AudioPlatformState) : Result Unit :=
  (updateActiveStreamsLoop defs heap isOut (s.mActiveStreamsList isOut) 0 0 s).bind
    fun r s1 =>
      (setValue r.1 (if isOut then mOutputFlagsCriterionName else mInputSourcesCriterionName)
        s1).bind fun _ s2 =>
        (if !isOut then setValue r.2 mPreProcRequestedByActiveInputCriterionName s2
         else Result.ok () s2).bind fun _ s3 =>
          applyPlatformConfiguration s3

/-- Models `AudioPlatformState::startStream` (AudioPlatformState.cpp:829-836). -/
def startStream (defs : AudioDefs) (heap : Heap) (startedStream : StreamPtr)
    (s : AudioPlatformState) : Result Unit :=
  if startedStream == NULL then Result.fatal s
  else
    let isOut := (heap startedStream).isOut
    let s1 := s.emit Event.writeLock
    let s2 := { s1 with
      mActiveStreamsList := fun d =>
        if d = isOut then s1.mActiveStreamsList d ++ [startedStream]
        else s1.mActiveStreamsList d }
    (updateActiveStreamsParameters defs heap isOut s2).bind fun _ s3 =>
      Result.ok () (s3.emit Event.unlock)

/-- Models `AudioPlatformState::stopStream` (AudioPlatformState.cpp:838-845);
`std::list::remove` drops every occurrence of the handle. -/
def stopStream (defs : AudioDefs) (heap : Heap) (stoppedStream : StreamPtr)
    (s : AudioPlatformState) : Result Unit :=
  if stoppedStream == NULL then Result.fatal s
  else
    let isOut := (heap stoppedStream).isOut
    let s1 := s.emit Event.writeLock
    let s2 := { s1 with
      mActiveStreamsList := fun d =>
        if d = isOut then (s1.mActiveStreamsList d).filter (fun p => p != stoppedStream)
        else s1.mActiveStreamsList d }
    (updateActiveStreamsParameters defs heap isOut s2).bind fun _ s3 =>
      Result.ok () (s3.emit Event.unlock)

/-- Models `AudioPlatformState::parameterHasChanged` (AudioPlatformState.cpp:737-746). -/
def parameterHasChanged (defs : AudioDefs) (heap : Heap) (event : String)
    (s : AudioPlatformState) : Result Unit :=
  if event == mAndroidModeCriterionName then
    match getValue mAndroidModeCriterionName s with
    | none => Result.fatal s
    | some v => setPlatformStateEvent event (s.emit (Event.wakeup (v == defs.MODE_IN_CALL)))
  else if event == mInputDevicesCriterionName then
    (updateActiveStreamsParameters defs heap false s).bind fun _ s1 =>
      setPlatformStateEvent event s1
  else setPlatformStateEvent event s

/-- Modelled from the spec: SetFromAndroidParameterHelper (declared in
AudioPlatformState.hpp, which is not among the sources): a key of the
request that is bound to the registered parameter is dispatched to it, and a
parameter that fails to apply its value adds one to the error count; a
parameter whose key is not in the request is not touched. -/
def setFromAndroidParameter (defs : AudioDefs) (heap : Heap) (paramIn : AudioParameter)
    (param : Parameter) (errorCount : Nat) (s : AudioPlatformState) : Result Nat :=
  match paramIn.get param.key with
  | none => Result.ok errorCount s
  | some value =>
    let errorCount1 := if (param.set value).1 then errorCount else errorCount + 1
    match (param.set value).2 with
    | none => Result.ok errorCount1 s
    | some event =>
      (parameterHasChanged defs heap event s).bind fun _ s1 => Result.ok errorCount1 s1

/-- The `std::for_each` of `setParameters` over the parameter vector
(AudioPlatformState.cpp:716-717). -/
def setFromAndroidParameters (defs : AudioDefs) (heap : Heap) (paramIn : AudioParameter) :
    List Parameter → Nat → AudioPlatformState → Result Nat
  | [], errorCount, s => Result.ok errorCount s
  | param :: rest, errorCount, s =>
    (setFromAndroidParameter defs heap paramIn param errorCount s).bind fun n s1 =>
      setFromAndroidParameters defs heap paramIn rest n s1

/-- Models `AudioPlatformState::clearParamKeys` (AudioPlatformState.cpp:699-707), with
modelled from the spec: ClearKeyAndroidParameterHelper, which removes the key
of each registered parameter from the request; what is left is the
unhandled remainder. -/
def clearParamKeys (params : List Parameter) (param : AudioParameter) : AudioParameter :=
  params.foldl (fun acc p => AudioParameter.remove acc p.key) param

/-- Models `AudioPlatformState::setParameters` (AudioPlatformState.cpp:709-735) on the
parsed request; returns the status and the unhandled remainder. -/
def setParameters (defs : AudioDefs) (heap : Heap) (keyValuePairs : AudioParameter)
    (s : AudioPlatformState) : Result (status_t × AudioParameter) :=
  let s0 := s.emit Event.writeLock
  (setFromAndroidParameters defs heap keyValuePairs s0.mParameterVector 0 s0).bind
    fun errorCount s1 =>
      let status := if errorCount == 0 then OK else status_t.BAD_VALUE
      let param := clearParamKeys s1.mParameterVector keyValuePairs
      match hasPlatformStateChanged s1 with
      | none => Result.fatal s1
      | some false => Result.ok (status, param) (s1.emit Event.unlock)
      | some true =>
        (applyPlatformConfiguration s1).bind fun _ s2 =>
          Result.ok (status, param) ((s2.emit Event.unlock).emit Event.reconsiderRouting)

/-- The shift `1 << n` on a 32-bit word. -/
def shl32 (n : Nat) : Nat := (1 <<< n) % 2 ^ 32

/-- Models `AudioPlatformState::addRouteCriterion` (AudioPlatformState.cpp:380-389). -/
def addRouteCriterion (routeCriterion : Criterion) (s : AudioPlatformState) : Result Unit :=
  let criterionName := routeCriterion.name
  if (mapFind s.mRouteCriterionMap criterionName).isSome then Result.fatal s
  else
    match mapFind s.mRouteCriterionTypeMap mStateChangedCriterionName with
    | none => Result.fatal s
    | some stateChangedType =>
      Result.ok ()
        { s with
          mRouteCriterionTypeMap :=
            mapInsert s.mRouteCriterionTypeMap mStateChangedCriterionName
              (stateChangedType.addValuePair (shl32 s.mRouteCriterionMap.length) criterionName)
          mRouteCriterionMap := mapInsert s.mRouteCriterionMap criterionName routeCriterion }

/-- Modelled from the spec: the Criterion constructor (Criterion.cpp is not
among the sources): a criterion of the given type holding the code of its
default literal, 0 when the literal is not a value of the type. -/
def newCriterion (name : String) (criterionType : CriterionType)
    (defaultLiteralValue : String) : Criterion :=
  { name := name
    criterionType := criterionType.name
    value := (criterionType.getNumericalValue defaultLiteralValue).getD 0 }

/-- Models `AudioPlatformState::addCriterion<Route>` (AudioPlatformState.cpp:547-554). -/
def addCriterionRoute (name typeName defaultLiteralValue : String)
    (s : AudioPlatformState) : Result Unit :=
  match mapFind s.mRouteCriterionTypeMap typeName with
  | none => Result.fatal s
  | some criterionType =>
    addRouteCriterion (newCriterion name criterionType defaultLiteralValue) s

/-- Models `AudioPlatformState::addParameter<Route, ParamCriterion>`
(AudioPlatformState.cpp:366-378); `set` is the behaviour of the
`RouteCriterionParameter` it creates. -/
def addParameterRouteCriterion (typeName paramKey name defaultValue : String)
    (valuePairs : List (String × String)) (set : String → Bool × Option String)
    (s : AudioPlatformState) : Result Unit :=
  match mapFind s.mRouteCriterionTypeMap typeName with
  | none => Result.fatal s
  | some criterionType =>
    let routeParamCriterion : Parameter :=
      { key := paramKey, name := name, valuePairs := valuePairs, set := set }
    addRouteCriterion (newCriterion name criterionType defaultValue)
      { s with mParameterVector := s.mParameterVector ++ [routeParamCriterion] }

/-- A criterion node of the configuration once `parseChildren` has read it. -/
structure CriterionNode where
  criterionName : String
  paramKeyName : String
  typeName : String
  defaultValue : String
  valuePairs : List (String × String)
  set : String → Bool × Option String

/-- Models `AudioPlatformState::loadCriterion<Route>` (AudioPlatformState.cpp:556-586). -/
def loadCriterionRoute (root : CriterionNode) (s : AudioPlatformState) : Result Unit :=
  if (mapFind s.mRouteCriterionMap root.criterionName).isSome then Result.fatal s
  else if root.paramKeyName != "" then
    addParameterRouteCriterion root.typeName root.paramKeyName root.criterionName
      root.defaultValue root.valuePairs root.set s
  else
    addCriterionRoute root.criterionName root.typeName root.defaultValue s

/-! ### Observations on a platform state, used to state the properties -/

/-- The name of the criterion type of the criterion registered under `k`. -/
def critType (s : AudioPlatformState) (k : String) : Option String :=
  (mapFind s.mRouteCriterionMap k).map (fun c => c.criterionType)

/-- The criterion `k` is a key of the route criterion map. -/
def Registered (s : AudioPlatformState) (k : String) : Prop :=
  (critType s k).isSome = true

/-- The `StatesChanged` criterion is registered and so is its criterion type,
as the constructor leaves them. -/
def StateChangedReady (s : AudioPlatformState) : Prop :=
  ∃ t, critType s mStateChangedCriterionName = some t ∧
    (mapFind s.mRouteCriterionTypeMap t).isSome = true

/-- The registries of `s1` are those of `s`: same criterion types, same
parameters, same criteria with the same types (values may differ). -/
structure SameRegistry (s s1 : AudioPlatformState) : Prop where
  types : s1.mRouteCriterionTypeMap = s.mRouteCriterionTypeMap
  params : s1.mParameterVector = s.mParameterVector
  roster : s1.mActiveStreamsList = s.mActiveStreamsList
  shape : ∀ k, critType s1 k = critType s k

/-- Events the platform state sends to the parameter framework and to the
volume keys, as opposed to lock handling and `reconsiderRouting`. -/
def innerEvent : Event → Bool
  | Event.setCriterionState _ _ => true
  | Event.applyConfigurations => true
  | Event.wakeup _ => true
  | _ => false

/-- The trace of `s1` is the trace of `s` followed by inner events only, and
the parameter vector is the same. -/
def TraceStep (s s1 : AudioPlatformState) : Prop :=
  s1.mParameterVector = s.mParameterVector ∧
  ∃ evs, s1.trace = s.trace ++ evs ∧ ∀ e ∈ evs, innerEvent e = true

/-- The state the platform state engine needs to handle every parameter event:
`StatesChanged` is set up and the criteria written on an event are registered. -/
def EventsReady (s : AudioPlatformState) : Prop :=
  StateChangedReady s ∧ Registered s mAndroidModeCriterionName ∧
  Registered s mInputSourcesCriterionName ∧
  Registered s mPreProcRequestedByActiveInputCriterionName ∧
  Registered s mVoipBandCriterionName

/-- Number of registered parameters whose key is in the request and that fail
to apply the value given for it. -/
def failedCount (keyValuePairs : AudioParameter) (params : List Parameter) : Nat :=
  (params.filter (fun p =>
    match keyValuePairs.get p.key with
    | some value => !(p.set value).1
    | none => false)).length

instance (s : AudioPlatformState) (k : String) : Decidable (Registered s k) := by
  unfold Registered; infer_instance

/-- Bitwise OR of the applicability masks of all the streams of a roster. -/
def rosterMask (heap : Heap) (l : List StreamPtr) : Nat :=
  l.foldl (fun acc p => acc ||| (heap p).getApplicabilityMask) 0

/-- Bitwise OR of the applicability masks of the streams of a roster whose
device mask is non-zero. -/
def routedMask (heap : Heap) (l : List StreamPtr) : Nat :=
  (l.filter (fun p => (heap p).getDevices != 0)).foldl
    (fun acc p => acc ||| (heap p).getApplicabilityMask) 0

/-- The first stream of a roster, in roster order, whose device mask is
non-zero. -/
def activeInput (heap : Heap) (l : List StreamPtr) : Option StreamPtr :=
  l.find? (fun p => (heap p).getDevices != 0)

/-- The band `setVoipBandType` selects for a stream: narrow at the narrow-band
voice rate, wide otherwise. -/
def voipBand (defs : AudioDefs) (stream : Stream) : Nat :=
  if stream.sampleRate = defs.mVoiceStreamRateForNarrowBandProcessing then defs.ENarrow
  else defs.EWide

/-- The value `updateActiveStreamsParameters(false)` gives `InputSources`: the
applicability mask of the first roster stream whose device mask is non-zero,
0 when there is none. -/
def activeInputMask (heap : Heap) (l : List StreamPtr) : Nat :=
  match activeInput heap l with
  | some p => (heap p).getApplicabilityMask
  | none => 0

/-- A call of the stream life cycle on the platform state. -/
inductive StreamCall where
  | startStream (stream : StreamPtr)
  | stopStream (stream : StreamPtr)
  deriving DecidableEq, Repr

/-- The stream a call is about. -/
def StreamCall.stream : StreamCall → StreamPtr
  | StreamCall.startStream p => p
  | StreamCall.stopStream p => p

/-- Performs one `startStream` / `stopStream` call. -/
def runCall (defs : AudioDefs) (heap : Heap) (c : StreamCall) (s : AudioPlatformState) :
    Result Unit :=
  match c with
  | StreamCall.startStream p => startStream defs heap p s
  | StreamCall.stopStream p => stopStream defs heap p s

/-- Performs a sequence of `startStream` / `stopStream` calls in order. Each
call comes with the streams as they are when it is made: between two calls
`setDevices` (AudioStream.cpp:327-331) and `setApplicabilityMask`
(AudioStream.cpp:249-258) may have changed the members the getters read. -/
def runCalls (defs : AudioDefs) :
    List (Heap × StreamCall) → AudioPlatformState → Result Unit
  | [], s => Result.ok () s
  | (heap, c) :: cs, s => (runCall defs heap c s).bind fun _ s1 => runCalls defs cs s1

/-- The streams as they were at the last call of a sequence made on a stream
of the given direction, `none` when no call was made in that direction. -/
def lastHeap (isOut : Bool) : List (Heap × StreamCall) → Option Heap
  | [] => none
  | (heap, c) :: cs =>
    match lastHeap isOut cs with
    | some h => some h
    | none => if (heap c.stream).isOut = isOut then some heap else none

/-- The aggregate of the output direction is up to date in `s`. -/
def OutputAggregateOk (heap : Heap) (s : AudioPlatformState) : Prop :=
  getValue mOutputFlagsCriterionName s = some (routedMask heap (s.mActiveStreamsList true))

/-- The aggregate of the input direction is up to date in `s`. -/
def InputAggregateOk (heap : Heap) (s : AudioPlatformState) : Prop :=
  getValue mInputSourcesCriterionName s
    = some (activeInputMask heap (s.mActiveStreamsList false))

/-! ### A small platform state used to evaluate the functions -/

/-- A state as the constructor leaves it after loading five route criteria:
the aggregates written by the stream roster, each with its bit of the
`StatesChanged` type, all at 0 (the band type at 1, wide), and no active stream. -/
def sampleState : AudioPlatformState where
  mRouteCriterionTypeMap :=
    [("StatesChanged",
        { name := "StatesChanged", isInclusive := true,
          valuePairs := [(1, "OutputFlags"), (2, "InputSources"),
            (4, "PreProcessorRequestedByActiveInput"), (8, "VoIPBandType"),
            (16, "AndroidMode")] }),
     ("Mask", { name := "Mask", isInclusive := true, valuePairs := [] })]
  mRouteCriterionMap :=
    [("OutputFlags", { name := "OutputFlags", criterionType := "Mask", value := 0 }),
     ("InputSources", { name := "InputSources", criterionType := "Mask", value := 0 }),
     ("PreProcessorRequestedByActiveInput",
        { name := "PreProcessorRequestedByActiveInput", criterionType := "Mask", value := 0 }),
     ("VoIPBandType", { name := "VoIPBandType", criterionType := "Mask", value := 1 }),
     ("AndroidMode", { name := "AndroidMode", criterionType := "Mask", value := 0 }),
     ("StatesChanged",
        { name := "StatesChanged", criterionType := "StatesChanged", value := 0 })]
  mParameterVector := []
  mActiveStreamsList := fun _ => []
  mAudioPfwHasChanged := false
  trace := []

/-- Streams behind the handles 1 to 4: an output stream with no device
(flags 4), an output stream on device 2 (flags 1), an input stream with no
device (source 16) and an input stream on device 4 (source 32, effects 3,
8000 Hz); every other handle is an input stream on device 8 (source 64). -/
def sampleHeap : Heap := fun p =>
  if p = 1 then { isOut := true, getDevices := 0, getApplicabilityMask := 4,
                  getEffectRequested := 0, sampleRate := 48000 }
  else if p = 2 then { isOut := true, getDevices := 2, getApplicabilityMask := 1,
                       getEffectRequested := 0, sampleRate := 48000 }
  else if p = 3 then { isOut := false, getDevices := 0, getApplicabilityMask := 16,
                       getEffectRequested := 0, sampleRate := 48000 }
  else if p = 4 then { isOut := false, getDevices := 4, getApplicabilityMask := 32,
                       getEffectRequested := 3, sampleRate := 8000 }
  else { isOut := false, getDevices := 8, getApplicabilityMask := 64,
         getEffectRequested := 5, sampleRate := 16000 }

/-- The sample streams after `setApplicabilityMask` gave the output stream 2
the flags 8. -/
def sampleHeapRemasked : Heap := fun p =>
  if p = 2 then { isOut := true, getDevices := 2, getApplicabilityMask := 8,
                  getEffectRequested := 0, sampleRate := 48000 }
  else sampleHeap p

/-- The sample state with two output streams (handles 1, 2) and three input
streams (handles 3, 4, 5) in the rosters. -/
def sampleRosterState : AudioPlatformState :=
  { sampleState with mActiveStreamsList := fun d => if d then [1, 2] else [3, 4, 5] }

/-- A platform state before any route criterion is loaded: the `StatesChanged`
type created by the constructor, still without values, and one exclusive
criterion type. -/
def emptyRouteState : AudioPlatformState where
  mRouteCriterionTypeMap :=
    [("StatesChanged", { name := "StatesChanged", isInclusive := true, valuePairs := [] }),
     ("Switch", { name := "Switch", isInclusive := false,
                  valuePairs := [(0, "off"), (1, "on")] })]
  mRouteCriterionMap := []
  mParameterVector := []
  mActiveStreamsList := fun _ => []
  mAudioPfwHasChanged := false
  trace := []

/-- Thirty-two route criterion names. -/
def routeNames32 : List String :=
  ["c0", "c1", "c2", "c3", "c4", "c5", "c6", "c7", "c8",
   "c9", "c10", "c11", "c12", "c13", "c14", "c15", "c16",
   "c17", "c18", "c19", "c20", "c21", "c22", "c23", "c24",
   "c25", "c26", "c27", "c28", "c29", "c30", "c31"]

/-- Registers the named route criteria in order with `addCriterion<Route>`. -/
def addRouteCriteria : List String → AudioPlatformState → Result Unit
  | [], s => Result.ok () s
  | n :: ns, s => (addCriterionRoute n "Switch" "off" s).bind fun _ s1 => addRouteCriteria ns s1

/-- The sample state with two registered parameters: a rogue parameter under
the key `mic_mute` that accepts "true" and "false" only and reports nothing,
and a criterion parameter under the key `android_mode` that accepts every
value and reports the event `AndroidMode`. -/
def sampleParamState : AudioPlatformState :=
  { sampleState with
    mParameterVector :=
      [{ key := "mic_mute", name := "/Audio/mic_mute", valuePairs := [],
         set := fun v => (v == "true" || v == "false", none) },
       { key := "android_mode", name := "AndroidMode", valuePairs := [],
         set := fun _ => (true, some "AndroidMode") }] }

/-- Whether the write lock is held after the given events, starting from a
released lock. -/
def lockHeld (evs : List Event) : Bool :=
  evs.foldl (fun held e =>
    match e with
    | Event.writeLock => true
    | Event.unlock => false
    | _ => held) false

/-! ## Stream side: standby, hardware read, effect chain
(AudioStream.cpp, AudioStreamInImpl.cpp) -/

/-- Calls a stream makes to its parent, to the hardware and to the effects, and
the writes of its started flag, in the order they happen. -/
inductive StreamEvent where
  /-- The write of `mStandby` by `setStarted(isStarted)`. -/
  | setStarted (isStarted : Bool)
  /-- The call `initAudioDump()`. -/
  | initAudioDump
  /-- The call `mParent->startStream(this)`. -/
  | parentStartStream
  /-- The call `mParent->stopStream(this)`. -/
  | parentStopStream
  /-- The call `pcmReadFrames(buffer, frames, error)`. -/
  | pcmReadFrames (frames : Nat)
  /-- The call `safeSleep(sleepTimeUs)`. -/
  | safeSleep (sleepTimeUs : Nat)
  /-- The call `nanosleep` made by `safeSleep`, with its `tv_nsec`. -/
  | nanosleep (nsec : Nat)
  /-- The call `getConvertedBuffer(buffer, frames, this)`. -/
  | getConvertedBuffer (frames : Nat)
  /-- The call `pushEchoReference(frames, preprocessor, reference)`. -/
  | pushEchoReference (frames : Int) (preprocessor : Nat) (reference : Nat)
  /-- The call `process` of an effect with the frame counts offered in
  `inBuf.frameCount` and `outBuf.frameCount`. -/
  | process (preprocessor : Nat) (inFrames : Nat) (outFrames : Nat)
  /-- The call `mParent->getEchoReference(streamSampleSpec())`. -/
  | getEchoReference
  /-- The call `mEchoReference->read(mEchoReference, NULL)` that stops the reading. -/
  | stopEchoReferenceRead (reference : Nat)
  /-- The call `mParent->resetEchoReference(reference)`. -/
  | resetEchoReference (reference : Nat)
  /-- The call `addRequestedEffect(convertEffectNameToProcId(name))`. -/
  | addRequestedEffect (name : String)
  /-- The call `removeRequestedEffect(convertEffectNameToProcId(name))`. -/
  | removeRequestedEffect (name : String)
  /-- The call `mParent->updateRequestedEffect()`. -/
  | updateRequestedEffect
  deriving DecidableEq, Repr

/-- How a call of the stream ends: it returns a value, a fatal assertion stops
it, or the bound on loop passes given to the model is exhausted. -/
inductive Outcome (α : Type) where
  | returned (a : α)
  | fatal (msg : String)
  | outOfFuel
  deriving DecidableEq, Repr

/-- The members of `AudioStream` read and written by `setStandby`, with the
trace of its calls. -/
structure AudioStream where
  mStandby : Bool
  trace : List StreamEvent
  deriving DecidableEq, Repr

/-- Models `AudioStream::isStarted` (AudioStream.cpp:333-337). -/
def AudioStream.isStarted (s : AudioStream) : Bool := !s.mStandby

/-- Models `AudioStream::setStarted` (AudioStream.cpp:339-348). -/
def AudioStream.setStarted (isStarted : Bool) (s : AudioStream) : AudioStream :=
  { mStandby := !isStarted
    trace := s.trace ++ [StreamEvent.setStarted isStarted] ++
      (if isStarted then [StreamEvent.initAudioDump] else []) }

/-- Models `AudioStream::setStandby` (AudioStream.cpp:267-276); `parentStatus` is
the status the parent returns from `startStream` / `stopStream`. -/
def AudioStream.setStandby (parentStatus : status_t) (isSet : Bool) (s : AudioStream) :
    status_t × AudioStream :=
  if s.isStarted == !isSet then (OK, s)
  else
    let s1 := AudioStream.setStarted (!isSet) s
    if isSet then (parentStatus, { s1 with trace := s1.trace ++ [StreamEvent.parentStopStream] })
    else (parentStatus, { s1 with trace := s1.trace ++ [StreamEvent.parentStartStream] })

/-- Models `AudioStream::mMaxReadWriteRetried`. -/
def mMaxReadWriteRetried : Nat := 50

/-- Models `AudioStream::mMaxSleepTime`, in microseconds. -/
def mMaxSleepTime : Nat := 1000000

/-- Models `AudioStream::mNsecPerUsec`. -/
def mNsecPerUsec : Nat := 1000

/-- Conversion of a signed count to `size_t` / `uint32_t` (32-bit words). -/
def toSizeT (x : Int) : Nat := (x % 2 ^ 32).toNat

/-- What the hardware and the system give a capture stream during one call.
The functions take the number of earlier calls of the same kind. -/
structure CaptureEnv where
  /-- Status of the k-th `pcmReadFrames` call (negative: error). -/
  pcmReadFrames : Nat → Int
  /-- Result of the k-th `nanosleep` call. -/
  nanosleep : Nat → Int
  /-- The conversion `routeSampleSpec().convertFramesToUsec(frames)`. -/
  routeConvertFramesToUsec : Nat → Nat
  /-- Whether `streamSampleSpec() == routeSampleSpec()`. -/
  sameSampleSpec : Bool
  /-- Status returned by `getConvertedBuffer`, as an `int` (0 is `NO_ERROR`). -/
  getConvertedBuffer : Int
  /-- The frames a successful read of `n` frames puts in the buffer. -/
  readData : Nat → List Nat
  /-- Whether `realloc` fails. -/
  reallocFails : Bool
  /-- The code `NO_MEMORY`. -/
  NO_MEMORY : Int
  /-- The `process` function of the effects: for the effect handle, the number
  of earlier `process` calls and the offered `inBuf.frameCount` and
  `outBuf.frameCount`, the returned status and the frame counts consumed
  and produced that the effect writes back. -/
  process : Nat → Nat → Nat → Nat → Int × Nat × Nat

/-- Models `AudioStream::safeSleep` (AudioStream.cpp:378-390): the `tv_nsec` it
asks `nanosleep` for and the value it returns, given the result of
`nanosleep`. -/
def safeSleep (nanosleepResult : Int) (sleepTimeUs : Nat) : Bool × Nat :=
  let sleepTimeUs := if sleepTimeUs > mMaxSleepTime then mMaxSleepTime else sleepTimeUs
  (decide (nanosleepResult > 0), sleepTimeUs * mNsecPerUsec)

/-- The `do ... while (ret < 0)` loop of `readHwFrames`
(AudioStreamInImpl.cpp:108-136). `retryCount` is also the number of reads and
of sleeps done so far; `fuel` bounds the number of passes. -/
def readHwLoop (env : CaptureEnv) (frames : Nat) :
    Nat → Nat → List StreamEvent → Outcome Int × List StreamEvent
  | 0, _, trace => (Outcome.outOfFuel, trace)
  | fuel + 1, retryCount, trace =>
    let ret := env.pcmReadFrames retryCount
    let trace1 := trace ++ [StreamEvent.pcmReadFrames frames]
    if ret < 0 then
      -- AUDIOCOMMS_ASSERT(++retryCount < mMaxReadWriteRetried, ...)
      if retryCount + 1 < mMaxReadWriteRetried then
        let sleepUSecs := env.routeConvertFramesToUsec frames
        let nsec := (safeSleep (env.nanosleep retryCount) sleepUSecs).2
        readHwLoop env frames fuel (retryCount + 1)
          (trace1 ++ [StreamEvent.safeSleep sleepUSecs, StreamEvent.nanosleep nsec])
      else
        (Outcome.fatal "Hardware not responding, restarting media server", trace1)
    else (Outcome.returned (frames : Int), trace1)

/-- Models `AudioStreamInImpl::readHwFrames` (AudioStreamInImpl.cpp:103-150). The
loop gets as many passes as the assertion allows at most. -/
def readHwFrames (env : CaptureEnv) (frames : Nat) : Outcome Int × List StreamEvent :=
  readHwLoop env frames mMaxReadWriteRetried 0 []

/-- Models `AudioStreamInImpl::readFrames` (AudioStreamInImpl.cpp:152-180). -/
def readFrames (env : CaptureEnv) (frames : Nat) : Outcome Int × List StreamEvent :=
  if env.sameSampleSpec then readHwFrames env frames
  else if env.getConvertedBuffer != 0 then
    (Outcome.returned env.getConvertedBuffer, [StreamEvent.getConvertedBuffer frames])
  else (Outcome.returned (frames : Int), [StreamEvent.getConvertedBuffer frames])

/-- A hardware that fails every read and honours every sleep; one frame lasts
125 microseconds (8000 Hz). -/
def deadHardware : CaptureEnv where
  pcmReadFrames := fun _ => -5
  nanosleep := fun _ => 0
  routeConvertFramesToUsec := fun frames => frames * 125
  sameSampleSpec := true
  getConvertedBuffer := 0
  readData := fun n => List.replicate n 0
  reallocFails := false
  NO_MEMORY := -12
  process := fun _ _ _ _ => (0, 0, 0)

/-- The events of one retry of `readHwFrames`: the sleep requested for
`sleepUSecs` microseconds, then the next read. -/
def retryBlock (frames sleepUSecs : Nat) : List StreamEvent :=
  [StreamEvent.safeSleep sleepUSecs,
   StreamEvent.nanosleep ((if sleepUSecs > mMaxSleepTime then mMaxSleepTime
     else sleepUSecs) * mNsecPerUsec),
   StreamEvent.pcmReadFrames frames]

/-- Number of notifications of the parent (`startStream` or `stopStream`) in
a trace. -/
def notifications (trace : List StreamEvent) : Nat :=
  trace.count StreamEvent.parentStartStream + trace.count StreamEvent.parentStopStream

/-- An entry `AudioEffectHandle` of the effect list: the effect handle and its
echo reference handle (0 is `NULL`). -/
structure AudioEffectHandle where
  mPreprocessor : Nat
  mEchoReference : Nat
  deriving DecidableEq, Repr

/-- The members of `AudioStreamInImpl` used by the effect chain and by the
effect registration, with the trace of the calls made. A frame is a natural
number; `mProcessingBuffer` holds the whole allocated scratch buffer, of
which the first `mProcessingFramesIn` frames are buffered input. -/
structure AudioStreamInImpl where
  mProcessingFramesIn : Int
  mProcessingBuffer : List Nat
  mProcessingBufferSizeInFrames : Int
  mPreprocessorsHandlerList : List AudioEffectHandle
  mStandby : Bool
  trace : List StreamEvent
  deriving DecidableEq, Repr

/-- The local variables of `doProcessFrames` and of its caller that the effect
chain updates: `ret`, `*processedFrames`, `*processingFramesIn`, with the
number of `process` calls made so far and the trace. -/
structure ProcessVars where
  ret : Int
  processedFrames : Int
  processingFramesIn : Int
  calls : Nat
  trace : List StreamEvent
  deriving DecidableEq, Repr

/-- The `for` loop of `doProcessFrames` over the effect list
(AudioStreamInImpl.cpp:194-219): every effect of the list is called. -/
def effectsPass (env : CaptureEnv) (frames : Int) :
    List AudioEffectHandle → ProcessVars → ProcessVars
  | [], v => v
  | it :: rest, v =>
    let trace1 :=
      if it.mEchoReference != 0 then
        v.trace ++ [StreamEvent.pushEchoReference v.processingFramesIn it.mPreprocessor
          it.mEchoReference]
      else v.trace
    let inFrameCount := toSizeT v.processingFramesIn
    let outFrameCount := toSizeT (frames - v.processedFrames)
    let r := env.process it.mPreprocessor v.calls inFrameCount outFrameCount
    let trace2 := trace1 ++ [StreamEvent.process it.mPreprocessor inFrameCount outFrameCount]
    effectsPass env frames rest
      (if r.1 == 0 then
        { ret := r.1
          processedFrames := v.processedFrames + r.2.2
          processingFramesIn := v.processingFramesIn - r.2.1
          calls := v.calls + 1
          trace := trace2 }
       else
        { ret := r.1
          processedFrames := v.processedFrames
          processingFramesIn := v.processingFramesIn
          calls := v.calls + 1
          trace := trace2 })

/-- The `while` loop of `doProcessFrames` (AudioStreamInImpl.cpp:191-220);
`fuel` bounds the number of passes, `none` means the bound is exhausted. -/
def doProcessLoop (env : CaptureEnv) (frames : Int) (effects : List AudioEffectHandle) :
    Nat → ProcessVars → Option ProcessVars
  | 0, v =>
    if v.processedFrames < frames ∧ v.processingFramesIn > 0 ∧ v.ret = 0 then none
    else some v
  | fuel + 1, v =>
    if v.processedFrames < frames ∧ v.processingFramesIn > 0 ∧ v.ret = 0 then
      doProcessLoop env frames effects fuel (effectsPass env frames effects v)
    else some v

/-- Models `AudioStreamInImpl::doProcessFrames` (AudioStreamInImpl.cpp:182-222):
the returned value is the field `ret`. -/
def doProcessFrames (env : CaptureEnv) (fuel : Nat) (effects : List AudioEffectHandle)
    (frames processedFrames processingFramesIn : Int) (trace : List StreamEvent) :
    Option ProcessVars :=
  doProcessLoop env frames effects fuel
    { ret := 0, processedFrames := processedFrames, processingFramesIn := processingFramesIn,
      calls := 0, trace := trace }

/-- The buffer after `realloc` to `n` frames: the former frames, cut or
followed by fresh ones. -/
def reallocFrames (buffer : List Nat) (n : Nat) : List Nat :=
  (buffer ++ List.replicate (n - buffer.length) 0).take n

/-- The buffer after `data` is written at frame offset `offset`. -/
def writeFrames (buffer : List Nat) (offset : Nat) (data : List Nat) : List Nat :=
  buffer.take offset ++ data ++ buffer.drop (offset + data.length)

/-- Models `AudioStreamInImpl::allocateProcessingMemory`
(AudioStreamInImpl.cpp:797-819); 0 is `NO_ERROR`. -/
def allocateProcessingMemory (env : CaptureEnv) (frames : Int) (st : AudioStreamInImpl) :
    Int × AudioStreamInImpl :=
  let st1 := { st with mProcessingBufferSizeInFrames := frames }
  if env.reallocFails then (env.NO_MEMORY, st1)
  else (0, { st1 with mProcessingBuffer := reallocFrames st.mProcessingBuffer frames.toNat })

/-- What `processFrames` leaves: how it ended, the stream, and the frames it
copied from the scratch buffer to the client buffer with `memcpy`, if any. -/
structure ProcessFramesResult where
  outcome : Outcome Int
  stream : AudioStreamInImpl
  copied : Option (List Nat)
  deriving DecidableEq, Repr

/-- The second part of `processFrames` (AudioStreamInImpl.cpp:252-289): the
effect chain over the buffered input, then the pass-through on failure or
the compaction of the unconsumed input. -/
def processBuffered (env : CaptureEnv) (fuel : Nat) (frames : Int) (st : AudioStreamInImpl) :
    ProcessFramesResult :=
  match doProcessFrames env fuel st.mPreprocessorsHandlerList frames 0
      st.mProcessingFramesIn st.trace with
  | none => { outcome := Outcome.outOfFuel, stream := st, copied := none }
  | some v =>
    if v.ret != 0 then
      -- memcpy(buffer, mProcessingBuffer, mProcessingFramesIn frames)
      { outcome := Outcome.returned st.mProcessingFramesIn
        stream := { st with mProcessingFramesIn := v.processingFramesIn, trace := v.trace }
        copied := some (st.mProcessingBuffer.take st.mProcessingFramesIn.toNat) }
    else if v.processingFramesIn != 0 then
      if v.processingFramesIn > 0 then
        -- memmove of the last processingFramesIn buffered frames to the buffer head
        { outcome := Outcome.returned v.processedFrames
          stream :=
            { st with
              mProcessingBuffer :=
                writeFrames st.mProcessingBuffer 0
                  ((st.mProcessingBuffer.drop
                    (st.mProcessingFramesIn - v.processingFramesIn).toNat).take
                    v.processingFramesIn.toNat)
              mProcessingFramesIn := v.processingFramesIn
              trace := v.trace }
          copied := none }
      else
        { outcome := Outcome.fatal "Not enough frames"
          stream := { st with trace := v.trace }, copied := none }
    else
      { outcome := Outcome.returned v.processedFrames
        stream := { st with mProcessingFramesIn := v.processingFramesIn, trace := v.trace }
        copied := none }

/-- The first part of `processFrames` (AudioStreamInImpl.cpp:226-250): reload
enough frames at the end of the process input buffer. It gives the stream
with at least `frames` buffered frames, or the result `processFrames`
returns at once (allocation or read failure, failed assertion). -/
def reloadFrames (env : CaptureEnv) (frames : Int) (st : AudioStreamInImpl) :
    Except ProcessFramesResult AudioStreamInImpl :=
  if st.mProcessingFramesIn < frames then
    let alloc :=
      if st.mProcessingBufferSizeInFrames < frames then allocateProcessingMemory env frames st
      else (0, st)
    if alloc.1 != 0 then
      Except.error { outcome := Outcome.returned alloc.1, stream := alloc.2, copied := none }
    else
      let st1 := alloc.2
      let toRead := toSizeT (frames - st1.mProcessingFramesIn)
      let rd := readFrames env toRead
      let st2 := { st1 with trace := st1.trace ++ rd.2 }
      match rd.1 with
      | Outcome.outOfFuel =>
        Except.error { outcome := Outcome.outOfFuel, stream := st2, copied := none }
      | Outcome.fatal msg =>
        Except.error { outcome := Outcome.fatal msg, stream := st2, copied := none }
      | Outcome.returned read_frames =>
        if read_frames < 0 then
          Except.error { outcome := Outcome.returned read_frames, stream := st2, copied := none }
        else
          let st3 :=
            { st2 with
              mProcessingBuffer :=
                writeFrames st2.mProcessingBuffer st2.mProcessingFramesIn.toNat
                  (env.readData toRead)
              mProcessingFramesIn := st2.mProcessingFramesIn + read_frames }
          if st3.mProcessingFramesIn >= frames then Except.ok st3
          else
            Except.error
              { outcome := Outcome.fatal "Not enough frames", stream := st3, copied := none }
  else Except.ok st

/-- Models `AudioStreamInImpl::processFrames` (AudioStreamInImpl.cpp:224-290). -/
def processFrames (env : CaptureEnv) (fuel : Nat) (frames : Int) (st : AudioStreamInImpl) :
    ProcessFramesResult :=
  match reloadFrames env frames st with
  | Except.error r => r
  | Except.ok st1 => processBuffered env fuel frames st1

/-- A hardware whose reads succeed and deliver the frames 0, 1, 2, ..., with
the given behaviour of the effects. -/
def workingHardware (process : Nat → Nat → Nat → Nat → Int × Nat × Nat) : CaptureEnv where
  pcmReadFrames := fun _ => 0
  nanosleep := fun _ => 0
  routeConvertFramesToUsec := fun frames => frames * 125
  sameSampleSpec := true
  getConvertedBuffer := 0
  readData := fun n => List.range n
  reallocFails := false
  NO_MEMORY := -12
  process := process

/-- A capture stream just created, with the given effects attached. -/
def freshCapture (effects : List AudioEffectHandle) : AudioStreamInImpl where
  mProcessingFramesIn := 0
  mProcessingBuffer := []
  mProcessingBufferSizeInFrames := 0
  mPreprocessorsHandlerList := effects
  mStandby := true
  trace := []

/-- An effect behaviour that consumes all the input it is offered and produces
half the output it is asked for. -/
def halvingProcess : Nat → Nat → Nat → Nat → Int × Nat × Nat :=
  fun _ _ inFrames outFrames => (0, inFrames, outFrames / 2)

/-- Effect behaviours where effect 7 always fails and every other effect
consumes and produces all it is offered. -/
def firstFailsProcess : Nat → Nat → Nat → Nat → Int × Nat × Nat :=
  fun effect _ inFrames outFrames => if effect = 7 then (-1, 0, 0) else (0, inFrames, outFrames)

/-- Effect behaviours where effect 7 consumes and produces 80 frames and every
other effect fails. -/
def secondFailsProcess : Nat → Nat → Nat → Nat → Int × Nat × Nat :=
  fun effect _ _ _ => if effect = 7 then (0, 80, 80) else (-1, 0, 0)

/-- Models `AudioStreamInImpl::mHwEffectImplementor`. -/
def mHwEffectImplementor : String := "IntelLPE"

/-- The fields of an effect descriptor the stream reads. -/
structure EffectDescriptor where
  name : String
  implementor : String
  /-- Whether the type of the effect is `FX_IID_AEC`. -/
  isAec : Bool
  deriving DecidableEq, Repr

/-- What the effects and the parent give the stream while an effect is added or
removed. -/
structure EffectEnv where
  /-- The descriptor `get_descriptor` gives for an effect handle, `none` when
  it fails. -/
  getDescriptor : Nat → Option EffectDescriptor
  /-- The echo reference handle `mParent->getEchoReference` returns. -/
  getEchoReference : Nat
  /-- The error `mPreprocessorsHandlerList.add` fails with, `none` when it
  succeeds. -/
  vectorAddError : Option status_t

/-- Models `AudioStreamInImpl::isHwEffectL` (AudioStreamInImpl.cpp:415-427) for a
non-null effect. -/
def isHwEffectL (env : EffectEnv) (effect : Nat) : Bool :=
  match env.getDescriptor effect with
  | none => false
  | some desc => desc.implementor == mHwEffectImplementor

/-- Models `AudioStreamInImpl::isAecEffect` (AudioStreamInImpl.cpp:607-623) for a
non-null effect. -/
def isAecEffect (env : EffectEnv) (effect : Nat) : Bool :=
  match env.getDescriptor effect with
  | none => false
  | some desc => desc.isAec

/-- Models `AudioStreamInImpl::addSwAudioEffectL` (AudioStreamInImpl.cpp:518-545);
`MatchEffect` compares the effect handles. -/
def addSwAudioEffectL (env : EffectEnv) (effect reference : Nat) (st : AudioStreamInImpl) :
    Outcome status_t × AudioStreamInImpl :=
  if effect == 0 then (Outcome.fatal "NULL effect context", st)
  else if st.mPreprocessorsHandlerList.any (fun h => h.mPreprocessor == effect) then
    (Outcome.returned status_t.NO_ERROR, st)
  else
    match env.vectorAddError with
    | some ret => (Outcome.returned ret, st)
    | none =>
      (Outcome.returned status_t.NO_ERROR,
       { st with
         mPreprocessorsHandlerList :=
           st.mPreprocessorsHandlerList ++
             [{ mPreprocessor := effect, mEchoReference := reference }] })

/-- Models `AudioStreamInImpl::removeSwAudioEffectL`
(AudioStreamInImpl.cpp:547-573). -/
def removeSwAudioEffectL (effect : Nat) (st : AudioStreamInImpl) :
    Outcome status_t × AudioStreamInImpl :=
  if effect == 0 then (Outcome.fatal "NULL effect context", st)
  else
    match st.mPreprocessorsHandlerList.find? (fun h => h.mPreprocessor == effect) with
    | some it =>
      (Outcome.returned status_t.NO_ERROR,
       { st with
         mPreprocessorsHandlerList := st.mPreprocessorsHandlerList.erase it
         trace :=
           st.trace ++
             (if it.mEchoReference != 0 then
               [StreamEvent.stopEchoReferenceRead it.mEchoReference,
                StreamEvent.resetEchoReference it.mEchoReference]
              else []) })
    | none => (Outcome.returned status_t.BAD_VALUE, st)

/-- Models `AudioStreamInImpl::addAudioEffect` (AudioStreamInImpl.cpp:429-474). -/
def addAudioEffect (env : EffectEnv) (effect : Nat) (st : AudioStreamInImpl) :
    Outcome status_t × AudioStreamInImpl :=
  if effect == 0 then (Outcome.fatal "NULL effect context", st)
  else if isHwEffectL env effect then
    match env.getDescriptor effect with
    | none => (Outcome.returned status_t.BAD_VALUE, st)
    | some desc =>
      let st1 := { st with trace := st.trace ++ [StreamEvent.addRequestedEffect desc.name] }
      if !st1.mStandby then
        (Outcome.returned status_t.NO_ERROR,
         { st1 with trace := st1.trace ++ [StreamEvent.updateRequestedEffect] })
      else (Outcome.returned status_t.NO_ERROR, st1)
  else if isAecEffect env effect then
    -- stReference = mParent->getEchoReference(streamSampleSpec());
    let st1 := { st with trace := st.trace ++ [StreamEvent.getEchoReference] }
    addSwAudioEffectL env effect env.getEchoReference st1
  else
    match addSwAudioEffectL env effect 0 st with
    | (Outcome.returned _, st1) => (Outcome.returned status_t.NO_ERROR, st1)
    | r => r

/-- Models `AudioStreamInImpl::removeAudioEffect` (AudioStreamInImpl.cpp:476-516). -/
def removeAudioEffect (env : EffectEnv) (effect : Nat) (st : AudioStreamInImpl) :
    Outcome status_t × AudioStreamInImpl :=
  if effect == 0 then (Outcome.fatal "NULL effect context", st)
  else if isHwEffectL env effect then
    match env.getDescriptor effect with
    | none => (Outcome.returned status_t.BAD_VALUE, st)
    | some desc =>
      let st1 := { st with trace := st.trace ++ [StreamEvent.removeRequestedEffect desc.name] }
      if !st1.mStandby then
        (Outcome.returned status_t.NO_ERROR,
         { st1 with trace := st1.trace ++ [StreamEvent.updateRequestedEffect] })
      else (Outcome.returned status_t.NO_ERROR, st1)
  else
    match removeSwAudioEffectL effect st with
    | (Outcome.returned _, st1) => (Outcome.returned status_t.NO_ERROR, st1)
    | r => r

/-- An environment where effect 7 is a software echo canceller, effect 8 a
software noise suppressor and effect 9 a hardware effect; the parent hands
out the echo reference 42. -/
def sampleEffectEnv : EffectEnv where
  getDescriptor := fun effect =>
    if effect = 7 then some { name := "aec", implementor := "webrtc", isAec := true }
    else if effect = 8 then some { name := "ns", implementor := "webrtc", isAec := false }
    else if effect = 9 then some { name := "agc", implementor := "IntelLPE", isAec := false }
    else none
  getEchoReference := 42
  vectorAddError := none

/-- A call of the effect registration of a capture stream. -/
inductive EffectCall where
  | addAudioEffect (effect : Nat)
  | removeAudioEffect (effect : Nat)
  deriving DecidableEq, Repr

/-- Performs a sequence of `addAudioEffect` / `removeAudioEffect` calls in
order and gives the stream it leaves; a call stopped by a fatal assertion
leaves the stream as it was at the assertion. -/
def runEffectCalls (env : EffectEnv) : List EffectCall → AudioStreamInImpl → AudioStreamInImpl
  | [], st => st
  | EffectCall.addAudioEffect e :: cs, st => runEffectCalls env cs (addAudioEffect env e st).2
  | EffectCall.removeAudioEffect e :: cs, st =>
    runEffectCalls env cs (removeAudioEffect env e st).2

/-- No two handles of the effect list have the same underlying effect. -/
def NoDuplicateEffect (st : AudioStreamInImpl) : Prop :=
  (st.mPreprocessorsHandlerList.map (fun h => h.mPreprocessor)).Nodup

/-! ### Loading the criterion types and the criteria of the configuration -/

/-- Models `AudioPlatformState::loadCriteria<Route>` (AudioPlatformState.cpp:499-512):
the loop over the criterion nodes of the configuration. -/
def loadCriteriaRoute : List CriterionNode → AudioPlatformState → Result Unit
  | [], s => Result.ok () s
  | node :: rest, s => (loadCriterionRoute node s).bind fun _ s1 => loadCriteriaRoute rest s1

/-- Bitwise OR of the `StatesChanged` codes `1 << k` of the criteria whose
positions are listed. -/
def changedBits (changed : List Nat) : Nat :=
  changed.foldl (fun acc k => acc ||| 2 ^ k) 0

/-- Models `AudioPlatformState::addCriterionType<Route>` (AudioPlatformState.cpp:212-223). -/
def addCriterionTypeRoute (typeName : String) (isInclusive : Bool)
    (s : AudioPlatformState) : Result Unit :=
  if (mapFind s.mRouteCriterionTypeMap typeName).isSome then Result.fatal s
  else
    Result.ok ()
      { s with
        mRouteCriterionTypeMap :=
          mapInsert s.mRouteCriterionTypeMap typeName
            { name := typeName, isInclusive := isInclusive, valuePairs := [] } }

/-- Models `AudioPlatformState::addCriterionTypeValuePair<Route>`
(AudioPlatformState.cpp:235-248). -/
def addCriterionTypeValuePairRoute (typeName : String) (numericValue : Nat)
    (literalValue : String) (s : AudioPlatformState) : Result Unit :=
  match mapFind s.mRouteCriterionTypeMap typeName with
  | none => Result.fatal s
  | some criterionType =>
    Result.ok ()
      { s with
        mRouteCriterionTypeMap :=
          mapInsert s.mRouteCriterionTypeMap typeName
            (criterionType.addValuePair numericValue literalValue) }

/-- The pieces of a character sequence between the occurrences of a separator. -/
def splitChars (sep : Char) : List Char → List (List Char)
  | [] => [[]]
  | c :: cs =>
    if c == sep then [] :: splitChars sep cs
    else
      match splitChars sep cs with
      | [] => [[c]]
      | t :: ts => (c :: t) :: ts

/-- The successive tokens `strtok` / `strtok_r` return for a string and a
one-character delimiter: the non-empty pieces between the delimiters. -/
def strtok (str : String) (sep : Char) : List String :=
  ((splitChars sep str.data).filter (fun t => !t.isEmpty)).map String.mk

/-- The `while (valueName != NULL)` loop of `loadCriterionType`
(AudioPlatformState.cpp:266-297) over the tokens of the value list, from the
current `index`. `convertTo first index` gives the result of
`convertTo<string, uint32_t>(first, index)` and the value it leaves in `index`
(the convert utility is not among the sources). A value list that fits in
memory has less than 2^32 literals, so `index += 1` does not wrap. -/
def loadValueNames (convertTo : String → Nat → Bool × Nat) (typeName : String)
    (isInclusive : Bool) : List String → Nat → AudioPlatformState → Result Unit
  | [], _, s => Result.ok () s
  | valueName :: rest, index, s =>
    if valueName.data.contains ':' then
      match strtok valueName ':' with
      | first :: second :: _ =>
        let index1 := (convertTo first index).2
        (addCriterionTypeValuePairRoute typeName index1 second s).bind fun _ s1 =>
          loadValueNames convertTo typeName isInclusive rest index1 s1
      | _ => Result.fatal s
    else
      let pfwIndex := if isInclusive then shl32 index else index
      (addCriterionTypeValuePairRoute typeName pfwIndex valueName s).bind fun _ s1 =>
        loadValueNames convertTo typeName isInclusive rest (index + 1) s1

/-- A criterion type node of the configuration: the type name and the
comma-separated list of its values. -/
structure CriterionTypeNode where
  name : String
  value : String
  deriving DecidableEq, Repr

/-- Models `AudioPlatformState::loadCriterionType<Route>` (AudioPlatformState.cpp:250-300)
over the children of the root node. -/
def loadCriterionTypeRoute (convertTo : String → Nat → Bool × Nat) (isInclusive : Bool) :
    List CriterionTypeNode → AudioPlatformState → Result Unit
  | [], s => Result.ok () s
  | node :: rest, s =>
    (addCriterionTypeRoute node.name isInclusive s).bind fun _ s1 =>
      (loadValueNames convertTo node.name isInclusive (strtok node.value ',') 0 s1).bind
        fun _ s2 => loadCriterionTypeRoute convertTo isInclusive rest s2

/-- The value of a sequence of decimal digits, `none` when a character is not
a digit or the sequence is empty. -/
def decimalValue : List Char → Option Nat
  | [] => none
  | cs =>
    cs.foldl (fun acc c =>
      match acc with
      | none => none
      | some n => if c.isDigit then some (n * 10 + (c.toNat - 48)) else none) (some 0)

/-- A `convertTo` that reads decimal numbers and leaves `index` as it is when
the text is not a number. -/
def decimalConvertTo (str : String) (index : Nat) : Bool × Nat :=
  match decimalValue str.data with
  | some n => (true, n % 2 ^ 32)
  | none => (false, index)

/-- The criterion types of a state, as a list of the type names with their
value pairs. -/
def typeValues (s : AudioPlatformState) (typeName : String) : Option (List (Nat × String)) :=
  (mapFind s.mRouteCriterionTypeMap typeName).map (fun t => t.valuePairs)

/-- Two criterion nodes of a configuration: a plain criterion and a criterion
bound to the parameter key `bt_headset`. -/
def sampleCriterionNodes : List CriterionNode :=
  [{ criterionName := "Headset", paramKeyName := "", typeName := "Switch",
     defaultValue := "off", valuePairs := [], set := fun _ => (true, none) },
   { criterionName := "Bluetooth", paramKeyName := "bt_headset", typeName := "Switch",
     defaultValue := "off", valuePairs := [("true", "on"), ("false", "off")],
     set := fun _ => (true, some "Bluetooth") }]

/-- Number of `applyConfigurations` calls in a trace. -/
def applyCount (trace : List Event) : Nat := trace.count Event.applyConfigurations

/-- From `s` to `s1` only criteria were written (the trace grew by
`setCriterionState` calls) and the `StatesChanged` value kept every bit it had. -/
def BitsKept (s s1 : AudioPlatformState) : Prop :=
  (∃ evs, s1.trace = s.trace ++ evs ∧ ∀ e ∈ evs, ∃ n x, e = Event.setCriterionState n x) ∧
  ∀ v, getValue mStateChangedCriterionName s = some v →
    ∃ v1, getValue mStateChangedCriterionName s1 = some v1 ∧
      ∀ i, v.testBit i = true → v1.testBit i = true

/-- The platform state has a pending change: `hasPlatformStateChanged` is true. -/
def Pending (s : AudioPlatformState) : Prop := hasPlatformStateChanged s = some true

/-- If `InputDevices` is a value of the type of the `StatesChanged` criterion,
its code is not 0 (the codes given at load are the bits `1 << k`). -/
def NonZeroInputCode (s : AudioPlatformState) : Prop :=
  ∀ c ty b, mapFind s.mRouteCriterionMap mStateChangedCriterionName = some c →
    mapFind s.mRouteCriterionTypeMap c.criterionType = some ty →
    ty.getNumericalValue mInputDevicesCriterionName = some b → b ≠ 0

/-- The request holds the key of the parameter, and the parameter reports the
event `InputDevices` for the value given. -/
def reportsInputDevices (keyValuePairs : AudioParameter) (p : Parameter) : Bool :=
  match keyValuePairs.get p.key with
  | some value => (p.set value).2 == some mInputDevicesCriterionName
  | none => false

/-! ## Stream side: route attachment (AudioStream.cpp, AudioStreamInImpl.cpp) -/

/-- The members of a stream used by the route attachment: the routing members
declared in Stream.hpp (`_currentStreamRoute`, `_newStreamRoute`, 0 being
`NULL`, `_routeSampleSpec`, `_isRouted`), the stream sample specification,
and the hardware buffer of a capture stream (`none` is `NULL`) with the
number of buffers allocated so far. -/
structure RoutedStream where
  isOut : Bool
  currentStreamRoute : Nat
  newStreamRoute : Nat
  routeSampleSpec : SampleSpec
  streamSampleSpec : SampleSpec
  isRouted : Bool
  mHwBuffer : Option Nat
  mHwBufferSize : Nat
  allocations : Nat
  deriving DecidableEq, Repr

/-- What the route and the conversion library give during an attachment. -/
structure AttachEnv where
  /-- The sample specification of a stream route (`getSampleSpec()`). -/
  routeSampleSpecOf : Nat → SampleSpec
  /-- The status of `mAudioConversion->configure(ssSrc, ssDst)`, 0 being `NO_ERROR`. -/
  configure : SampleSpec → SampleSpec → Int
  /-- The value of `getBufferSizeInBytes()`. -/
  getBufferSizeInBytes : Nat
  /-- Whether `new char[mHwBufferSize]` gives `NULL`. -/
  allocFails : Bool
  /-- The code `NO_MEMORY`. -/
  NO_MEMORY : Int

/-- Modelled from the spec: `TinyAlsaStream::attachRouteL` and the
`Stream::attachRouteL` it ends with (TinyAlsaStream.cpp and Stream.cpp are not
among the sources): the stream receives its route-facing sample
specification and its device assignment, the pending route becomes the
current one and the stream is routed. -/
def TinyAlsaStream.attachRouteL (env : AttachEnv) (st : RoutedStream) : RoutedStream :=
  { st with
    currentStreamRoute := st.newStreamRoute
    routeSampleSpec := env.routeSampleSpecOf st.newStreamRoute
    isRouted := true }

/-- Modelled from the spec: `TinyAlsaStream::detachRouteL` (not among the
sources): reverses the attachment. -/
def TinyAlsaStream.detachRouteL (st : RoutedStream) : RoutedStream :=
  { st with currentStreamRoute := 0, isRouted := false }

/-- Models `AudioStream::attachRouteL` (AudioStream.cpp:278-298). -/
def AudioStream.attachRouteL (env : AttachEnv) (st : RoutedStream) : Int × RoutedStream :=
  let st1 := TinyAlsaStream.attachRouteL env st
  let ssSrc := if st1.isOut then st1.streamSampleSpec else st1.routeSampleSpec
  let ssDst := if st1.isOut then st1.routeSampleSpec else st1.streamSampleSpec
  let err := env.configure ssSrc ssDst
  if err != 0 then (err, st1) else (0, st1)

/-- Models `AudioStream::detachRouteL` (AudioStream.cpp:300-307). -/
def AudioStream.detachRouteL (st : RoutedStream) : Int × RoutedStream :=
  (0, TinyAlsaStream.detachRouteL st)

/-- Models `AudioStreamInImpl::freeAllocatedBuffers` (AudioStreamInImpl.cpp:382-386). -/
def freeAllocatedBuffers (st : RoutedStream) : RoutedStream :=
  { st with mHwBuffer := none }

/-- Models `AudioStreamInImpl::allocateHwBuffer` (AudioStreamInImpl.cpp:367-380). -/
def allocateHwBuffer (env : AttachEnv) (st : RoutedStream) : Int × RoutedStream :=
  let st1 := freeAllocatedBuffers st
  let st2 := { st1 with mHwBufferSize := env.getBufferSizeInBytes }
  if env.allocFails then (env.NO_MEMORY, st2)
  else (0, { st2 with mHwBuffer := some st2.mHwBufferSize, allocations := st2.allocations + 1 })

/-- Models `AudioStreamInImpl::attachRouteL` (AudioStreamInImpl.cpp:394-402). -/
def AudioStreamInImpl.attachRouteL (env : AttachEnv) (st : RoutedStream) :
    Int × RoutedStream :=
  let r := AudioStream.attachRouteL env st
  if r.1 != 0 then r else allocateHwBuffer env r.2

/-- Models `AudioStreamInImpl::detachRouteL` (AudioStreamInImpl.cpp:404-408). -/
def AudioStreamInImpl.detachRouteL (st : RoutedStream) : Int × RoutedStream :=
  AudioStream.detachRouteL (freeAllocatedBuffers st)

/-- A 48 kHz stereo 16-bit sample specification. -/
def spec48kStereo : SampleSpec :=
  { sampleRate := 48000, channelMask := 3, channelCount := 2, format := 1 }

/-- An 8 kHz mono 16-bit sample specification. -/
def spec8kMono : SampleSpec :=
  { sampleRate := 8000, channelMask := 1, channelCount := 1, format := 1 }

/-- A conversion library that supports no conversion between different
sample specifications (status -22), with every route at 48 kHz stereo. -/
def noConversionEnv : AttachEnv where
  routeSampleSpecOf := fun _ => spec48kStereo
  configure := fun src dst => if src = dst then 0 else -22
  getBufferSizeInBytes := 1920
  allocFails := false
  NO_MEMORY := -12

/-- A capture stream at 8 kHz mono, detached, with route 5 pending. -/
def detachedCapture : RoutedStream where
  isOut := false
  currentStreamRoute := 0
  newStreamRoute := 5
  routeSampleSpec := spec8kMono
  streamSampleSpec := spec8kMono
  isRouted := false
  mHwBuffer := none
  mHwBufferSize := 0
  allocations := 0

/-! ## Stream side: the echo reference (AudioStreamInImpl.cpp:625-745) -/

/-- Conversion of a value to `int32_t`. -/
def toInt32 (x : Int) : Int := (x + 2 ^ 31) % 2 ^ 32 - 2 ^ 31

/-- Calls `pushEchoReference` makes to the hardware, to the echo reference and
to the effect. -/
inductive EchoEvent where
  /-- The call `getFramesAvailable(kernel_frames, tstamp)`. -/
  | getFramesAvailable
  /-- The call `reference->read(reference, &b)` with `b.frame_count` and `b.delay_ns`. -/
  | referenceRead (frameCount : Nat) (delayNs : Int)
  /-- The call `process_reverse` with `buf.frameCount`. -/
  | processReverse (preprocessor : Nat) (frameCount : Nat)
  /-- The call `setPreprocessorEchoDelay(preprocessor, delay_us)`. -/
  | setPreprocessorEchoDelay (preprocessor : Nat) (delayInUs : Int)
  deriving DecidableEq, Repr

/-- What the hardware, the echo reference and the effect give during one
`pushEchoReference` call. -/
structure EchoEnv where
  /-- The frames `getFramesAvailable` reports as queued in the kernel driver;
  `none` when its status is not `OK`. -/
  getFramesAvailable : Option Nat
  /-- The conversion `streamSampleSpec().convertFramesToUsec(frames)`. -/
  streamConvertFramesToUsec : Int → Int
  /-- The conversion `routeSampleSpec().convertFramesToUsec(frames)`. -/
  routeConvertFramesToUsec : Nat → Int
  /-- Whether `realloc` fails. -/
  reallocFails : Bool
  /-- The code `NO_MEMORY`. -/
  NO_MEMORY : Int
  /-- The code `BAD_VALUE`. -/
  BAD_VALUE : Int
  /-- The call `reference->read`: from the `frame_count` and `delay_ns` of the
  buffer, the status and the `frame_count` and `delay_ns` it leaves there. -/
  referenceRead : Nat → Int → Int × Nat × Int
  /-- Whether the effect has a `process_reverse` function. -/
  hasProcessReverse : Bool
  /-- The call `process_reverse`: from the offered `buf.frameCount`, the status
  and the `buf.frameCount` it leaves. -/
  processReverse : Nat → Int × Nat

/-- The members of `AudioStreamInImpl` used by the echo reference, with the
trace of the calls made. -/
structure EchoState where
  mFramesIn : Int
  mProcessingFramesIn : Int
  mReferenceFramesIn : Int
  mReferenceBufferSizeInFrames : Int
  trace : List EchoEvent
  deriving DecidableEq, Repr

/-- Models `AudioStreamInImpl::getCaptureDelay` (AudioStreamInImpl.cpp:625-658): the
value it stores in `buffer->delay_ns`. -/
def getCaptureDelay (env : EchoEnv) (st : EchoState) : Int × EchoState :=
  let st1 := { st with trace := st.trace ++ [EchoEvent.getFramesAvailable] }
  match env.getFramesAvailable with
  | none => (0, st1)
  | some kernel_frames =>
    let buf_delay := env.streamConvertFramesToUsec (st.mFramesIn + st.mProcessingFramesIn)
    let kernel_delay := env.routeConvertFramesToUsec kernel_frames
    let delay_ns := kernel_delay + buf_delay
    (toInt32 delay_ns, st1)

/-- Models `AudioStreamInImpl::updateEchoReference` (AudioStreamInImpl.cpp:660-701);
`none` is the failed assertion on the reference handle (0 is `NULL`). -/
def updateEchoReference (env : EchoEnv) (frames : Int) (reference : Nat) (st : EchoState) :
    Option (Int × EchoState) :=
  if reference == 0 then none
  else if st.mReferenceFramesIn < frames then
    let grow := decide (st.mReferenceBufferSizeInFrames < frames)
    let st1 := if grow then { st with mReferenceBufferSizeInFrames := frames } else st
    if grow && env.reallocFails then some (env.NO_MEMORY, st1)
    else
      let frame_count := toSizeT (frames - st1.mReferenceFramesIn)
      let d := getCaptureDelay env st1
      let r := env.referenceRead frame_count d.1
      let st2 := { d.2 with trace := d.2.trace ++ [EchoEvent.referenceRead frame_count d.1] }
      if r.1 == 0 then
        some (r.2.2, { st2 with mReferenceFramesIn := st2.mReferenceFramesIn + r.2.1 })
      else some (r.2.2, st2)
  else some (0, st)

/-- Models `AudioStreamInImpl::pushEchoReference` (AudioStreamInImpl.cpp:703-745);
a handle 0 is `NULL`. The local `frames`, cut to `mReferenceFramesIn`, is not
read again. -/
def pushEchoReference (env : EchoEnv) (frames : Int) (preprocessor reference : Nat)
    (st : EchoState) : Outcome Int × EchoState :=
  match updateEchoReference env frames reference st with
  | none => (Outcome.fatal "Null reference handle", st)
  | some (delay, st1) =>
    let delay_us := Int.tdiv delay 1000
    if preprocessor == 0 then (Outcome.fatal "Null preproc pointer", st1)
    else if !env.hasProcessReverse then (Outcome.returned env.BAD_VALUE, st1)
    else
      let buf := env.processReverse (toSizeT st1.mReferenceFramesIn)
      (Outcome.returned buf.1,
        { st1 with
          mReferenceFramesIn := st1.mReferenceFramesIn - buf.2
          trace := st1.trace ++
            [EchoEvent.processReverse preprocessor (toSizeT st1.mReferenceFramesIn),
             EchoEvent.setPreprocessorEchoDelay preprocessor delay_us] })

/-- The capture-delay estimate in microseconds: the frames queued in the
hardware converted at the route sample specification plus the frames
buffered in software converted at the stream sample specification. -/
def captureDelayUsec (env : EchoEnv) (kernelFrames : Nat) (st : EchoState) : Int :=
  env.routeConvertFramesToUsec kernelFrames
    + env.streamConvertFramesToUsec (st.mFramesIn + st.mProcessingFramesIn)

/-- The echo delays handed to the effect in a trace. -/
def echoDelays (trace : List EchoEvent) : List Int :=
  trace.filterMap fun e =>
    match e with
    | EchoEvent.setPreprocessorEchoDelay _ d => some d
    | _ => none

/-- An 8 kHz capture (125 microseconds per frame) with 160 frames queued in the
hardware, an echo reference that delivers what is asked and leaves the delay
as it is, and an effect that consumes the whole reference. -/
def echoEnv8k : EchoEnv where
  getFramesAvailable := some 160
  streamConvertFramesToUsec := fun frames => frames * 125
  routeConvertFramesToUsec := fun frames => (frames : Int) * 125
  reallocFails := false
  NO_MEMORY := -12
  BAD_VALUE := -22
  referenceRead := fun frameCount delayNs => (0, frameCount, delayNs)
  hasProcessReverse := true
  processReverse := fun frameCount => (0, frameCount)

/-- A capture stream with 160 frames waiting in the processing buffer and an
empty reference buffer. -/
def echoState160 : EchoState where
  mFramesIn := 0
  mProcessingFramesIn := 160
  mReferenceFramesIn := 0
  mReferenceBufferSizeInFrames := 0
  trace := []

/-- The code and literal of an explicit pair `index:literal` of a value list,
`read` giving the number its first part spells. -/
def explicitPair (read : String → Nat) (tok : String) : Nat × String :=
  match strtok tok ':' with
  | first :: second :: _ => (read first, second)
  | _ => (0, "")

/-- The number a string of decimal digits spells, on 32 bits; 0 for any other
string. -/
def readDecimal (str : String) : Nat := ((decimalValue str.data).getD 0) % 2 ^ 32

/-- The value `set` stores and hands back for a requested channel mask. -/
def negotiatedChannels (defs : AudioDefs) (isOut : Bool) (c : Nat) : Nat :=
  if validChannels c then c else defaultChannels defs isOut

/-- The value `set` stores and hands back for a requested rate. -/
def negotiatedRate (r : Nat) : Nat :=
  if validRate r then r else mDefaultSampleRate

/-- The value `set` stores and hands back for a requested format. -/
def negotiatedFormat (defs : AudioDefs) (f : Int) : Int :=
  if validFormat defs f then f else defs.AUDIO_FORMAT_PCM_16_BIT

theorem setChannels_none (defs : AudioDefs) (isOut : Bool) (spec : SampleSpec) :
    setChannels defs isOut spec none = (false, spec, none) := rfl

theorem setRate_none (spec : SampleSpec) : setRate spec none = (false, spec, none) := rfl

theorem setFormat_none (defs : AudioDefs) (spec : SampleSpec) :
    setFormat defs spec none = (false, spec, none) := rfl

theorem setChannels_some (defs : AudioDefs) (isOut : Bool) (spec : SampleSpec) (c : Nat) :
    setChannels defs isOut spec (some c) =
      (decide (c ≠ 0 ∧ 2 < popcount c),
       { spec with channelMask := negotiatedChannels defs isOut c,
                   channelCount := popcount (negotiatedChannels defs isOut c) },
       some (negotiatedChannels defs isOut c)) := by
  simp only [setChannels, negotiatedChannels, validChannels, SampleSpec.setChannelMask,
    SampleSpec.setChannelCount]
  by_cases hc : c = 0
  · subst hc; simp
  · by_cases hp : 2 < popcount c
    · have : ¬ popcount c ≤ 2 := by omega
      simp [hc, hp, this]
    · have : popcount c ≤ 2 := by omega
      simp [hc, hp, this]

theorem setRate_some (spec : SampleSpec) (r : Nat) :
    setRate spec (some r) =
      (false, { spec with sampleRate := negotiatedRate r }, some (negotiatedRate r)) := by
  simp only [setRate, negotiatedRate, validRate, SampleSpec.setSampleRate]
  by_cases hr : r = 0
  · subst hr; simp
  · simp [hr]

theorem setFormat_some (defs : AudioDefs) (spec : SampleSpec) (f : Int)
    (h824 : defs.AUDIO_FORMAT_PCM_8_24_BIT ≠ 0) :
    setFormat defs spec (some f) =
      (decide (f ≠ 0 ∧ f ≠ defs.AUDIO_FORMAT_PCM_16_BIT ∧ f ≠ defs.AUDIO_FORMAT_PCM_8_24_BIT),
       { spec with format := negotiatedFormat defs f }, some (negotiatedFormat defs f)) := by
  simp only [setFormat, negotiatedFormat, validFormat, mDefaultFormat, SampleSpec.setFormat]
  by_cases hf : f = 0
  · subst hf
    by_cases h16 : defs.AUDIO_FORMAT_PCM_16_BIT = 0
    · simp [h16]
    · have h1 : ¬ (0 = defs.AUDIO_FORMAT_PCM_16_BIT) := fun h => h16 h.symm
      have h2 : ¬ (0 = defs.AUDIO_FORMAT_PCM_8_24_BIT) := fun h => h824 h.symm
      simp [h1, h2]
  · by_cases h1 : f = defs.AUDIO_FORMAT_PCM_16_BIT
    · subst h1; simp [hf]
    · by_cases h2 : f = defs.AUDIO_FORMAT_PCM_8_24_BIT
      · subst h2; simp [hf, h1]
      · simp [hf, h1, h2]

/-- C1: after `set`, a field passed through a non-null pointer is stored in the
sample spec and written back to the caller as the requested value when that
value is valid and as the default otherwise; each field's outcome is a
function of its own request and the direction only, and a field passed as a
null pointer is left unchanged (nothing is written back either). -/
theorem set_applies_each_field (defs : AudioDefs) (isOut : Bool) (spec : SampleSpec)
    (format : Option Int) (channels : Option Nat) (rate : Option Nat)
    (h824 : defs.AUDIO_FORMAT_PCM_8_24_BIT ≠ 0) :
    ((∀ c, channels = some c →
        (AudioStream.set defs isOut spec format channels rate).mSampleSpec.channelMask
            = (if validChannels c then c else defaultChannels defs isOut) ∧
        (AudioStream.set defs isOut spec format channels rate).channels
            = some (if validChannels c then c else defaultChannels defs isOut)) ∧
      (channels = none →
        (AudioStream.set defs isOut spec format channels rate).mSampleSpec.channelMask
            = spec.channelMask ∧
        (AudioStream.set defs isOut spec format channels rate).mSampleSpec.channelCount
            = spec.channelCount ∧
        (AudioStream.set defs isOut spec format channels rate).channels = none)) ∧
    ((∀ r, rate = some r →
        (AudioStream.set defs isOut spec format channels rate).mSampleSpec.sampleRate
            = (if validRate r then r else mDefaultSampleRate) ∧
        (AudioStream.set defs isOut spec format channels rate).rate
            = some (if validRate r then r else mDefaultSampleRate)) ∧
      (rate = none →
        (AudioStream.set defs isOut spec format channels rate).mSampleSpec.sampleRate
            = spec.sampleRate ∧
        (AudioStream.set defs isOut spec format channels rate).rate = none)) ∧
    ((∀ f, format = some f →
        (AudioStream.set defs isOut spec format channels rate).mSampleSpec.format
            = (if validFormat defs f then f else defs.AUDIO_FORMAT_PCM_16_BIT) ∧
        (AudioStream.set defs isOut spec format channels rate).format
            = some (if validFormat defs f then f else defs.AUDIO_FORMAT_PCM_16_BIT)) ∧
      (format = none →
        (AudioStream.set defs isOut spec format channels rate).mSampleSpec.format
            = spec.format ∧
        (AudioStream.set defs isOut spec format channels rate).format = none)) := by
  rcases channels with _ | c <;> rcases rate with _ | r <;> rcases format with _ | f <;>
    simp [AudioStream.set, setChannels_some, setRate_some, setFormat_some _ _ _ h824,
      setChannels_none, setRate_none, setFormat_none, negotiatedChannels, negotiatedRate,
      negotiatedFormat]

/-- Witness of C1 on an output stream: one invalid format, one invalid channel
mask and a valid rate. -/
theorem set_applies_each_field_witness :
    androidDefs.AUDIO_FORMAT_PCM_8_24_BIT ≠ 0 ∧
    (AudioStream.set androidDefs true ⟨44100, 1, 1, 1⟩ (some 99) (some 7)
        (some 8000)).mSampleSpec.sampleRate
      = (if validRate 8000 then 8000 else mDefaultSampleRate) :=
  ⟨by decide,
   ((set_applies_each_field androidDefs true ⟨44100, 1, 1, 1⟩ (some 99) (some 7) (some 8000)
      (by decide)).2.1.1 8000 rfl).1⟩

/-- The status of `set`: `BAD_VALUE` exactly when `bad_channels` or `bad_format`
was raised. -/
theorem set_status (defs : AudioDefs) (isOut : Bool) (spec : SampleSpec)
    (format : Option Int) (channels : Option Nat) (rate : Option Nat) :
    (AudioStream.set defs isOut spec format channels rate).status = status_t.BAD_VALUE ↔
      ((∃ c, channels = some c ∧ c ≠ 0 ∧ ¬ validChannels c) ∨
       (∃ f, format = some f ∧ f ≠ 0 ∧ ¬ validFormat defs f)) := by
  have hc : ∀ c : Nat, (c ≠ 0 ∧ 2 < popcount c) ↔ (c ≠ 0 ∧ ¬ validChannels c) := by
    intro c; unfold validChannels; constructor
    · rintro ⟨h0, h2⟩; exact ⟨h0, fun h => by omega⟩
    · rintro ⟨h0, h2⟩; exact ⟨h0, by by_contra h; exact h2 ⟨h0, by omega⟩⟩
  rcases channels with _ | c <;> rcases rate with _ | r <;> rcases format with _ | f <;>
    simp [AudioStream.set, setChannels_some, setRate_some, setChannels_none, setRate_none,
      setFormat_none, setFormat, validFormat, ← hc]
  all_goals
    by_cases h0 : c = 0 <;> by_cases h2 : 2 < popcount c <;> simp [h0, h2] <;> left <;> omega

/-- Counterexample to C2 as stated: a field passed as a null pointer is not
replaced by its default. With all three pointers null on a stream whose
sample rate is 44100, `set` returns `NO_ERROR` and the rate stays 44100, not
the default 48000. -/
theorem set_null_field_not_defaulted :
    (AudioStream.set androidDefs true ⟨44100, 1, 1, 4⟩ none none none).status
        = status_t.NO_ERROR ∧
    (AudioStream.set androidDefs true ⟨44100, 1, 1, 4⟩ none none none).mSampleSpec.sampleRate
        ≠ mDefaultSampleRate := by
  decide

/-- C2 (amended): `set` returns `BAD_VALUE` if and only if at least one supplied
(non-null, non-zero) field is invalid, and `NO_ERROR` otherwise (a supplied
rate is never invalid); a field passed as zero is replaced by its default, in
the sample spec and in the caller's cell, a field passed as a null pointer
is left unchanged, and neither is by itself a validation error. -/
theorem set_status_iff_invalid (defs : AudioDefs) (isOut : Bool) (spec : SampleSpec)
    (format : Option Int) (channels : Option Nat) (rate : Option Nat) :
    ((AudioStream.set defs isOut spec format channels rate).status = status_t.BAD_VALUE ↔
      ((∃ c, channels = some c ∧ c ≠ 0 ∧ ¬ validChannels c) ∨
       (∃ r, rate = some r ∧ r ≠ 0 ∧ ¬ validRate r) ∨
       (∃ f, format = some f ∧ f ≠ 0 ∧ ¬ validFormat defs f))) ∧
    ((AudioStream.set defs isOut spec format channels rate).status = status_t.NO_ERROR ↔
      ¬ ((∃ c, channels = some c ∧ c ≠ 0 ∧ ¬ validChannels c) ∨
         (∃ r, rate = some r ∧ r ≠ 0 ∧ ¬ validRate r) ∨
         (∃ f, format = some f ∧ f ≠ 0 ∧ ¬ validFormat defs f))) ∧
    (channels = some 0 →
      (AudioStream.set defs isOut spec format channels rate).mSampleSpec.channelMask
          = defaultChannels defs isOut ∧
      (AudioStream.set defs isOut spec format channels rate).channels
          = some (defaultChannels defs isOut)) ∧
    (rate = some 0 →
      (AudioStream.set defs isOut spec format channels rate).mSampleSpec.sampleRate
          = mDefaultSampleRate ∧
      (AudioStream.set defs isOut spec format channels rate).rate = some mDefaultSampleRate) ∧
    (format = some 0 →
      (AudioStream.set defs isOut spec format channels rate).mSampleSpec.format
          = defs.AUDIO_FORMAT_PCM_16_BIT ∧
      (AudioStream.set defs isOut spec format channels rate).format
          = some defs.AUDIO_FORMAT_PCM_16_BIT) ∧
    (channels = none →
      (AudioStream.set defs isOut spec format channels rate).mSampleSpec.channelMask
          = spec.channelMask ∧
      (AudioStream.set defs isOut spec format channels rate).mSampleSpec.channelCount
          = spec.channelCount) ∧
    (rate = none →
      (AudioStream.set defs isOut spec format channels rate).mSampleSpec.sampleRate
          = spec.sampleRate) ∧
    (format = none →
      (AudioStream.set defs isOut spec format channels rate).mSampleSpec.format
          = spec.format) := by
  have hr : ¬ ∃ r, rate = some r ∧ r ≠ 0 ∧ ¬ validRate r := by
    rintro ⟨r, _, h0, hv⟩; exact hv h0
  have hst := set_status defs isOut spec format channels rate
  refine ⟨?_, ?_, ?_, ?_, ?_, ?_, ?_, ?_⟩
  · rw [hst]; simp only [hr, false_or]
  · have hne : (AudioStream.set defs isOut spec format channels rate).status
          = status_t.NO_ERROR ↔
        ¬ (AudioStream.set defs isOut spec format channels rate).status
          = status_t.BAD_VALUE := by
      cases (AudioStream.set defs isOut spec format channels rate).status <;> simp
    rw [hne, hst]; simp only [hr, false_or]
  · rintro rfl
    rcases rate with _ | r <;> rcases format with _ | f <;>
      simp [AudioStream.set, setChannels_some, setRate_some, setRate_none, setFormat_none,
        setFormat, negotiatedChannels, validChannels, SampleSpec.setFormat]
    all_goals split_ifs <;> simp
  · rintro rfl
    rcases channels with _ | c <;> rcases format with _ | f <;>
      simp [AudioStream.set, setChannels_some, setRate_some, setChannels_none, setFormat_none,
        setFormat, negotiatedRate, validRate, SampleSpec.setFormat]
    all_goals split_ifs <;> simp
  · rintro rfl
    rcases channels with _ | c <;> rcases rate with _ | r <;>
      simp [AudioStream.set, setChannels_some, setRate_some, setChannels_none, setRate_none,
        setFormat, mDefaultFormat, SampleSpec.setFormat]
  · rintro rfl
    rcases rate with _ | r <;> rcases format with _ | f <;>
      simp [AudioStream.set, setChannels_none, setRate_some, setRate_none, setFormat_none,
        setFormat, SampleSpec.setFormat]
    all_goals split_ifs <;> simp
  · rintro rfl
    rcases channels with _ | c <;> rcases format with _ | f <;>
      simp [AudioStream.set, setChannels_some, setChannels_none, setRate_none, setFormat_none,
        setFormat, SampleSpec.setFormat]
    all_goals split_ifs <;> simp
  · rintro rfl
    rcases channels with _ | c <;> rcases rate with _ | r <;>
      simp [AudioStream.set, setChannels_some, setChannels_none, setRate_none, setRate_some,
        setFormat_none]

/-- Counterexample to C3 as stated: `set` with an unsupported format (99), a
null channels pointer and a valid rate (8000) on a stream at 44100 Hz
returns `BAD_VALUE`, and the stored sample spec has changed: the rate is now
8000. -/
theorem set_bad_value_mutates :
    (AudioStream.set androidDefs true ⟨44100, 3, 2, 4⟩ (some 99) none (some 8000)).status
        = status_t.BAD_VALUE ∧
    (AudioStream.set androidDefs true ⟨44100, 3, 2, 4⟩ (some 99) none (some 8000)).mSampleSpec
        ≠ ⟨44100, 3, 2, 4⟩ ∧
    (AudioStream.set androidDefs true ⟨44100, 3, 2, 4⟩ (some 99) none (some 8000)).mSampleSpec
        = ⟨8000, 3, 2, 1⟩ := by
  decide

/-- C3 (amended): when `set` returns `BAD_VALUE`, some supplied channel mask or
format was invalid and is now stored as its default; every field passed
through a non-null pointer has been overwritten (by the requested value when
valid, by the default otherwise, the channel count by the population count
of the stored mask), and only the fields passed as null pointers are the
same after the call as before it. -/
theorem set_bad_value_state (defs : AudioDefs) (isOut : Bool) (spec : SampleSpec)
    (format : Option Int) (channels : Option Nat) (rate : Option Nat)
    (h824 : defs.AUDIO_FORMAT_PCM_8_24_BIT ≠ 0)
    (hbad : (AudioStream.set defs isOut spec format channels rate).status
      = status_t.BAD_VALUE) :
    ((∃ c, channels = some c ∧ ¬ validChannels c ∧
        (AudioStream.set defs isOut spec format channels rate).mSampleSpec.channelMask
          = defaultChannels defs isOut) ∨
     (∃ f, format = some f ∧ ¬ validFormat defs f ∧
        (AudioStream.set defs isOut spec format channels rate).mSampleSpec.format
          = defs.AUDIO_FORMAT_PCM_16_BIT)) ∧
    (∀ c, channels = some c →
      (AudioStream.set defs isOut spec format channels rate).mSampleSpec.channelMask
          = (if validChannels c then c else defaultChannels defs isOut) ∧
      (AudioStream.set defs isOut spec format channels rate).mSampleSpec.channelCount
          = popcount (if validChannels c then c else defaultChannels defs isOut)) ∧
    (∀ r, rate = some r →
      (AudioStream.set defs isOut spec format channels rate).mSampleSpec.sampleRate
          = (if validRate r then r else mDefaultSampleRate)) ∧
    (∀ f, format = some f →
      (AudioStream.set defs isOut spec format channels rate).mSampleSpec.format
          = (if validFormat defs f then f else defs.AUDIO_FORMAT_PCM_16_BIT)) ∧
    (channels = none →
      (AudioStream.set defs isOut spec format channels rate).mSampleSpec.channelMask
          = spec.channelMask ∧
      (AudioStream.set defs isOut spec format channels rate).mSampleSpec.channelCount
          = spec.channelCount) ∧
    (rate = none →
      (AudioStream.set defs isOut spec format channels rate).mSampleSpec.sampleRate
          = spec.sampleRate) ∧
    (format = none →
      (AudioStream.set defs isOut spec format channels rate).mSampleSpec.format
          = spec.format) := by
  have hfields : ∀ (fmt : Option Int) (ch rt : Option Nat),
      (∀ c, ch = some c →
        (AudioStream.set defs isOut spec fmt ch rt).mSampleSpec.channelMask
            = (if validChannels c then c else defaultChannels defs isOut) ∧
        (AudioStream.set defs isOut spec fmt ch rt).mSampleSpec.channelCount
            = popcount (if validChannels c then c else defaultChannels defs isOut)) ∧
      (∀ r, rt = some r →
        (AudioStream.set defs isOut spec fmt ch rt).mSampleSpec.sampleRate
            = (if validRate r then r else mDefaultSampleRate)) ∧
      (∀ f, fmt = some f →
        (AudioStream.set defs isOut spec fmt ch rt).mSampleSpec.format
            = (if validFormat defs f then f else defs.AUDIO_FORMAT_PCM_16_BIT)) ∧
      (ch = none →
        (AudioStream.set defs isOut spec fmt ch rt).mSampleSpec.channelMask
            = spec.channelMask ∧
        (AudioStream.set defs isOut spec fmt ch rt).mSampleSpec.channelCount
            = spec.channelCount) ∧
      (rt = none →
        (AudioStream.set defs isOut spec fmt ch rt).mSampleSpec.sampleRate
            = spec.sampleRate) ∧
      (fmt = none →
        (AudioStream.set defs isOut spec fmt ch rt).mSampleSpec.format = spec.format) := by
    intro fmt ch rt
    rcases ch with _ | c <;> rcases rt with _ | r <;> rcases fmt with _ | f <;>
      simp [AudioStream.set, setChannels_some, setRate_some, setFormat_some _ _ _ h824,
        setChannels_none, setRate_none, setFormat_none, negotiatedChannels, negotiatedRate,
        negotiatedFormat]
  obtain ⟨h1, h2, h3, h4, h5, h6⟩ := hfields format channels rate
  refine ⟨?_, h1, h2, h3, h4, h5, h6⟩
  rcases (set_status defs isOut spec format channels rate).mp hbad with
    ⟨c, hc, _, hv⟩ | ⟨f, hf, _, hv⟩
  · refine Or.inl ⟨c, hc, hv, ?_⟩
    rw [(h1 c hc).1, if_neg hv]
  · refine Or.inr ⟨f, hf, hv, ?_⟩
    rw [h3 f hf, if_neg hv]

/-- Witness of C3 (amended) at the input of the counterexample. -/
theorem set_bad_value_state_witness :
    androidDefs.AUDIO_FORMAT_PCM_8_24_BIT ≠ 0 ∧
    (AudioStream.set androidDefs true ⟨44100, 3, 2, 4⟩ (some 99) none (some 8000)).status
      = status_t.BAD_VALUE ∧
    (AudioStream.set androidDefs true ⟨44100, 3, 2, 4⟩ (some 99) none
        (some 8000)).mSampleSpec.sampleRate
      = (if validRate 8000 then 8000 else mDefaultSampleRate) :=
  ⟨by decide, by decide,
   (set_bad_value_state androidDefs true ⟨44100, 3, 2, 4⟩ (some 99) none (some 8000)
      (by decide) (by decide)).2.2.1 8000 rfl⟩

/-! ## Platform state: effect of the elementary operations -/

theorem SameRegistry.same (s : AudioPlatformState) : SameRegistry s s :=
  ⟨rfl, rfl, rfl, fun _ => rfl⟩

theorem SameRegistry.andThen {s s1 s2 : AudioPlatformState} (h1 : SameRegistry s s1)
    (h2 : SameRegistry s1 s2) : SameRegistry s s2 :=
  ⟨h2.types.trans h1.types, h2.params.trans h1.params, h2.roster.trans h1.roster,
   fun k => (h2.shape k).trans (h1.shape k)⟩

theorem SameRegistry.ready {s s1 : AudioPlatformState} (h : SameRegistry s s1)
    (hr : StateChangedReady s) : StateChangedReady s1 := by
  obtain ⟨t, ht, hty⟩ := hr
  exact ⟨t, by rw [h.shape]; exact ht, by rw [h.types]; exact hty⟩

theorem SameRegistry.registered {s s1 : AudioPlatformState} (h : SameRegistry s s1)
    {k : String} (hr : Registered s k) : Registered s1 k := by
  unfold Registered at *; rw [h.shape]; exact hr

theorem lookup_map_snd {α : Type} (f : String → α → α) (m : List (String × α))
    (k : String) :
    (m.map (fun p => (p.1, f p.1 p.2))).lookup k = (m.lookup k).map (f k) := by
  induction m with
  | nil => rfl
  | cons p m ih =>
    obtain ⟨a, c⟩ := p
    simp only [List.map_cons, List.lookup_cons]
    by_cases hka : k = a
    · subst hka; simp
    · have hka2 : (k == a) = false := by simpa using hka
      simp only [hka2]
      exact ih

theorem mapFind_setCriterionValue (s : AudioPlatformState) (n k : String) (v : Nat) :
    mapFind (s.setCriterionValue n v).mRouteCriterionMap k =
      (mapFind s.mRouteCriterionMap k).map
        (fun c => if k = n then { c with value := v } else c) := by
  unfold AudioPlatformState.setCriterionValue mapFind
  simp only
  refine (lookup_map_snd (fun a (c : Criterion) => if a == n then { c with value := v } else c)
    s.mRouteCriterionMap k).trans ?_
  congr 1
  funext c
  by_cases h : k = n <;> simp [h]

theorem getValue_setCriterionValue (s : AudioPlatformState) (n k : String) (v : Nat) :
    getValue k (s.setCriterionValue n v) =
      if k = n then (getValue k s).map (fun _ => v) else getValue k s := by
  unfold getValue
  rw [mapFind_setCriterionValue]
  by_cases h : k = n
  · simp [h, Option.map_map, Function.comp_def]
  · simp [h]

theorem critType_setCriterionValue (s : AudioPlatformState) (n k : String) (v : Nat) :
    critType (s.setCriterionValue n v) k = critType s k := by
  unfold critType
  rw [mapFind_setCriterionValue]
  by_cases h : k = n
  · simp [h, Option.map_map, Function.comp_def]
  · simp [h]

theorem TraceStep.stay (s : AudioPlatformState) : TraceStep s s :=
  ⟨rfl, [], by simp, by simp⟩

theorem TraceStep.followedBy {s s1 s2 : AudioPlatformState} (h1 : TraceStep s s1)
    (h2 : TraceStep s1 s2) : TraceStep s s2 := by
  obtain ⟨p1, e1, h1, g1⟩ := h1
  obtain ⟨p2, e2, h2, g2⟩ := h2
  refine ⟨p2.trans p1, e1 ++ e2, by rw [h2, h1, List.append_assoc], ?_⟩
  intro e he
  rcases List.mem_append.mp he with h | h
  · exact g1 e h
  · exact g2 e h

theorem TraceStep.ofEmit (s : AudioPlatformState) (e : Event) (he : innerEvent e = true) :
    TraceStep s (s.emit e) :=
  ⟨rfl, [e], rfl, by simpa using he⟩

theorem TraceStep.of_eq {s s1 : AudioPlatformState}
    (hp : s1.mParameterVector = s.mParameterVector) (h : s1.trace = s.trace) :
    TraceStep s s1 :=
  ⟨hp, [], by simp [h], by simp⟩

theorem TraceStep.ofBind {α β : Type} {s : AudioPlatformState} (r : Result α)
    (f : α → AudioPlatformState → Result β) (h1 : TraceStep s r.state)
    (h2 : ∀ a s1, TraceStep s1 (f a s1).state) : TraceStep s (r.bind f).state := by
  cases r with
  | ok a s1 => exact h1.followedBy (h2 a s1)
  | fatal s1 => exact h1

theorem setPlatformStateEvent_trace (e : String) (s : AudioPlatformState) :
    TraceStep s (setPlatformStateEvent e s).state := by
  unfold setPlatformStateEvent
  split
  · exact TraceStep.stay s
  · split
    · exact TraceStep.stay s
    · split <;> exact TraceStep.of_eq rfl rfl

theorem setValue_trace (v : Nat) (n : String) (s : AudioPlatformState) :
    TraceStep s (setValue v n s).state := by
  unfold setValue
  split
  · exact TraceStep.stay s
  · split
    · refine TraceStep.followedBy ?_ (setPlatformStateEvent_trace _ _)
      exact ⟨rfl, [Event.setCriterionState n v], rfl, by simp [innerEvent]⟩
    · exact TraceStep.stay s

theorem applyPlatformConfiguration_trace (s : AudioPlatformState) :
    TraceStep s (applyPlatformConfiguration s).state := by
  unfold applyPlatformConfiguration
  split
  · exact TraceStep.stay s
  · rename_i c _
    refine @TraceStep.followedBy s ((s.emit (Event.setCriterionState
      mStateChangedCriterionName c.value)).emit Event.applyConfigurations) _ ?_ ?_
    · exact (TraceStep.ofEmit s (Event.setCriterionState mStateChangedCriterionName c.value)
        rfl).followedBy (TraceStep.ofEmit _ Event.applyConfigurations rfl)
    · unfold clearPlatformStateEvents
      split <;> exact TraceStep.of_eq rfl rfl

theorem setPlatformStateEvent_ok (e : String) (s : AudioPlatformState)
    (hr : StateChangedReady s) :
    ∃ s1, setPlatformStateEvent e s = Result.ok () s1 ∧ SameRegistry s s1 ∧
      ∀ k, k ≠ mStateChangedCriterionName → getValue k s1 = getValue k s := by
  obtain ⟨t, ht, hty⟩ := hr
  unfold critType at ht
  unfold setPlatformStateEvent
  cases hfind : mapFind s.mRouteCriterionMap mStateChangedCriterionName with
  | none => simp [hfind] at ht
  | some c =>
    have hct : c.criterionType = t := by simpa [hfind] using ht
    simp only
    rw [hct]
    cases hty2 : mapFind s.mRouteCriterionTypeMap t with
    | none => simp [hty2] at hty
    | some ty =>
      simp only
      cases ty.getNumericalValue e with
      | some eventId =>
        refine ⟨_, rfl, ⟨rfl, rfl, rfl, fun k => critType_setCriterionValue _ _ _ _⟩, ?_⟩
        intro k hk
        rw [getValue_setCriterionValue, if_neg hk]
      | none =>
        refine ⟨_, rfl, ⟨rfl, rfl, rfl, fun k => ?_⟩, ?_⟩
        · rw [critType_setCriterionValue]; rfl
        · intro k hk
          rw [getValue_setCriterionValue, if_neg hk]; rfl

theorem registered_iff_find (s : AudioPlatformState) (k : String) :
    Registered s k ↔ ∃ c, mapFind s.mRouteCriterionMap k = some c := by
  unfold Registered critType
  cases mapFind s.mRouteCriterionMap k <;> simp

theorem StateChangedReady.selfRegistered {s : AudioPlatformState} (hr : StateChangedReady s) :
    Registered s mStateChangedCriterionName := by
  obtain ⟨t, ht, _⟩ := hr
  unfold Registered; rw [ht]; rfl

theorem setValue_ok (v : Nat) (n : String) (s : AudioPlatformState)
    (hr : StateChangedReady s) (hn : Registered s n) (hne : n ≠ mStateChangedCriterionName) :
    ∃ s1, setValue v n s = Result.ok () s1 ∧ SameRegistry s s1 ∧
      getValue n s1 = some v ∧
      ∀ k, k ≠ n → k ≠ mStateChangedCriterionName → getValue k s1 = getValue k s := by
  obtain ⟨c, hc⟩ := (registered_iff_find s n).mp hn
  unfold setValue
  rw [hc]
  simp only
  by_cases hv : c.value = v
  · refine ⟨s, by simp [hv], SameRegistry.same s, ?_, fun _ _ _ => rfl⟩
    unfold getValue; rw [hc]; simp [hv]
  · have hv2 : (c.value != v) = true := by simpa using hv
    rw [if_pos hv2]
    have hreg : SameRegistry s
        ((s.setCriterionValue n v).emit (Event.setCriterionState n v)) :=
      ⟨rfl, rfl, rfl, fun k => critType_setCriterionValue s n k v⟩
    obtain ⟨s1, h1, hs1, hval⟩ := setPlatformStateEvent_ok n _ (hreg.ready hr)
    refine ⟨s1, h1, hreg.andThen hs1, ?_, ?_⟩
    · rw [hval n hne]
      show getValue n (s.setCriterionValue n v) = some v
      rw [getValue_setCriterionValue, if_pos rfl]
      unfold getValue; rw [hc]; rfl
    · intro k hk hk2
      rw [hval k hk2]
      show getValue k (s.setCriterionValue n v) = getValue k s
      rw [getValue_setCriterionValue, if_neg hk]

theorem applyPlatformConfiguration_ok (s : AudioPlatformState) (hr : StateChangedReady s) :
    ∃ s1, applyPlatformConfiguration s = Result.ok () s1 ∧ SameRegistry s s1 ∧
      (∀ k, k ≠ mStateChangedCriterionName → getValue k s1 = getValue k s) ∧
      getValue mStateChangedCriterionName s1 = some 0 ∧ s1.mAudioPfwHasChanged = false := by
  obtain ⟨c, hc⟩ := (registered_iff_find s _).mp hr.selfRegistered
  unfold applyPlatformConfiguration clearPlatformStateEvents
  rw [hc]
  simp only
  have hc2 : mapFind ((s.emit (Event.setCriterionState mStateChangedCriterionName
      c.value)).emit Event.applyConfigurations).mRouteCriterionMap
      mStateChangedCriterionName = some c := hc
  rw [hc2]
  refine ⟨_, rfl, ⟨rfl, rfl, rfl, fun k => ?_⟩, ?_, ?_, rfl⟩
  · exact critType_setCriterionValue _ _ _ _
  · intro k hk
    show getValue k (AudioPlatformState.setCriterionValue _ _ _) = _
    rw [getValue_setCriterionValue, if_neg hk]; rfl
  · show getValue _ (AudioPlatformState.setCriterionValue _ _ _) = _
    rw [getValue_setCriterionValue, if_pos rfl]
    show Option.map _ (getValue mStateChangedCriterionName s) = _
    unfold getValue; rw [hc]; rfl

/-! ## The roster aggregates -/

theorem updateActiveStreamsLoop_out (defs : AudioDefs) (heap : Heap) (l : List StreamPtr)
    (m e : Nat) (s : AudioPlatformState) :
    updateActiveStreamsLoop defs heap true l m e s =
      Result.ok ((l.filter (fun p => (heap p).getDevices != 0)).foldl
        (fun acc p => acc ||| (heap p).getApplicabilityMask) m, e) s := by
  induction l generalizing m with
  | nil => rfl
  | cons p l ih =>
    unfold updateActiveStreamsLoop
    by_cases hd : (heap p).getDevices = 0
    · simp [hd, ih]
    · simp [hd, ih]

theorem updateActiveStreamsLoop_in (defs : AudioDefs) (heap : Heap) (l : List StreamPtr)
    (m e : Nat) (s : AudioPlatformState) :
    updateActiveStreamsLoop defs heap false l m e s =
      match activeInput heap l with
      | none => Result.ok (m, e) s
      | some p =>
        (setVoipBandType defs (heap p) s).bind fun _ s1 =>
          Result.ok (m ||| (heap p).getApplicabilityMask, (heap p).getEffectRequested) s1 := by
  induction l with
  | nil => rfl
  | cons p l ih =>
    unfold updateActiveStreamsLoop activeInput
    by_cases hd : (heap p).getDevices = 0
    · simp only [hd, bne_self_eq_false, Bool.false_eq_true, if_false, List.find?_cons]
      exact ih
    · have hd2 : ((heap p).getDevices != 0) = true := by simpa using hd
      simp [hd2]

theorem updateActiveStreamsParameters_out (defs : AudioDefs) (heap : Heap)
    (s : AudioPlatformState) (hr : StateChangedReady s)
    (ho : Registered s mOutputFlagsCriterionName) :
    ∃ s1, updateActiveStreamsParameters defs heap true s = Result.ok () s1 ∧
      SameRegistry s s1 ∧
      getValue mOutputFlagsCriterionName s1
        = some (routedMask heap (s.mActiveStreamsList true)) ∧
      ∀ k, k ≠ mOutputFlagsCriterionName → k ≠ mStateChangedCriterionName →
        getValue k s1 = getValue k s := by
  obtain ⟨s1, h1, r1, v1, o1⟩ := setValue_ok (routedMask heap (s.mActiveStreamsList true))
    mOutputFlagsCriterionName s hr ho (by decide)
  obtain ⟨s2, h2, r2, o2, _⟩ := applyPlatformConfiguration_ok s1 (r1.ready hr)
  refine ⟨s2, ?_, r1.andThen r2, ?_, ?_⟩
  · unfold updateActiveStreamsParameters
    rw [updateActiveStreamsLoop_out]
    simp only [Result.bind, if_true]
    unfold routedMask at h1
    rw [h1]
    simpa [Result.bind] using h2
  · rw [o2 _ (by decide), v1]
  · intro k hk hk2
    rw [o2 k hk2, o1 k hk hk2]

theorem updateActiveStreamsParameters_in (defs : AudioDefs) (heap : Heap)
    (s : AudioPlatformState) (hr : StateChangedReady s)
    (hi : Registered s mInputSourcesCriterionName)
    (hp : Registered s mPreProcRequestedByActiveInputCriterionName)
    (hv : (activeInput heap (s.mActiveStreamsList false)).isSome = true →
      Registered s mVoipBandCriterionName) :
    ∃ s1, updateActiveStreamsParameters defs heap false s = Result.ok () s1 ∧
      SameRegistry s s1 ∧
      getValue mInputSourcesCriterionName s1
        = some (match activeInput heap (s.mActiveStreamsList false) with
                | some p => (heap p).getApplicabilityMask
                | none => 0) ∧
      getValue mPreProcRequestedByActiveInputCriterionName s1
        = some (match activeInput heap (s.mActiveStreamsList false) with
                | some p => (heap p).getEffectRequested
                | none => 0) ∧
      getValue mVoipBandCriterionName s1
        = (match activeInput heap (s.mActiveStreamsList false) with
           | some p => some (voipBand defs (heap p))
           | none => getValue mVoipBandCriterionName s) ∧
      ∀ k, k ≠ mInputSourcesCriterionName →
        k ≠ mPreProcRequestedByActiveInputCriterionName → k ≠ mVoipBandCriterionName →
        k ≠ mStateChangedCriterionName → getValue k s1 = getValue k s := by
  -- the loop: either no active input, or the band type of the first one is set
  have hloop : ∃ s0, updateActiveStreamsLoop defs heap false (s.mActiveStreamsList false) 0 0 s
        = Result.ok
            ((match activeInput heap (s.mActiveStreamsList false) with
              | some p => (heap p).getApplicabilityMask
              | none => 0),
             (match activeInput heap (s.mActiveStreamsList false) with
              | some p => (heap p).getEffectRequested
              | none => 0)) s0 ∧
      SameRegistry s s0 ∧
      getValue mVoipBandCriterionName s0
        = (match activeInput heap (s.mActiveStreamsList false) with
           | some p => some (voipBand defs (heap p))
           | none => getValue mVoipBandCriterionName s) ∧
      ∀ k, k ≠ mVoipBandCriterionName → k ≠ mStateChangedCriterionName →
        getValue k s0 = getValue k s := by
    rw [updateActiveStreamsLoop_in]
    cases ha : activeInput heap (s.mActiveStreamsList false) with
    | none => exact ⟨s, rfl, SameRegistry.same s, rfl, fun _ _ _ => rfl⟩
    | some p =>
      rw [ha] at hv
      obtain ⟨s0, h0, r0, v0, o0⟩ := setValue_ok (voipBand defs (heap p))
        mVoipBandCriterionName s hr (hv rfl) (by decide)
      refine ⟨s0, ?_, r0, v0, o0⟩
      have hb : setVoipBandType defs (heap p) s = Result.ok () s0 := by
        unfold setVoipBandType
        unfold voipBand at h0
        simpa using h0
      simp [hb, Result.bind]
  obtain ⟨s0, h0, r0, v0, o0⟩ := hloop
  obtain ⟨s1, h1, r1, v1, o1⟩ := setValue_ok
    (match activeInput heap (s.mActiveStreamsList false) with
      | some p => (heap p).getApplicabilityMask
      | none => 0)
    mInputSourcesCriterionName s0 (r0.ready hr) (r0.registered hi) (by decide)
  obtain ⟨s2, h2, r2, v2, o2⟩ := setValue_ok
    (match activeInput heap (s.mActiveStreamsList false) with
      | some p => (heap p).getEffectRequested
      | none => 0)
    mPreProcRequestedByActiveInputCriterionName s1 ((r0.andThen r1).ready hr)
    ((r0.andThen r1).registered hp) (by decide)
  obtain ⟨s3, h3, r3, o3, _⟩ := applyPlatformConfiguration_ok s2
    (((r0.andThen r1).andThen r2).ready hr)
  refine ⟨s3, ?_, ((r0.andThen r1).andThen r2).andThen r3, ?_, ?_, ?_, ?_⟩
  · unfold updateActiveStreamsParameters
    rw [h0]
    simp only [Result.bind, Bool.false_eq_true, if_false, Bool.not_false, if_true]
    rw [h1]
    simp only
    rw [h2]
    simpa using h3
  · rw [o3 _ (by decide), o2 _ (by decide) (by decide), v1]
  · rw [o3 _ (by decide), v2]
  · rw [o3 _ (by decide), o2 _ (by decide) (by decide), o1 _ (by decide) (by decide), v0]
  · intro k k1 k2 k3 k4
    rw [o3 k k4, o2 k k2 k4, o1 k k1 k4, o0 k k3 k4]

theorem activeInput_first (heap : Heap) (pre rest : List StreamPtr) (p : StreamPtr)
    (hpre : ∀ q ∈ pre, (heap q).getDevices = 0) (hp : (heap p).getDevices ≠ 0) :
    activeInput heap (pre ++ p :: rest) = some p := by
  unfold activeInput
  induction pre with
  | nil => simp [hp]
  | cons q pre ih =>
    have hq : (heap q).getDevices = 0 := hpre q (by simp)
    simp only [List.cons_append, List.find?_cons, hq, bne_self_eq_false]
    exact ih (fun r hr => hpre r (by simp [hr]))

theorem activeInput_none (heap : Heap) (l : List StreamPtr)
    (h : ∀ q ∈ l, (heap q).getDevices = 0) : activeInput heap l = none := by
  unfold activeInput
  rw [List.find?_eq_none]
  intro q hq
  simp [h q hq]

/-- C5: for the capture direction, with the criteria it writes registered,
`updateActiveStreamsParameters(false)` returns and takes the first roster
stream whose device mask is non-zero as the active input: `InputSources` is
that stream's applicability mask, `PreProcessorRequestedByActiveInput` its
requested-effects mask and `VoIPBandType` narrow when its sample rate is the
narrow-band voice rate and wide otherwise, whatever the later roster entries
are; when no roster stream has a non-zero device mask, `InputSources` and
`PreProcessorRequestedByActiveInput` are 0 and `VoIPBandType` is unchanged. -/
theorem capture_selects_first_routed_input (defs : AudioDefs) (heap : Heap)
    (s : AudioPlatformState) (hr : StateChangedReady s)
    (hi : Registered s mInputSourcesCriterionName)
    (hp : Registered s mPreProcRequestedByActiveInputCriterionName)
    (hv : Registered s mVoipBandCriterionName) :
    ∃ s1, updateActiveStreamsParameters defs heap false s = Result.ok () s1 ∧
      (∀ pre p rest, s.mActiveStreamsList false = pre ++ p :: rest →
        (∀ q ∈ pre, (heap q).getDevices = 0) → (heap p).getDevices ≠ 0 →
          getValue mInputSourcesCriterionName s1 = some (heap p).getApplicabilityMask ∧
          getValue mPreProcRequestedByActiveInputCriterionName s1
            = some (heap p).getEffectRequested ∧
          getValue mVoipBandCriterionName s1
            = some (if (heap p).sampleRate = defs.mVoiceStreamRateForNarrowBandProcessing
                    then defs.ENarrow else defs.EWide)) ∧
      ((∀ q ∈ s.mActiveStreamsList false, (heap q).getDevices = 0) →
          getValue mInputSourcesCriterionName s1 = some 0 ∧
          getValue mPreProcRequestedByActiveInputCriterionName s1 = some 0 ∧
          getValue mVoipBandCriterionName s1 = getValue mVoipBandCriterionName s) := by
  obtain ⟨s1, h1, _, vi, vp, vv, _⟩ :=
    updateActiveStreamsParameters_in defs heap s hr hi hp (fun _ => hv)
  refine ⟨s1, h1, ?_, ?_⟩
  · intro pre p rest hl hpre hpd
    have ha := activeInput_first heap pre rest p hpre hpd
    rw [← hl] at ha
    rw [ha] at vi vp vv
    exact ⟨vi, vp, vv⟩
  · intro hall
    have ha := activeInput_none heap _ hall
    rw [ha] at vi vp vv
    exact ⟨vi, vp, vv⟩

theorem sampleState_ready : StateChangedReady sampleState :=
  ⟨"StatesChanged", by decide, by decide⟩

theorem sampleRosterState_ready : StateChangedReady sampleRosterState :=
  ⟨"StatesChanged", by decide, by decide⟩

/-- Witness of C5: with the input roster [3, 4, 5], stream 3 has no device and
stream 4 is the active input; stream 5 is ignored. -/
theorem capture_selects_first_routed_input_witness :
    StateChangedReady sampleRosterState ∧
    Registered sampleRosterState mInputSourcesCriterionName ∧
    Registered sampleRosterState mPreProcRequestedByActiveInputCriterionName ∧
    Registered sampleRosterState mVoipBandCriterionName ∧
    ∃ s1, updateActiveStreamsParameters androidDefs sampleHeap false sampleRosterState
        = Result.ok () s1 ∧
      getValue mInputSourcesCriterionName s1 = some 32 ∧
      getValue mPreProcRequestedByActiveInputCriterionName s1 = some 3 ∧
      getValue mVoipBandCriterionName s1 = some 0 := by
  refine ⟨sampleRosterState_ready, by decide, by decide, by decide, ?_⟩
  obtain ⟨s1, h1, hfirst, _⟩ := capture_selects_first_routed_input androidDefs sampleHeap
    sampleRosterState sampleRosterState_ready (by decide) (by decide) (by decide)
  exact ⟨s1, h1, hfirst [3] 4 [5] rfl (by decide) (by decide)⟩

/-! ## Sequences of `startStream` / `stopStream` -/

theorem roster_update_step (defs : AudioDefs) (heap : Heap) (s : AudioPlatformState)
    (roster : Bool → List StreamPtr) (isOut : Bool)
    (hroster : roster (!isOut) = s.mActiveStreamsList (!isOut))
    (hr : StateChangedReady s)
    (ho : Registered s mOutputFlagsCriterionName)
    (hi : Registered s mInputSourcesCriterionName)
    (hp : Registered s mPreProcRequestedByActiveInputCriterionName)
    (hv : Registered s mVoipBandCriterionName) :
    ∃ s1, ((updateActiveStreamsParameters defs heap isOut
          { s.emit Event.writeLock with mActiveStreamsList := roster }).bind
          fun _ s3 => Result.ok () (s3.emit Event.unlock)) = Result.ok () s1 ∧
      StateChangedReady s1 ∧
      Registered s1 mOutputFlagsCriterionName ∧
      Registered s1 mInputSourcesCriterionName ∧
      Registered s1 mPreProcRequestedByActiveInputCriterionName ∧
      Registered s1 mVoipBandCriterionName ∧
      s1.mActiveStreamsList = roster ∧
      (isOut = true → OutputAggregateOk heap s1 ∧
        (InputAggregateOk heap s → InputAggregateOk heap s1)) ∧
      (isOut = false → InputAggregateOk heap s1 ∧
        (OutputAggregateOk heap s → OutputAggregateOk heap s1)) := by
  have hreg : SameRegistry { s with mActiveStreamsList := roster }
      { s.emit Event.writeLock with mActiveStreamsList := roster } :=
    ⟨rfl, rfl, rfl, fun _ => rfl⟩
  have hr2 : StateChangedReady { s.emit Event.writeLock with mActiveStreamsList := roster } :=
    hr
  cases isOut with
  | true =>
    obtain ⟨s3, h3, r3, v3, o3⟩ := updateActiveStreamsParameters_out defs heap _ hr2 ho
    refine ⟨s3.emit Event.unlock, by rw [h3]; rfl, r3.ready hr2, r3.registered ho,
      r3.registered hi, r3.registered hp, r3.registered hv, r3.roster, ?_, ?_⟩
    · intro _
      refine ⟨?_, ?_⟩
      · show getValue mOutputFlagsCriterionName s3 = some (routedMask heap
          (s3.mActiveStreamsList true))
        rw [v3, r3.roster]
      · intro hin
        show getValue mInputSourcesCriterionName s3 = some (activeInputMask heap
          (s3.mActiveStreamsList false))
        rw [o3 _ (by decide) (by decide), r3.roster]
        show getValue mInputSourcesCriterionName s = some (activeInputMask heap (roster false))
        have hrf : roster false = s.mActiveStreamsList false := hroster
        rw [hrf]; exact hin
    · intro h; cases h
  | false =>
    obtain ⟨s3, h3, r3, v3, _, _, o3⟩ :=
      updateActiveStreamsParameters_in defs heap _ hr2 hi hp (fun _ => hv)
    refine ⟨s3.emit Event.unlock, by rw [h3]; rfl, r3.ready hr2, r3.registered ho,
      r3.registered hi, r3.registered hp, r3.registered hv, r3.roster, ?_, ?_⟩
    · intro h; cases h
    · intro _
      refine ⟨?_, ?_⟩
      · show getValue mInputSourcesCriterionName s3 = some (activeInputMask heap
          (s3.mActiveStreamsList false))
        rw [v3, r3.roster]; rfl
      · intro hout
        show getValue mOutputFlagsCriterionName s3 = some (routedMask heap
          (s3.mActiveStreamsList true))
        rw [o3 _ (by decide) (by decide) (by decide) (by decide), r3.roster]
        show getValue mOutputFlagsCriterionName s = some (routedMask heap (roster true))
        have hrf : roster true = s.mActiveStreamsList true := hroster
        rw [hrf]; exact hout

theorem runCall_step (defs : AudioDefs) (heap : Heap) (c : StreamCall)
    (s : AudioPlatformState) (hc : c.stream ≠ NULL)
    (hr : StateChangedReady s)
    (ho : Registered s mOutputFlagsCriterionName)
    (hi : Registered s mInputSourcesCriterionName)
    (hp : Registered s mPreProcRequestedByActiveInputCriterionName)
    (hv : Registered s mVoipBandCriterionName) :
    ∃ s1, runCall defs heap c s = Result.ok () s1 ∧
      StateChangedReady s1 ∧
      Registered s1 mOutputFlagsCriterionName ∧
      Registered s1 mInputSourcesCriterionName ∧
      Registered s1 mPreProcRequestedByActiveInputCriterionName ∧
      Registered s1 mVoipBandCriterionName ∧
      ((heap c.stream).isOut = true → OutputAggregateOk heap s1 ∧
        (InputAggregateOk heap s → InputAggregateOk heap s1)) ∧
      ((heap c.stream).isOut = false → InputAggregateOk heap s1 ∧
        (OutputAggregateOk heap s → OutputAggregateOk heap s1)) := by
  cases c with
  | startStream p =>
    have hp0 : (p == NULL) = false := by simpa [StreamCall.stream] using hc
    obtain ⟨s1, h1, a1, a2, a3, a4, a5, _, a7, a8⟩ := roster_update_step defs heap s
      (fun d => if d = (heap p).isOut then s.mActiveStreamsList d ++ [p]
        else s.mActiveStreamsList d) (heap p).isOut
      (by cases (heap p).isOut <;> simp) hr ho hi hp hv
    refine ⟨s1, ?_, a1, a2, a3, a4, a5, a7, a8⟩
    unfold runCall startStream
    simp only [hp0, Bool.false_eq_true, if_false]
    exact h1
  | stopStream p =>
    have hp0 : (p == NULL) = false := by simpa [StreamCall.stream] using hc
    obtain ⟨s1, h1, a1, a2, a3, a4, a5, _, a7, a8⟩ := roster_update_step defs heap s
      (fun d => if d = (heap p).isOut then (s.mActiveStreamsList d).filter (fun q => q != p)
        else s.mActiveStreamsList d) (heap p).isOut
      (by cases (heap p).isOut <;> simp) hr ho hi hp hv
    refine ⟨s1, ?_, a1, a2, a3, a4, a5, a7, a8⟩
    unfold runCall stopStream
    simp only [hp0, Bool.false_eq_true, if_false]
    exact h1

theorem roster_update_other (defs : AudioDefs) (heap : Heap) (s s1 : AudioPlatformState)
    (roster : Bool → List StreamPtr) (isOut : Bool)
    (hroster : roster (!isOut) = s.mActiveStreamsList (!isOut))
    (hr : StateChangedReady s)
    (ho : Registered s mOutputFlagsCriterionName)
    (hi : Registered s mInputSourcesCriterionName)
    (hp : Registered s mPreProcRequestedByActiveInputCriterionName)
    (hv : Registered s mVoipBandCriterionName)
    (h : ((updateActiveStreamsParameters defs heap isOut
          { s.emit Event.writeLock with mActiveStreamsList := roster }).bind
          fun _ s3 => Result.ok () (s3.emit Event.unlock)) = Result.ok () s1) :
    (isOut = true →
      getValue mInputSourcesCriterionName s1 = getValue mInputSourcesCriterionName s ∧
      s1.mActiveStreamsList false = s.mActiveStreamsList false) ∧
    (isOut = false →
      getValue mOutputFlagsCriterionName s1 = getValue mOutputFlagsCriterionName s ∧
      s1.mActiveStreamsList true = s.mActiveStreamsList true) := by
  have hr2 : StateChangedReady { s.emit Event.writeLock with mActiveStreamsList := roster } :=
    hr
  cases isOut with
  | true =>
    obtain ⟨s3, h3, r3, _, o3⟩ := updateActiveStreamsParameters_out defs heap _ hr2 ho
    rw [h3] at h
    simp only [Result.bind, Result.ok.injEq, true_and] at h
    subst h
    refine ⟨fun _ => ⟨?_, ?_⟩, fun hx => (by cases hx)⟩
    · show getValue mInputSourcesCriterionName s3 = _
      rw [o3 _ (by decide) (by decide)]
      rfl
    · show s3.mActiveStreamsList false = _
      rw [r3.roster]
      exact hroster
  | false =>
    obtain ⟨s3, h3, r3, _, _, _, o3⟩ :=
      updateActiveStreamsParameters_in defs heap _ hr2 hi hp (fun _ => hv)
    rw [h3] at h
    simp only [Result.bind, Result.ok.injEq, true_and] at h
    subst h
    refine ⟨fun hx => (by cases hx), fun _ => ⟨?_, ?_⟩⟩
    · show getValue mOutputFlagsCriterionName s3 = _
      rw [o3 _ (by decide) (by decide) (by decide) (by decide)]
      rfl
    · show s3.mActiveStreamsList true = _
      rw [r3.roster]
      exact hroster

theorem runCall_other_direction (defs : AudioDefs) (heap : Heap) (c : StreamCall)
    (s s1 : AudioPlatformState) (hc : c.stream ≠ NULL)
    (hr : StateChangedReady s)
    (ho : Registered s mOutputFlagsCriterionName)
    (hi : Registered s mInputSourcesCriterionName)
    (hp : Registered s mPreProcRequestedByActiveInputCriterionName)
    (hv : Registered s mVoipBandCriterionName)
    (h : runCall defs heap c s = Result.ok () s1) :
    ((heap c.stream).isOut = true →
      getValue mInputSourcesCriterionName s1 = getValue mInputSourcesCriterionName s ∧
      s1.mActiveStreamsList false = s.mActiveStreamsList false) ∧
    ((heap c.stream).isOut = false →
      getValue mOutputFlagsCriterionName s1 = getValue mOutputFlagsCriterionName s ∧
      s1.mActiveStreamsList true = s.mActiveStreamsList true) := by
  cases c with
  | startStream p =>
    have hp0 : (p == NULL) = false := by simpa [StreamCall.stream] using hc
    unfold runCall startStream at h
    simp only [hp0, Bool.false_eq_true, if_false] at h
    exact roster_update_other defs heap s s1
      (fun d => if d = (heap p).isOut then s.mActiveStreamsList d ++ [p]
        else s.mActiveStreamsList d) (heap p).isOut
      (by cases (heap p).isOut <;> simp) hr ho hi hp hv h
  | stopStream p =>
    have hp0 : (p == NULL) = false := by simpa [StreamCall.stream] using hc
    unfold runCall stopStream at h
    simp only [hp0, Bool.false_eq_true, if_false] at h
    exact roster_update_other defs heap s s1
      (fun d => if d = (heap p).isOut then (s.mActiveStreamsList d).filter (fun q => q != p)
        else s.mActiveStreamsList d) (heap p).isOut
      (by cases (heap p).isOut <;> simp) hr ho hi hp hv h

theorem runCalls_invariant (defs : AudioDefs) (calls : List (Heap × StreamCall)) :
    ∀ (s : AudioPlatformState), (∀ hc ∈ calls, hc.2.stream ≠ NULL) →
      StateChangedReady s →
      Registered s mOutputFlagsCriterionName →
      Registered s mInputSourcesCriterionName →
      Registered s mPreProcRequestedByActiveInputCriterionName →
      Registered s mVoipBandCriterionName →
      ∃ s1, runCalls defs calls s = Result.ok () s1 ∧
        (∀ heap, lastHeap true calls = some heap → OutputAggregateOk heap s1) ∧
        (lastHeap true calls = none →
          getValue mOutputFlagsCriterionName s1 = getValue mOutputFlagsCriterionName s ∧
          s1.mActiveStreamsList true = s.mActiveStreamsList true) ∧
        (∀ heap, lastHeap false calls = some heap → InputAggregateOk heap s1) ∧
        (lastHeap false calls = none →
          getValue mInputSourcesCriterionName s1 = getValue mInputSourcesCriterionName s ∧
          s1.mActiveStreamsList false = s.mActiveStreamsList false) := by
  induction calls with
  | nil =>
    intro s _ _ _ _ _ _
    exact ⟨s, rfl, fun _ h => (by cases h), fun _ => ⟨rfl, rfl⟩, fun _ h => (by cases h),
      fun _ => ⟨rfl, rfl⟩⟩
  | cons hc cs ih =>
    obtain ⟨heap, c⟩ := hc
    intro s hnn hr ho hi hp hv
    have hcn : c.stream ≠ NULL := hnn (heap, c) (by simp)
    obtain ⟨s1, h1, a1, a2, a3, a4, a5, hout, hin⟩ :=
      runCall_step defs heap c s hcn hr ho hi hp hv
    obtain ⟨kout, kin⟩ := runCall_other_direction defs heap c s s1 hcn hr ho hi hp hv h1
    obtain ⟨s2, h2, o2, on2, i2, in2⟩ :=
      ih s1 (fun d hd => hnn d (by simp [hd])) a1 a2 a3 a4 a5
    refine ⟨s2, ?_, ?_, ?_, ?_, ?_⟩
    · unfold runCalls
      rw [h1]
      exact h2
    · intro h hl
      unfold lastHeap at hl
      cases hcs : lastHeap true cs with
      | some h' =>
        rw [hcs] at hl
        simp only [Option.some.injEq] at hl
        subst hl
        exact o2 _ hcs
      | none =>
        rw [hcs] at hl
        simp only at hl
        by_cases hdir : (heap c.stream).isOut = true
        · simp only [hdir, if_true, Option.some.injEq] at hl
          subst hl
          obtain ⟨hv2, hr2⟩ := on2 hcs
          unfold OutputAggregateOk
          rw [hv2, hr2]
          exact (hout hdir).1
        · simp [hdir] at hl
    · intro hl
      unfold lastHeap at hl
      cases hcs : lastHeap true cs with
      | some h' => simp [hcs] at hl
      | none =>
        rw [hcs] at hl
        simp only at hl
        by_cases hdir : (heap c.stream).isOut = true
        · simp [hdir] at hl
        · have hdir2 : (heap c.stream).isOut = false := by simpa using hdir
          obtain ⟨hv2, hr2⟩ := on2 hcs
          obtain ⟨hv1, hr1⟩ := kin hdir2
          exact ⟨hv2.trans hv1, hr2.trans hr1⟩
    · intro h hl
      unfold lastHeap at hl
      cases hcs : lastHeap false cs with
      | some h' =>
        rw [hcs] at hl
        simp only [Option.some.injEq] at hl
        subst hl
        exact i2 _ hcs
      | none =>
        rw [hcs] at hl
        simp only at hl
        by_cases hdir : (heap c.stream).isOut = false
        · simp only [hdir, if_true, Option.some.injEq] at hl
          subst hl
          obtain ⟨hv2, hr2⟩ := in2 hcs
          unfold InputAggregateOk
          rw [hv2, hr2]
          exact (hin hdir).1
        · simp [hdir] at hl
    · intro hl
      unfold lastHeap at hl
      cases hcs : lastHeap false cs with
      | some h' => simp [hcs] at hl
      | none =>
        rw [hcs] at hl
        simp only at hl
        by_cases hdir : (heap c.stream).isOut = false
        · simp [hdir] at hl
        · have hdir2 : (heap c.stream).isOut = true := by simpa using hdir
          obtain ⟨hv2, hr2⟩ := in2 hcs
          obtain ⟨hv1, hr1⟩ := kout hdir2
          exact ⟨hv2.trans hv1, hr2.trans hr1⟩

set_option maxRecDepth 100000 in
/-- Counterexample to C4 as stated. Starting the output stream 1, which has no
device but flags 4, leaves `OutputFlags` at 0 while the OR of the masks of
the output roster is 4; starting the routed input streams 4 and 5 leaves
`InputSources` at 32, the source of stream 4, while the OR over the input
roster is 96; and when the flags of the routed output stream 2 change from
1 to 8 after it was started, a later call on an input stream leaves
`OutputFlags` at 1, the value computed at the last output call, while the
output roster now gives 8. -/
theorem aggregate_is_not_roster_or :
    (runCalls androidDefs [(sampleHeap, StreamCall.startStream 1)] sampleState).isOk = true ∧
    (runCalls androidDefs [(sampleHeap, StreamCall.startStream 1)]
        sampleState).state.mActiveStreamsList true = [1] ∧
    getValue mOutputFlagsCriterionName
        (runCalls androidDefs [(sampleHeap, StreamCall.startStream 1)] sampleState).state
      = some 0 ∧
    rosterMask sampleHeap [1] = 4 ∧
    (runCalls androidDefs
        [(sampleHeap, StreamCall.startStream 4), (sampleHeap, StreamCall.startStream 5)]
        sampleState).isOk = true ∧
    (runCalls androidDefs
        [(sampleHeap, StreamCall.startStream 4), (sampleHeap, StreamCall.startStream 5)]
        sampleState).state.mActiveStreamsList false = [4, 5] ∧
    getValue mInputSourcesCriterionName
        (runCalls androidDefs
          [(sampleHeap, StreamCall.startStream 4), (sampleHeap, StreamCall.startStream 5)]
          sampleState).state
      = some 32 ∧
    rosterMask sampleHeap [4, 5] = 96 ∧
    (runCalls androidDefs
        [(sampleHeap, StreamCall.startStream 2), (sampleHeapRemasked, StreamCall.startStream 3)]
        sampleState).isOk = true ∧
    (runCalls androidDefs
        [(sampleHeap, StreamCall.startStream 2), (sampleHeapRemasked, StreamCall.startStream 3)]
        sampleState).state.mActiveStreamsList true = [2] ∧
    getValue mOutputFlagsCriterionName
        (runCalls androidDefs
          [(sampleHeap, StreamCall.startStream 2),
           (sampleHeapRemasked, StreamCall.startStream 3)]
          sampleState).state
      = some 1 ∧
    rosterMask sampleHeapRemasked [2] = 8 ∧
    routedMask sampleHeapRemasked [2] = 8 := by
  decide

/-- C4 (amended): for every sequence of `startStream` / `stopStream` calls on
non-null streams, each made with the stream members as they are at that
call, on a platform state whose required criteria are registered, every call
returns, and for each direction in which a call was made the value of the
aggregate criterion after the last call is the one computed at the last call
made in that direction, from the device and applicability masks read at that
call and the roster of the direction after the last call: for output, the
bitwise OR of the applicability masks of the streams of the output roster
whose device mask is non-zero (`OutputFlags`); for input, the applicability
mask of the first stream of the input roster whose device mask is non-zero,
0 when there is none (`InputSources`). -/
theorem aggregate_after_calls (defs : AudioDefs) (calls : List (Heap × StreamCall))
    (s : AudioPlatformState) (hnn : ∀ hc ∈ calls, hc.2.stream ≠ NULL)
    (hr : StateChangedReady s)
    (ho : Registered s mOutputFlagsCriterionName)
    (hi : Registered s mInputSourcesCriterionName)
    (hp : Registered s mPreProcRequestedByActiveInputCriterionName)
    (hv : Registered s mVoipBandCriterionName) :
    ∃ s1, runCalls defs calls s = Result.ok () s1 ∧
      (∀ heap, lastHeap true calls = some heap →
        getValue mOutputFlagsCriterionName s1
          = some (routedMask heap (s1.mActiveStreamsList true))) ∧
      (∀ heap, lastHeap false calls = some heap →
        getValue mInputSourcesCriterionName s1
          = some (activeInputMask heap (s1.mActiveStreamsList false))) := by
  obtain ⟨s1, h1, o1, _, i1, _⟩ := runCalls_invariant defs calls s hnn hr ho hi hp hv
  exact ⟨s1, h1, o1, i1⟩

/-- Witness of C4 (amended): start the output streams 1 and 2 and the input
streams 3, 4 and 5, then, once the flags of stream 2 have changed, stop the
input stream 3: `InputSources` is computed from the members read at that
last call, `OutputFlags` from those read when stream 2 was started. -/
theorem aggregate_after_calls_witness :
    (∀ hc ∈ [(sampleHeap, StreamCall.startStream 1), (sampleHeap, StreamCall.startStream 2),
        (sampleHeap, StreamCall.startStream 3), (sampleHeap, StreamCall.startStream 4),
        (sampleHeap, StreamCall.startStream 5), (sampleHeapRemasked, StreamCall.stopStream 3)],
      hc.2.stream ≠ NULL) ∧
    StateChangedReady sampleState ∧
    Registered sampleState mOutputFlagsCriterionName ∧
    Registered sampleState mInputSourcesCriterionName ∧
    Registered sampleState mPreProcRequestedByActiveInputCriterionName ∧
    Registered sampleState mVoipBandCriterionName ∧
    ∃ s1, runCalls androidDefs
        [(sampleHeap, StreamCall.startStream 1), (sampleHeap, StreamCall.startStream 2),
         (sampleHeap, StreamCall.startStream 3), (sampleHeap, StreamCall.startStream 4),
         (sampleHeap, StreamCall.startStream 5), (sampleHeapRemasked, StreamCall.stopStream 3)]
        sampleState = Result.ok () s1 ∧
      getValue mInputSourcesCriterionName s1
        = some (activeInputMask sampleHeapRemasked (s1.mActiveStreamsList false)) ∧
      getValue mOutputFlagsCriterionName s1
        = some (routedMask sampleHeap (s1.mActiveStreamsList true)) := by
  refine ⟨?_, sampleState_ready, by decide, by decide, by decide, by decide, ?_⟩
  · intro hc hmem
    simp only [List.mem_cons, List.mem_singleton, List.not_mem_nil, or_false] at hmem
    rcases hmem with h | h | h | h | h | h <;> subst h <;> decide
  · obtain ⟨s1, h1, hout, hin⟩ := aggregate_after_calls androidDefs
      [(sampleHeap, StreamCall.startStream 1), (sampleHeap, StreamCall.startStream 2),
       (sampleHeap, StreamCall.startStream 3), (sampleHeap, StreamCall.startStream 4),
       (sampleHeap, StreamCall.startStream 5), (sampleHeapRemasked, StreamCall.stopStream 3)]
      sampleState
      (by
        intro hc hmem
        simp only [List.mem_cons, List.mem_singleton, List.not_mem_nil, or_false] at hmem
        rcases hmem with h | h | h | h | h | h <;> subst h <;> decide)
      sampleState_ready (by decide) (by decide) (by decide) (by decide)
    exact ⟨s1, h1, hin sampleHeapRemasked rfl, hout sampleHeap rfl⟩

/-! ## Registration of route criteria -/

theorem registered_iff_isSome (s : AudioPlatformState) (k : String) :
    Registered s k ↔ (mapFind s.mRouteCriterionMap k).isSome = true := by
  unfold Registered critType
  cases mapFind s.mRouteCriterionMap k <;> simp

/-- C6: registering a route criterion whose name is already a key of the route
criterion map is rejected by a fatal assertion, through `addRouteCriterion`
itself, through `addCriterion<Route>`, through
`addParameter<Route, ParamCriterion>` and through `loadCriterion`; in the state
where the run stops the route criterion map and the criterion type map (hence
the value set of the `StatesChanged` type) are those before the call. -/
theorem duplicate_route_criterion_rejected (s : AudioPlatformState)
    (name typeName defaultValue paramKey : String) (valuePairs : List (String × String))
    (set : String → Bool × Option String) (routeCriterion : Criterion)
    (hname : routeCriterion.name = name) (hdup : Registered s name) :
    addRouteCriterion routeCriterion s = Result.fatal s ∧
    addCriterionRoute name typeName defaultValue s = Result.fatal s ∧
    ((addParameterRouteCriterion typeName paramKey name defaultValue valuePairs set s).isOk
        = false ∧
      (addParameterRouteCriterion typeName paramKey name defaultValue valuePairs set
        s).state.mRouteCriterionMap = s.mRouteCriterionMap ∧
      (addParameterRouteCriterion typeName paramKey name defaultValue valuePairs set
        s).state.mRouteCriterionTypeMap = s.mRouteCriterionTypeMap) ∧
    loadCriterionRoute
      { criterionName := name, paramKeyName := paramKey, typeName := typeName,
        defaultValue := defaultValue, valuePairs := valuePairs, set := set } s
      = Result.fatal s := by
  have hsome := (registered_iff_isSome s name).mp hdup
  have hadd : ∀ (c : Criterion) (s1 : AudioPlatformState), c.name = name →
      s1.mRouteCriterionMap = s.mRouteCriterionMap →
      addRouteCriterion c s1 = Result.fatal s1 := by
    intro c s1 hc hs1
    unfold addRouteCriterion
    simp only [hc, hs1, hsome, if_true]
  refine ⟨hadd _ s hname rfl, ?_, ?_, ?_⟩
  · unfold addCriterionRoute
    cases mapFind s.mRouteCriterionTypeMap typeName with
    | none => rfl
    | some ty => exact hadd _ s rfl rfl
  · unfold addParameterRouteCriterion
    cases mapFind s.mRouteCriterionTypeMap typeName with
    | none => exact ⟨rfl, rfl, rfl⟩
    | some ty =>
      simp only
      rw [hadd (newCriterion name ty defaultValue)
        { s with mParameterVector := s.mParameterVector ++
            [{ key := paramKey, name := name, valuePairs := valuePairs, set := set }] }
        rfl rfl]
      exact ⟨rfl, rfl, rfl⟩
  · unfold loadCriterionRoute
    simp only [hsome, if_true]

/-- Witness of C6: `OutputFlags` is registered in the sample state. -/
theorem duplicate_route_criterion_rejected_witness :
    Registered sampleState "OutputFlags" ∧
    addCriterionRoute "OutputFlags" "Mask" "" sampleState = Result.fatal sampleState :=
  ⟨by decide,
   (duplicate_route_criterion_rejected sampleState "OutputFlags" "Mask" "" "" []
      (fun _ => (true, none)) { name := "OutputFlags", criterionType := "Mask", value := 0 }
      rfl (by decide)).2.1⟩

/-- The function `addRouteCriterion` has no bound on the number of criteria: a criterion
with a fresh name is registered whatever the size of the map, with the code
`1 << size` taken on 32 bits. -/
theorem addRouteCriterion_accepts (s : AudioPlatformState) (routeCriterion : Criterion)
    (stateChangedType : CriterionType)
    (hfresh : ¬ Registered s routeCriterion.name)
    (hty : mapFind s.mRouteCriterionTypeMap mStateChangedCriterionName
      = some stateChangedType) :
    addRouteCriterion routeCriterion s = Result.ok ()
      { s with
        mRouteCriterionTypeMap :=
          mapInsert s.mRouteCriterionTypeMap mStateChangedCriterionName
            (stateChangedType.addValuePair (shl32 s.mRouteCriterionMap.length)
              routeCriterion.name)
        mRouteCriterionMap :=
          mapInsert s.mRouteCriterionMap routeCriterion.name routeCriterion } := by
  have hnone : (mapFind s.mRouteCriterionMap routeCriterion.name).isSome = false := by
    rw [registered_iff_isSome] at hfresh
    simpa using hfresh
  unfold addRouteCriterion
  simp only [hnone, Bool.false_eq_true, if_false, hty]

set_option maxRecDepth 100000 in
/-- C7, evaluated on the code: once 32 route criteria are registered, registering
a 33rd one through `addCriterion<Route>` is not rejected. The call returns, the
route criterion map holds 33 criteria, and the code the new criterion gets in
the `StatesChanged` type is `1 << 32` taken on 32 bits, that is 0: no bit at
all. -/
theorem thirty_third_route_criterion_accepted :
    (addRouteCriteria routeNames32 emptyRouteState).isOk = true ∧
    (addRouteCriteria routeNames32 emptyRouteState).state.mRouteCriterionMap.length = 32 ∧
    (addCriterionRoute "c32" "Switch" "off"
      (addRouteCriteria routeNames32 emptyRouteState).state).isOk = true ∧
    (addCriterionRoute "c32" "Switch" "off"
      (addRouteCriteria routeNames32 emptyRouteState).state).state.mRouteCriterionMap.length
      = 33 ∧
    Registered (addCriterionRoute "c32" "Switch" "off"
      (addRouteCriteria routeNames32 emptyRouteState).state).state "c32" ∧
    ((mapFind (addCriterionRoute "c32" "Switch" "off"
        (addRouteCriteria routeNames32 emptyRouteState).state).state.mRouteCriterionTypeMap
        mStateChangedCriterionName).bind fun t => t.getNumericalValue "c32") = some 0 := by
  decide

/-! ## `setParameters` -/

theorem updateActiveStreamsLoop_trace (defs : AudioDefs) (heap : Heap) (isOut : Bool)
    (l : List StreamPtr) (m e : Nat) (s : AudioPlatformState) :
    TraceStep s (updateActiveStreamsLoop defs heap isOut l m e s).state := by
  induction l generalizing m e with
  | nil => exact TraceStep.stay s
  | cons p l ih =>
    unfold updateActiveStreamsLoop
    simp only
    split
    · split
      · exact TraceStep.ofBind _ _ (setValue_trace _ _ _) (fun _ s1 => TraceStep.stay s1)
      · exact ih _ _
    · exact ih _ _

theorem updateActiveStreamsParameters_trace (defs : AudioDefs) (heap : Heap) (isOut : Bool)
    (s : AudioPlatformState) :
    TraceStep s (updateActiveStreamsParameters defs heap isOut s).state := by
  unfold updateActiveStreamsParameters
  refine TraceStep.ofBind _ _ (updateActiveStreamsLoop_trace _ _ _ _ _ _ _) (fun r s1 => ?_)
  refine TraceStep.ofBind _ _ (setValue_trace _ _ _) (fun _ s2 => ?_)
  refine TraceStep.ofBind _ _ ?_ (fun _ s3 => applyPlatformConfiguration_trace s3)
  split
  · exact setValue_trace _ _ _
  · exact TraceStep.stay s2

theorem parameterHasChanged_trace (defs : AudioDefs) (heap : Heap) (event : String)
    (s : AudioPlatformState) :
    TraceStep s (parameterHasChanged defs heap event s).state := by
  unfold parameterHasChanged
  split
  · split
    · exact TraceStep.stay s
    · rename_i v _
      exact (TraceStep.ofEmit s (Event.wakeup (v == defs.MODE_IN_CALL)) rfl).followedBy
        (setPlatformStateEvent_trace _ _)
  · split
    · exact TraceStep.ofBind _ _ (updateActiveStreamsParameters_trace _ _ _ _)
        (fun _ s1 => setPlatformStateEvent_trace _ s1)
    · exact setPlatformStateEvent_trace _ _

theorem setFromAndroidParameter_trace (defs : AudioDefs) (heap : Heap)
    (paramIn : AudioParameter) (param : Parameter) (n : Nat) (s : AudioPlatformState) :
    TraceStep s (setFromAndroidParameter defs heap paramIn param n s).state := by
  unfold setFromAndroidParameter
  split
  · exact TraceStep.stay s
  · simp only
    split
    · exact TraceStep.stay s
    · exact TraceStep.ofBind _ _ (parameterHasChanged_trace _ _ _ _)
        (fun _ s1 => TraceStep.stay s1)

theorem setFromAndroidParameters_trace (defs : AudioDefs) (heap : Heap)
    (paramIn : AudioParameter) (params : List Parameter) (n : Nat) (s : AudioPlatformState) :
    TraceStep s (setFromAndroidParameters defs heap paramIn params n s).state := by
  induction params generalizing n s with
  | nil => exact TraceStep.stay s
  | cons p ps ih =>
    unfold setFromAndroidParameters
    exact TraceStep.ofBind _ _ (setFromAndroidParameter_trace _ _ _ _ _ _)
      (fun n1 s1 => ih n1 s1)

theorem setFromAndroidParameter_count (defs : AudioDefs) (heap : Heap)
    (paramIn : AudioParameter) (param : Parameter) (n n1 : Nat) (s s1 : AudioPlatformState)
    (h : setFromAndroidParameter defs heap paramIn param n s = Result.ok n1 s1) :
    n1 = n + failedCount paramIn [param] := by
  unfold setFromAndroidParameter at h
  unfold failedCount
  cases hget : AudioParameter.get paramIn param.key with
  | none =>
    rw [hget] at h
    simp only [Result.ok.injEq] at h
    simp [hget, h.1.symm]
  | some value =>
    rw [hget] at h
    simp only at h
    have hn : n1 = if (param.set value).1 = true then n else n + 1 := by
      cases hev : (param.set value).2 with
      | none =>
        rw [hev] at h
        simp only [Result.ok.injEq] at h
        exact h.1.symm
      | some ev =>
        rw [hev] at h
        simp only at h
        cases hp : parameterHasChanged defs heap ev s with
        | ok a s2 =>
          rw [hp] at h
          simp only [Result.bind, Result.ok.injEq] at h
          exact h.1.symm
        | fatal s2 =>
          rw [hp] at h
          simp [Result.bind] at h
    rw [hn]
    cases hs : (param.set value).1 <;> simp [hget, hs]

theorem failedCount_cons (paramIn : AudioParameter) (p : Parameter) (ps : List Parameter) :
    failedCount paramIn (p :: ps) = failedCount paramIn [p] + failedCount paramIn ps := by
  unfold failedCount
  simp only [List.filter_cons, List.filter_nil]
  split <;> simp <;> omega

theorem setFromAndroidParameters_count (defs : AudioDefs) (heap : Heap)
    (paramIn : AudioParameter) (params : List Parameter) (n n1 : Nat)
    (s s1 : AudioPlatformState)
    (h : setFromAndroidParameters defs heap paramIn params n s = Result.ok n1 s1) :
    n1 = n + failedCount paramIn params := by
  induction params generalizing n s with
  | nil =>
    unfold setFromAndroidParameters at h
    simp only [Result.ok.injEq] at h
    simp [failedCount, h.1.symm]
  | cons p ps ih =>
    unfold setFromAndroidParameters at h
    cases hp : setFromAndroidParameter defs heap paramIn p n s with
    | ok n2 s2 =>
      rw [hp] at h
      simp only [Result.bind] at h
      have h1 := setFromAndroidParameter_count defs heap paramIn p n n2 s s2 hp
      have h2 := ih n2 s2 h
      rw [failedCount_cons, h2, h1]; omega
    | fatal s2 =>
      rw [hp] at h
      simp [Result.bind] at h

theorem SameRegistry.eventsReady {s s1 : AudioPlatformState} (h : SameRegistry s s1)
    (hr : EventsReady s) : EventsReady s1 :=
  ⟨h.ready hr.1, h.registered hr.2.1, h.registered hr.2.2.1, h.registered hr.2.2.2.1,
   h.registered hr.2.2.2.2⟩

theorem parameterHasChanged_ok (defs : AudioDefs) (heap : Heap) (event : String)
    (s : AudioPlatformState) (hr : EventsReady s) :
    ∃ s1, parameterHasChanged defs heap event s = Result.ok () s1 ∧ SameRegistry s s1 := by
  unfold parameterHasChanged
  by_cases h1 : event = mAndroidModeCriterionName
  · obtain ⟨c, hc⟩ := (registered_iff_find s _).mp hr.2.1
    have hg : getValue mAndroidModeCriterionName s = some c.value := by
      unfold getValue; rw [hc]; rfl
    simp only [h1, beq_self_eq_true, if_true, hg]
    have hreg : SameRegistry s (s.emit (Event.wakeup (c.value == defs.MODE_IN_CALL))) :=
      ⟨rfl, rfl, rfl, fun _ => rfl⟩
    obtain ⟨s1, hs1, r1, _⟩ := setPlatformStateEvent_ok mAndroidModeCriterionName _
      (hreg.ready hr.1)
    exact ⟨s1, hs1, hreg.andThen r1⟩
  · have h1b : (event == mAndroidModeCriterionName) = false := by simpa using h1
    simp only [h1b, Bool.false_eq_true, if_false]
    by_cases h2 : event = mInputDevicesCriterionName
    · simp only [h2, beq_self_eq_true, if_true]
      obtain ⟨s1, hs1, r1, _⟩ := updateActiveStreamsParameters_in defs heap s hr.1 hr.2.2.1
        hr.2.2.2.1 (fun _ => hr.2.2.2.2)
      obtain ⟨s2, hs2, r2, _⟩ := setPlatformStateEvent_ok mInputDevicesCriterionName s1
        (r1.ready hr.1)
      exact ⟨s2, by rw [hs1]; exact hs2, r1.andThen r2⟩
    · have h2b : (event == mInputDevicesCriterionName) = false := by simpa using h2
      simp only [h2b, Bool.false_eq_true, if_false]
      obtain ⟨s1, hs1, r1, _⟩ := setPlatformStateEvent_ok event s hr.1
      exact ⟨s1, hs1, r1⟩

theorem setFromAndroidParameters_ok (defs : AudioDefs) (heap : Heap)
    (paramIn : AudioParameter) (params : List Parameter) (n : Nat) (s : AudioPlatformState)
    (hr : EventsReady s) :
    ∃ n1 s1, setFromAndroidParameters defs heap paramIn params n s = Result.ok n1 s1 ∧
      SameRegistry s s1 := by
  induction params generalizing n s with
  | nil => exact ⟨n, s, rfl, SameRegistry.same s⟩
  | cons p ps ih =>
    have hp : ∃ n2 s2, setFromAndroidParameter defs heap paramIn p n s = Result.ok n2 s2 ∧
        SameRegistry s s2 := by
      unfold setFromAndroidParameter
      cases AudioParameter.get paramIn p.key with
      | none => exact ⟨_, s, rfl, SameRegistry.same s⟩
      | some value =>
        simp only
        cases (p.set value).2 with
        | none => exact ⟨_, s, rfl, SameRegistry.same s⟩
        | some ev =>
          obtain ⟨s2, hs2, r2⟩ := parameterHasChanged_ok defs heap ev s hr
          exact ⟨(if (p.set value).1 = true then n else n + 1), s2, by simp only [hs2, Result.bind], r2⟩
    obtain ⟨n2, s2, hs2, r2⟩ := hp
    obtain ⟨n3, s3, hs3, r3⟩ := ih n2 s2 (r2.eventsReady hr)
    refine ⟨n3, s3, ?_, r2.andThen r3⟩
    unfold setFromAndroidParameters
    rw [hs2]
    exact hs3

theorem setFromAndroidParameters_unbound (defs : AudioDefs) (heap : Heap)
    (paramIn : AudioParameter) (params : List Parameter) (n : Nat) (s : AudioPlatformState)
    (h : ∀ p ∈ params, AudioParameter.get paramIn p.key = none) :
    setFromAndroidParameters defs heap paramIn params n s = Result.ok n s := by
  induction params with
  | nil => rfl
  | cons p ps ih =>
    unfold setFromAndroidParameters setFromAndroidParameter
    rw [h p (by simp)]
    simp only [Result.bind]
    exact ih (fun q hq => h q (by simp [hq]))

theorem remove_unbound (param : AudioParameter) (key : String)
    (h : AudioParameter.get param key = none) : AudioParameter.remove param key = param := by
  unfold AudioParameter.get at h
  unfold AudioParameter.remove
  rw [List.filter_eq_self]
  intro kv hkv
  rw [List.lookup_eq_none_iff] at h
  have hne : key ≠ kv.1 := by simpa using h kv hkv
  have hne2 : kv.1 ≠ key := fun e => hne e.symm
  simpa using hne2

theorem clearParamKeys_unbound (params : List Parameter) (param : AudioParameter)
    (h : ∀ p ∈ params, AudioParameter.get param p.key = none) :
    clearParamKeys params param = param := by
  unfold clearParamKeys
  induction params with
  | nil => rfl
  | cons p ps ih =>
    simp only [List.foldl_cons]
    rw [remove_unbound param p.key (h p (by simp))]
    exact ih (fun q hq => h q (by simp [hq]))

theorem applyPlatformConfiguration_eq (s : AudioPlatformState) (c : Criterion)
    (hc : mapFind s.mRouteCriterionMap mStateChangedCriterionName = some c) :
    ∃ s1, applyPlatformConfiguration s = Result.ok () s1 ∧
      s1.mParameterVector = s.mParameterVector ∧
      s1.trace = s.trace ++ [Event.setCriterionState mStateChangedCriterionName c.value,
        Event.applyConfigurations] := by
  unfold applyPlatformConfiguration clearPlatformStateEvents
  rw [hc]
  simp only
  have hc2 : mapFind ((s.emit (Event.setCriterionState mStateChangedCriterionName
      c.value)).emit Event.applyConfigurations).mRouteCriterionMap
      mStateChangedCriterionName = some c := hc
  rw [hc2]
  refine ⟨_, rfl, rfl, ?_⟩
  show (s.trace ++ [_]) ++ [_] = _
  simp

/-- The shape of a returning `setParameters`: the keys are dispatched from the
state where the lock is taken, then either the state has not changed and the
lock is released, or the configuration is applied, the lock released and the
routing reconsidered. -/
theorem setParameters_returns (defs : AudioDefs) (heap : Heap) (keyValuePairs : AudioParameter)
    (s s2 : AudioPlatformState) (r : status_t × AudioParameter)
    (h : setParameters defs heap keyValuePairs s = Result.ok r s2) :
    ∃ n s1, setFromAndroidParameters defs heap keyValuePairs s.mParameterVector 0
        (s.emit Event.writeLock) = Result.ok n s1 ∧
      r = (if n = 0 then OK else status_t.BAD_VALUE,
           clearParamKeys s1.mParameterVector keyValuePairs) ∧
      ((hasPlatformStateChanged s1 = some false ∧ s2.trace = s1.trace ++ [Event.unlock]) ∨
       (hasPlatformStateChanged s1 = some true ∧ ∃ v,
          getValue mStateChangedCriterionName s1 = some v ∧
          s2.trace = s1.trace ++ [Event.setCriterionState mStateChangedCriterionName v,
            Event.applyConfigurations, Event.unlock, Event.reconsiderRouting])) := by
  unfold setParameters at h
  simp only at h
  have hpv : (s.emit Event.writeLock).mParameterVector = s.mParameterVector := rfl
  rw [hpv] at h
  cases hd : setFromAndroidParameters defs heap keyValuePairs s.mParameterVector 0
      (s.emit Event.writeLock) with
  | fatal s1 => rw [hd] at h; simp [Result.bind] at h
  | ok n s1 =>
    rw [hd] at h
    simp only [Result.bind] at h
    refine ⟨n, s1, rfl, ?_⟩
    cases hch : hasPlatformStateChanged s1 with
    | none => rw [hch] at h; simp at h
    | some b =>
      rw [hch] at h
      cases b with
      | false =>
        simp only [Result.ok.injEq] at h
        refine ⟨?_, Or.inl ⟨rfl, ?_⟩⟩
        · rw [← h.1]; simp
        · rw [← h.2]; rfl
      | true =>
        simp only at h
        unfold hasPlatformStateChanged at hch
        cases hc : mapFind s1.mRouteCriterionMap mStateChangedCriterionName with
        | none => rw [hc] at hch; simp at hch
        | some c =>
          obtain ⟨s3, h3, _, t3⟩ := applyPlatformConfiguration_eq s1 c hc
          rw [h3] at h
          simp only [Result.ok.injEq] at h
          refine ⟨?_, Or.inr ⟨rfl, c.value, ?_, ?_⟩⟩
          · rw [← h.1]; simp
          · unfold getValue; rw [hc]; rfl
          · rw [← h.2]
            show (s3.trace ++ [_]) ++ [_] = _
            rw [t3]; simp

theorem sampleParamState_ready : EventsReady sampleParamState :=
  ⟨⟨"StatesChanged", by decide, by decide⟩, by decide, by decide, by decide, by decide⟩

theorem failedCount_append_unbound (keyValuePairs extra : AudioParameter)
    (params : List Parameter)
    (h : ∀ p ∈ params, AudioParameter.get extra p.key = none) :
    failedCount (keyValuePairs ++ extra) params = failedCount keyValuePairs params := by
  unfold failedCount
  congr 1
  apply List.filter_congr
  intro p hp
  have hget : AudioParameter.get (keyValuePairs ++ extra) p.key
      = AudioParameter.get keyValuePairs p.key := by
    have he := h p hp
    unfold AudioParameter.get at he ⊢
    induction keyValuePairs with
    | nil => simpa using he
    | cons kv kvs ih =>
      obtain ⟨a, b⟩ := kv
      simp only [List.cons_append, List.lookup_cons]
      cases (p.key == a) with
      | true => rfl
      | false => exact ih
  rw [hget]

theorem setParameters_isOk (defs : AudioDefs) (heap : Heap)
    (keyValuePairs : AudioParameter) (s : AudioPlatformState) (hr : EventsReady s) :
    (setParameters defs heap keyValuePairs s).isOk = true := by
  have hr0 : EventsReady (s.emit Event.writeLock) := hr
  obtain ⟨n, s1, hd, r1⟩ := setFromAndroidParameters_ok defs heap keyValuePairs
    s.mParameterVector 0 _ hr0
  have hr1 := r1.eventsReady hr0
  obtain ⟨c, hc⟩ := (registered_iff_find s1 _).mp hr1.1.selfRegistered
  unfold setParameters
  simp only
  have hpv : (s.emit Event.writeLock).mParameterVector = s.mParameterVector := rfl
  rw [hpv, hd]
  simp only [Result.bind]
  have hch : hasPlatformStateChanged s1
      = some (c.value != 0 || s1.mAudioPfwHasChanged) := by
    unfold hasPlatformStateChanged; rw [hc]
  rw [hch]
  cases (c.value != 0 || s1.mAudioPfwHasChanged) with
  | false => rfl
  | true =>
    obtain ⟨s3, h3, _, _⟩ := applyPlatformConfiguration_eq _ c hc
    simp only [h3]
    rfl

/-- C8: `setParameters` returns `OK` if and only if no registered parameter
failed while being set (error count 0) and `BAD_VALUE` otherwise; the
remainder it leaves is the request without the keys of the registered
parameters. Keys bound to no registered parameter do not change the error
count, and a request with only such keys returns `OK` with every key left in
the unhandled remainder. The call returns whenever the criteria written on
parameter events are registered. Spec-modelled: the dispatch helpers are
modelled from the specification. -/
theorem setParameters_status (defs : AudioDefs) (heap : Heap)
    (keyValuePairs : AudioParameter) (s : AudioPlatformState) :
    (∀ status remainder s1,
      setParameters defs heap keyValuePairs s = Result.ok (status, remainder) s1 →
        (status = OK ↔ failedCount keyValuePairs s.mParameterVector = 0) ∧
        (status = status_t.BAD_VALUE ↔ failedCount keyValuePairs s.mParameterVector ≠ 0) ∧
        remainder = clearParamKeys s.mParameterVector keyValuePairs) ∧
    (∀ extra : AudioParameter,
      (∀ p ∈ s.mParameterVector, AudioParameter.get extra p.key = none) →
        failedCount (keyValuePairs ++ extra) s.mParameterVector
          = failedCount keyValuePairs s.mParameterVector) ∧
    (Registered s mStateChangedCriterionName →
      (∀ p ∈ s.mParameterVector, AudioParameter.get keyValuePairs p.key = none) →
        ∃ s1, setParameters defs heap keyValuePairs s = Result.ok (OK, keyValuePairs) s1) ∧
    (EventsReady s → (setParameters defs heap keyValuePairs s).isOk = true) := by
  refine ⟨?_, fun extra h => failedCount_append_unbound _ _ _ h, ?_, ?_⟩
  · intro status remainder s1 h
    obtain ⟨n, s0, hd, hr, _⟩ := setParameters_returns defs heap keyValuePairs s s1 _ h
    have hn := setFromAndroidParameters_count defs heap keyValuePairs _ 0 n _ s0 hd
    have hpv : s0.mParameterVector = s.mParameterVector := by
      have ht := (setFromAndroidParameters_trace defs heap keyValuePairs s.mParameterVector 0
        (s.emit Event.writeLock)).1
      rw [hd] at ht
      exact ht
    simp only [Prod.mk.injEq] at hr
    rw [Nat.zero_add] at hn
    rw [hr.1, hr.2, hpv, ← hn]
    by_cases h0 : n = 0 <;> simp [h0]
  · intro hsc hunbound
    obtain ⟨c, hc⟩ := (registered_iff_find s _).mp hsc
    unfold setParameters
    simp only
    have hpv : (s.emit Event.writeLock).mParameterVector = s.mParameterVector := rfl
    rw [hpv, setFromAndroidParameters_unbound defs heap keyValuePairs _ 0 _ hunbound]
    simp only [Result.bind]
    rw [hpv, clearParamKeys_unbound _ _ hunbound]
    have hc2 : mapFind (s.emit Event.writeLock).mRouteCriterionMap
        mStateChangedCriterionName = some c := hc
    have hch : hasPlatformStateChanged (s.emit Event.writeLock)
        = some (c.value != 0 || (s.emit Event.writeLock).mAudioPfwHasChanged) := by
      unfold hasPlatformStateChanged; rw [hc2]
    rw [hch]
    cases (c.value != 0 || (s.emit Event.writeLock).mAudioPfwHasChanged) with
    | false => exact ⟨_, rfl⟩
    | true =>
      obtain ⟨s3, h3, _, _⟩ := applyPlatformConfiguration_eq _ c hc2
      simp only [h3]
      exact ⟨_, rfl⟩
  · exact setParameters_isOk defs heap keyValuePairs s

/-- Witness of C8: the request "unknownKey=5" on a state with two registered
parameters returns `OK` and leaves the key in the remainder. -/
theorem setParameters_status_witness :
    Registered sampleParamState mStateChangedCriterionName ∧
    (∀ p ∈ sampleParamState.mParameterVector,
      AudioParameter.get [("unknownKey", "5")] p.key = none) ∧
    ∃ s1, setParameters androidDefs sampleHeap [("unknownKey", "5")] sampleParamState
      = Result.ok (OK, [("unknownKey", "5")]) s1 :=
  ⟨by decide, by decide,
   (setParameters_status androidDefs sampleHeap [("unknownKey", "5")] sampleParamState).2.2.1
     (by decide) (by decide)⟩

/-- C9: in `setParameters` the configuration is committed exactly when the
platform state has changed once the keys are dispatched, whatever the error
count `n`: if `hasPlatformStateChanged` holds, the call hands the
`StatesChanged` value to the parameter framework, applies the configurations,
releases the lock and then calls `reconsiderRouting`, and returns `BAD_VALUE`
when `n` is not 0; if it does not hold, the only event after the dispatch is
the release of the lock: neither `applyPlatformConfiguration` nor
`reconsiderRouting` is invoked. -/
theorem setParameters_commits_iff_changed (defs : AudioDefs) (heap : Heap)
    (keyValuePairs : AudioParameter) (s s1 : AudioPlatformState) (n : Nat)
    (hd : setFromAndroidParameters defs heap keyValuePairs s.mParameterVector 0
      (s.emit Event.writeLock) = Result.ok n s1) :
    (hasPlatformStateChanged s1 = some true →
      ∃ v s2, getValue mStateChangedCriterionName s1 = some v ∧
        setParameters defs heap keyValuePairs s
          = Result.ok (if n = 0 then OK else status_t.BAD_VALUE,
              clearParamKeys s.mParameterVector keyValuePairs) s2 ∧
        s2.trace = s1.trace ++ [Event.setCriterionState mStateChangedCriterionName v,
          Event.applyConfigurations, Event.unlock, Event.reconsiderRouting]) ∧
    (hasPlatformStateChanged s1 = some false →
      ∃ s2, setParameters defs heap keyValuePairs s
          = Result.ok (if n = 0 then OK else status_t.BAD_VALUE,
              clearParamKeys s.mParameterVector keyValuePairs) s2 ∧
        s2.trace = s1.trace ++ [Event.unlock]) := by
  have hpv : (s.emit Event.writeLock).mParameterVector = s.mParameterVector := rfl
  have hpv1 : s1.mParameterVector = s.mParameterVector := by
    have ht := (setFromAndroidParameters_trace defs heap keyValuePairs s.mParameterVector 0
      (s.emit Event.writeLock)).1
    rw [hd] at ht
    exact ht
  have hst : (if (n == 0) = true then OK else status_t.BAD_VALUE)
      = (if n = 0 then OK else status_t.BAD_VALUE) := by
    by_cases h0 : n = 0 <;> simp [h0]
  refine ⟨?_, ?_⟩
  · intro hch
    have hch2 := hch
    unfold hasPlatformStateChanged at hch2
    cases hc : mapFind s1.mRouteCriterionMap mStateChangedCriterionName with
    | none => rw [hc] at hch2; simp at hch2
    | some c =>
      obtain ⟨s3, h3, _, t3⟩ := applyPlatformConfiguration_eq s1 c hc
      refine ⟨c.value, (s3.emit Event.unlock).emit Event.reconsiderRouting, ?_, ?_, ?_⟩
      · unfold getValue; rw [hc]; rfl
      · unfold setParameters
        simp only
        rw [hpv, hd]
        simp only [Result.bind]
        rw [hch]
        simp only [h3, hpv1, hst]
      · show (s3.trace ++ [_]) ++ [_] = _
        rw [t3]; simp
  · intro hch
    refine ⟨s1.emit Event.unlock, ?_, rfl⟩
    unfold setParameters
    simp only
    rw [hpv, hd]
    simp only [Result.bind]
    rw [hch]
    simp only [hpv1, hst]

/-- Witness of C9: the request "mic_mute=maybe;android_mode=2;unknownKey=5" makes
the `mic_mute` parameter fail (error count 1) and the `AndroidMode` event
change the platform state: the configuration is committed and `BAD_VALUE`
returned. -/
theorem setParameters_commits_iff_changed_witness :
    setFromAndroidParameters androidDefs sampleHeap
        [("mic_mute", "maybe"), ("android_mode", "2"), ("unknownKey", "5")]
        sampleParamState.mParameterVector 0 (sampleParamState.emit Event.writeLock)
      = Result.ok 1 (setFromAndroidParameters androidDefs sampleHeap
          [("mic_mute", "maybe"), ("android_mode", "2"), ("unknownKey", "5")]
          sampleParamState.mParameterVector 0
          (sampleParamState.emit Event.writeLock)).state ∧
    hasPlatformStateChanged (setFromAndroidParameters androidDefs sampleHeap
        [("mic_mute", "maybe"), ("android_mode", "2"), ("unknownKey", "5")]
        sampleParamState.mParameterVector 0
        (sampleParamState.emit Event.writeLock)).state = some true ∧
    ∃ v s2, getValue mStateChangedCriterionName (setFromAndroidParameters androidDefs
          sampleHeap [("mic_mute", "maybe"), ("android_mode", "2"), ("unknownKey", "5")]
          sampleParamState.mParameterVector 0
          (sampleParamState.emit Event.writeLock)).state = some v ∧
      setParameters androidDefs sampleHeap
          [("mic_mute", "maybe"), ("android_mode", "2"), ("unknownKey", "5")]
          sampleParamState
        = Result.ok (if 1 = 0 then OK else status_t.BAD_VALUE,
            clearParamKeys sampleParamState.mParameterVector
              [("mic_mute", "maybe"), ("android_mode", "2"), ("unknownKey", "5")]) s2 ∧
      s2.trace = (setFromAndroidParameters androidDefs sampleHeap
          [("mic_mute", "maybe"), ("android_mode", "2"), ("unknownKey", "5")]
          sampleParamState.mParameterVector 0
          (sampleParamState.emit Event.writeLock)).state.trace ++
        [Event.setCriterionState mStateChangedCriterionName v,
          Event.applyConfigurations, Event.unlock, Event.reconsiderRouting] :=
  ⟨rfl, by decide,
   (setParameters_commits_iff_changed androidDefs sampleHeap
      [("mic_mute", "maybe"), ("android_mode", "2"), ("unknownKey", "5")]
      sampleParamState _ 1 rfl).1 (by decide)⟩

theorem setParameters_trace_shape (defs : AudioDefs) (heap : Heap)
    (keyValuePairs : AudioParameter) (s s2 : AudioPlatformState)
    (r : status_t × AudioParameter)
    (h : setParameters defs heap keyValuePairs s = Result.ok r s2) :
    ∃ inner, (∀ e ∈ inner, innerEvent e = true) ∧
      (s2.trace = s.trace ++ (Event.writeLock :: inner ++ [Event.unlock]) ∨
       s2.trace = s.trace ++
        ((Event.writeLock :: inner ++ [Event.unlock]) ++ [Event.reconsiderRouting])) := by
  obtain ⟨n, s1, hd, _, hcase⟩ := setParameters_returns defs heap keyValuePairs s s2 r h
  have ht := (setFromAndroidParameters_trace defs heap keyValuePairs s.mParameterVector 0
    (s.emit Event.writeLock)).2
  rw [hd] at ht
  obtain ⟨evs, hevs, hinner⟩ := ht
  have hevs1 : s1.trace = (s.trace ++ [Event.writeLock]) ++ evs := hevs
  have hevs2 : s1.trace = s.trace ++ Event.writeLock :: evs := by
    rw [hevs1]; simp
  rcases hcase with ⟨_, ht2⟩ | ⟨_, v, _, ht2⟩
  · exact ⟨evs, hinner, Or.inl (by rw [ht2, hevs2]; simp)⟩
  · refine ⟨evs ++ [Event.setCriterionState mStateChangedCriterionName v,
      Event.applyConfigurations], ?_, Or.inr (by rw [ht2, hevs2]; simp)⟩
    intro e he
    rcases List.mem_append.mp he with h1 | h1
    · exact hinner e h1
    · simp only [List.mem_cons, List.mem_singleton, List.not_mem_nil, or_false] at h1
      rcases h1 with rfl | rfl <;> rfl

theorem lockHeld_append_other (pre other : List Event)
    (h : ∀ e ∈ other, e ≠ Event.writeLock ∧ e ≠ Event.unlock) :
    lockHeld (pre ++ other) = lockHeld pre := by
  unfold lockHeld
  rw [List.foldl_append]
  generalize List.foldl _ false pre = b
  induction other generalizing b with
  | nil => rfl
  | cons e es ih =>
    have he := h e (by simp)
    simp only [List.foldl_cons]
    cases e with
    | writeLock => exact absurd rfl he.1
    | unlock => exact absurd rfl he.2
    | setCriterionState _ _ => exact ih (fun x hx => h x (by simp [hx])) b
    | applyConfigurations => exact ih (fun x hx => h x (by simp [hx])) b
    | reconsiderRouting => exact ih (fun x hx => h x (by simp [hx])) b
    | wakeup _ => exact ih (fun x hx => h x (by simp [hx])) b

theorem lockHeld_locked_section (inner : List Event) :
    lockHeld (Event.writeLock :: inner ++ [Event.unlock]) = false := by
  unfold lockHeld
  rw [List.foldl_append]
  rfl

theorem count_inner_zero (inner : List Event) (e : Event) (he : innerEvent e = false)
    (h : ∀ x ∈ inner, innerEvent x = true) : inner.count e = 0 := by
  rw [List.count_eq_zero]
  intro hmem
  have := h e hmem
  rw [he] at this
  exact Bool.false_ne_true this

/-- C10: on every path on which `setParameters` returns, the events it adds to
the trace start with the acquisition of the write lock, the lock is released
exactly once (and never taken again), and `reconsiderRouting` is never
invoked while the lock is held: the events before any `reconsiderRouting`
leave the lock released and contain the unlock. The call does return
whenever the criteria written on parameter events are registered. -/
theorem setParameters_lock_discipline (defs : AudioDefs) (heap : Heap)
    (keyValuePairs : AudioParameter) (s : AudioPlatformState) :
    (∀ r s2, setParameters defs heap keyValuePairs s = Result.ok r s2 →
      ∃ evs, s2.trace = s.trace ++ evs ∧
        evs.head? = some Event.writeLock ∧
        evs.count Event.writeLock = 1 ∧
        evs.count Event.unlock = 1 ∧
        lockHeld evs = false ∧
        ∀ pre post, evs = pre ++ Event.reconsiderRouting :: post →
          Event.unlock ∈ pre ∧ lockHeld pre = false) ∧
    (EventsReady s → (setParameters defs heap keyValuePairs s).isOk = true) := by
  refine ⟨?_, setParameters_isOk defs heap keyValuePairs s⟩
  intro r s2 h
  obtain ⟨inner, hinner, hshape⟩ := setParameters_trace_shape defs heap keyValuePairs s s2 r h
  have hcw : inner.count Event.writeLock = 0 := count_inner_zero inner _ rfl hinner
  have hcu : inner.count Event.unlock = 0 := count_inner_zero inner _ rfl hinner
  have hcr : inner.count Event.reconsiderRouting = 0 := count_inner_zero inner _ rfl hinner
  have hnr : Event.reconsiderRouting ∉ Event.writeLock :: inner ++ [Event.unlock] := by
    intro hmem
    simp only [List.cons_append, List.mem_cons, List.mem_append, List.mem_singleton] at hmem
    rcases hmem with h1 | h1 | h1 | h1
    · cases h1
    · exact absurd (hinner _ h1) (by decide)
    · cases h1
    · cases h1
  have hlocked := lockHeld_locked_section inner
  rcases hshape with ht | ht
  · refine ⟨_, ht, rfl, ?_, ?_, hlocked, ?_⟩
    · simp [List.count_cons, List.count_append, hcw]
    · simp [List.count_cons, List.count_append, hcu]
    · intro pre post hsplit
      exact absurd (by rw [hsplit]; simp) hnr
  · refine ⟨_, ht, rfl, ?_, ?_, ?_, ?_⟩
    · simp [List.count_cons, List.count_append, hcw]
    · simp [List.count_cons, List.count_append, hcu]
    · rw [lockHeld_append_other _ [Event.reconsiderRouting] (by simp)]
      exact hlocked
    · intro pre post hsplit
      rcases List.append_eq_append_iff.mp hsplit with ⟨a, ha, hb⟩ | ⟨c, hc, hb⟩
      · -- `pre = section ++ a`, `[reconsiderRouting] = a ++ reconsiderRouting :: post`
        have ha0 : a = [] := by
          cases a with
          | nil => rfl
          | cons x xs =>
            have hlen := congrArg List.length hb
            simp at hlen
        subst ha0
        rw [ha]
        refine ⟨by simp, ?_⟩
        simpa using hlocked
      · -- `section = pre ++ c`, `reconsiderRouting :: post = c ++ [reconsiderRouting]`
        cases c with
        | nil =>
          rw [List.append_nil] at hc
          rw [← hc]
          exact ⟨by simp, hlocked⟩
        | cons x xs =>
          have hx : x = Event.reconsiderRouting := by
            simp only [List.cons_append, List.cons.injEq] at hb
            exact hb.1.symm
          exact absurd (by rw [hc, hx]; simp) hnr

/-- Witness of C10 on the request of the C9 witness, which ends with
`reconsiderRouting`. -/
theorem setParameters_lock_discipline_witness :
    EventsReady sampleParamState ∧
    (setParameters androidDefs sampleHeap
      [("mic_mute", "maybe"), ("android_mode", "2"), ("unknownKey", "5")]
      sampleParamState).isOk = true ∧
    (setParameters androidDefs sampleHeap
      [("mic_mute", "maybe"), ("android_mode", "2"), ("unknownKey", "5")]
      sampleParamState).state.trace
      = [Event.writeLock, Event.wakeup false, Event.setCriterionState "StatesChanged" 16,
         Event.applyConfigurations, Event.unlock, Event.reconsiderRouting] :=
  ⟨sampleParamState_ready,
   (setParameters_lock_discipline androidDefs sampleHeap
      [("mic_mute", "maybe"), ("android_mode", "2"), ("unknownKey", "5")]
      sampleParamState).2 sampleParamState_ready,
   by decide⟩

/-! ## Committing and recording platform state changes -/

/-- C11: with `StatesChanged` registered, `applyPlatformConfiguration` returns;
it hands the accumulated `StatesChanged` value to the parameter framework,
then calls `applyConfigurations` exactly once (these are the only two events
it adds), then clears the bookkeeping: on return the `StatesChanged` value is
0 and the device-domain changed flag is false, so `hasPlatformStateChanged`
returns false. -/
theorem applyPlatformConfiguration_commits_and_clears (s : AudioPlatformState)
    (hr : Registered s mStateChangedCriterionName) :
    ∃ v s1, getValue mStateChangedCriterionName s = some v ∧
      applyPlatformConfiguration s = Result.ok () s1 ∧
      s1.trace = s.trace ++ [Event.setCriterionState mStateChangedCriterionName v,
        Event.applyConfigurations] ∧
      getValue mStateChangedCriterionName s1 = some 0 ∧
      s1.mAudioPfwHasChanged = false ∧
      hasPlatformStateChanged s1 = some false := by
  obtain ⟨c, hc⟩ := (registered_iff_find s _).mp hr
  have hv : getValue mStateChangedCriterionName s = some c.value := by
    unfold getValue; rw [hc]; rfl
  have hc2 : mapFind ((s.emit (Event.setCriterionState mStateChangedCriterionName
      c.value)).emit Event.applyConfigurations).mRouteCriterionMap
      mStateChangedCriterionName = some c := hc
  have hfinal : getValue mStateChangedCriterionName
      (((s.emit (Event.setCriterionState mStateChangedCriterionName c.value)).emit
        Event.applyConfigurations).setCriterionValue mStateChangedCriterionName 0)
      = some 0 := by
    rw [getValue_setCriterionValue, if_pos rfl]
    show Option.map _ (getValue mStateChangedCriterionName s) = _
    rw [hv]; rfl
  refine ⟨c.value, { (((s.emit (Event.setCriterionState mStateChangedCriterionName
      c.value)).emit Event.applyConfigurations).setCriterionValue
      mStateChangedCriterionName 0) with mAudioPfwHasChanged := false }, hv, ?_, ?_, hfinal,
    rfl, ?_⟩
  · unfold applyPlatformConfiguration clearPlatformStateEvents
    rw [hc]
    simp only
    rw [hc2]
  · show (s.trace ++ [_]) ++ [_] = _
    simp
  · have hg : getValue mStateChangedCriterionName
        { (((s.emit (Event.setCriterionState mStateChangedCriterionName
          c.value)).emit Event.applyConfigurations).setCriterionValue
          mStateChangedCriterionName 0) with mAudioPfwHasChanged := false } = some 0 := hfinal
    unfold getValue at hg
    unfold hasPlatformStateChanged
    cases hm : mapFind ({ (((s.emit (Event.setCriterionState mStateChangedCriterionName
          c.value)).emit Event.applyConfigurations).setCriterionValue
          mStateChangedCriterionName 0) with mAudioPfwHasChanged := false }
          : AudioPlatformState).mRouteCriterionMap mStateChangedCriterionName with
    | none => rw [hm] at hg; simp at hg
    | some c1 =>
      rw [hm] at hg
      simp only [Option.map_some', Option.some.injEq] at hg
      simp [hg]

/-- Witness of C11 on the sample state. -/
theorem applyPlatformConfiguration_commits_and_clears_witness :
    Registered sampleState mStateChangedCriterionName ∧
    ∃ v s1, getValue mStateChangedCriterionName sampleState = some v ∧
      applyPlatformConfiguration sampleState = Result.ok () s1 ∧
      s1.trace = sampleState.trace ++
        [Event.setCriterionState mStateChangedCriterionName v, Event.applyConfigurations] ∧
      getValue mStateChangedCriterionName s1 = some 0 ∧
      s1.mAudioPfwHasChanged = false ∧
      hasPlatformStateChanged s1 = some false :=
  ⟨by decide, applyPlatformConfiguration_commits_and_clears sampleState (by decide)⟩

/-- C12: with the `StatesChanged` criterion `c` registered and its criterion type
`ty` registered, `setPlatformStateEvent(e)` returns and: if `e` is a value of
the type with code `b`, the `StatesChanged` value becomes `old ||| b` and the
device-domain changed flag is unchanged; otherwise the flag becomes true and
the `StatesChanged` value is unchanged. In both cases every bit set before the
call is still set, and a flag that was true stays true. -/
theorem setPlatformStateEvent_records (e : String) (s : AudioPlatformState)
    (c : Criterion) (ty : CriterionType)
    (hc : mapFind s.mRouteCriterionMap mStateChangedCriterionName = some c)
    (hty : mapFind s.mRouteCriterionTypeMap c.criterionType = some ty) :
    (∀ b, ty.getNumericalValue e = some b →
      ∃ s1, setPlatformStateEvent e s = Result.ok () s1 ∧
        getValue mStateChangedCriterionName s1 = some (c.value ||| b) ∧
        s1.mAudioPfwHasChanged = s.mAudioPfwHasChanged) ∧
    (ty.getNumericalValue e = none →
      ∃ s1, setPlatformStateEvent e s = Result.ok () s1 ∧
        getValue mStateChangedCriterionName s1 = some c.value ∧
        s1.mAudioPfwHasChanged = true) ∧
    (∃ s1 v1, setPlatformStateEvent e s = Result.ok () s1 ∧
      getValue mStateChangedCriterionName s1 = some v1 ∧
      (∀ i, c.value.testBit i = true → v1.testBit i = true) ∧
      (s.mAudioPfwHasChanged = true → s1.mAudioPfwHasChanged = true)) := by
  have hv : getValue mStateChangedCriterionName s = some c.value := by
    unfold getValue; rw [hc]; rfl
  have hset : ∀ (s0 : AudioPlatformState) (v : Nat),
      getValue mStateChangedCriterionName s0 = some c.value →
      getValue mStateChangedCriterionName
        (s0.setCriterionValue mStateChangedCriterionName v) = some v := by
    intro s0 v h0
    rw [getValue_setCriterionValue, if_pos rfl, h0]; rfl
  have hsome : ∀ b, ty.getNumericalValue e = some b →
      ∃ s1, setPlatformStateEvent e s = Result.ok () s1 ∧
        getValue mStateChangedCriterionName s1 = some (c.value ||| b) ∧
        s1.mAudioPfwHasChanged = s.mAudioPfwHasChanged := by
    intro b hb
    refine ⟨s.setCriterionValue mStateChangedCriterionName (c.value ||| b), ?_,
      hset s _ hv, rfl⟩
    unfold setPlatformStateEvent
    rw [hc]; simp only
    rw [hty]; simp only
    rw [hb]
  have hnone : ty.getNumericalValue e = none →
      ∃ s1, setPlatformStateEvent e s = Result.ok () s1 ∧
        getValue mStateChangedCriterionName s1 = some c.value ∧
        s1.mAudioPfwHasChanged = true := by
    intro hb
    refine ⟨AudioPlatformState.setCriterionValue { s with mAudioPfwHasChanged := true }
      mStateChangedCriterionName (c.value ||| 0), ?_, ?_, rfl⟩
    · unfold setPlatformStateEvent
      rw [hc]; simp only
      rw [hty]; simp only
      rw [hb]
    · have := hset { s with mAudioPfwHasChanged := true } (c.value ||| 0) hv
      rw [this, Nat.or_zero]
  refine ⟨hsome, hnone, ?_⟩
  cases hb : ty.getNumericalValue e with
  | some b =>
    obtain ⟨s1, h1, h2, h3⟩ := hsome b hb
    refine ⟨s1, c.value ||| b, h1, h2, ?_, fun hf => by rw [h3]; exact hf⟩
    intro i hi
    rw [Nat.testBit_or, hi]; rfl
  | none =>
    obtain ⟨s1, h1, h2, h3⟩ := hnone hb
    exact ⟨s1, c.value, h1, h2, fun _ hi => hi, fun _ => h3⟩

/-- Witness of C12: on the sample state the event `OutputFlags` has the code 1
in the `StatesChanged` type. -/
theorem setPlatformStateEvent_records_witness :
    mapFind sampleState.mRouteCriterionMap mStateChangedCriterionName
      = some { name := "StatesChanged", criterionType := "StatesChanged", value := 0 } ∧
    ∃ s1, setPlatformStateEvent "OutputFlags" sampleState = Result.ok () s1 ∧
      getValue mStateChangedCriterionName s1 = some (0 ||| 1) ∧
      s1.mAudioPfwHasChanged = sampleState.mAudioPfwHasChanged :=
  ⟨by decide,
   (setPlatformStateEvent_records "OutputFlags" sampleState
      { name := "StatesChanged", criterionType := "StatesChanged", value := 0 }
      { name := "StatesChanged", isInclusive := true,
        valuePairs := [(1, "OutputFlags"), (2, "InputSources"),
          (4, "PreProcessorRequestedByActiveInput"), (8, "VoIPBandType"),
          (16, "AndroidMode")] }
      (by decide) (by decide)).1 1 (by decide)⟩

/-! ## Hardware read with bounded retry -/

theorem readHwLoop_total (env : CaptureEnv) (frames : Nat) :
    ∀ (fuel retryCount : Nat) (trace : List StreamEvent),
      1 ≤ fuel → mMaxReadWriteRetried ≤ retryCount + fuel →
      (readHwLoop env frames fuel retryCount trace).1 ≠ Outcome.outOfFuel := by
  intro fuel
  induction fuel with
  | zero => intro _ _ h; omega
  | succ fuel ih =>
    intro retryCount trace _ hsum
    unfold readHwLoop
    simp only
    split
    · split
      · rename_i hlt
        exact ih (retryCount + 1) _ (by unfold mMaxReadWriteRetried at *; omega) (by omega)
      · simp
    · simp

theorem readHwLoop_all_fail (env : CaptureEnv) (frames : Nat)
    (hfail : ∀ k, env.pcmReadFrames k < 0) :
    ∀ (fuel retryCount : Nat) (trace : List StreamEvent),
      retryCount + fuel + 1 = mMaxReadWriteRetried →
      readHwLoop env frames (fuel + 1) retryCount trace
        = (Outcome.fatal "Hardware not responding, restarting media server",
           trace ++ StreamEvent.pcmReadFrames frames ::
             (List.replicate fuel
               (retryBlock frames (env.routeConvertFramesToUsec frames))).flatten) := by
  intro fuel
  induction fuel with
  | zero =>
    intro retryCount trace hsum
    unfold readHwLoop
    have h1 : ¬ (retryCount + 1 < mMaxReadWriteRetried) := by omega
    simp [hfail retryCount, h1]
  | succ fuel ih =>
    intro retryCount trace hsum
    unfold readHwLoop
    have h1 : retryCount + 1 < mMaxReadWriteRetried := by omega
    simp only [hfail retryCount, if_true, h1]
    rw [ih (retryCount + 1) _ (by omega)]
    simp [List.replicate_succ, retryBlock, safeSleep]

theorem count_read_retryBlocks (frames d n : Nat) :
    (List.replicate n (retryBlock frames d)).flatten.count (StreamEvent.pcmReadFrames frames)
      = n := by
  induction n with
  | zero => rfl
  | succ n ih =>
    rw [List.replicate_succ, List.flatten_cons, List.count_append, ih]
    simp [retryBlock, List.count_cons]
    omega

/-- C13: whatever the hardware does, `readHwFrames` ends (the loop never needs
more passes than the assertion allows); and if the hardware read fails on
every call, it performs exactly `mMaxReadWriteRetried` (50) read attempts and
then stops at the fatal assertion "Hardware not responding", the last event
being the 50th read. -/
theorem readHwFrames_bounded_retry (env : CaptureEnv) (frames : Nat) :
    (readHwFrames env frames).1 ≠ Outcome.outOfFuel ∧
    ((∀ k, env.pcmReadFrames k < 0) →
      (readHwFrames env frames).1
        = Outcome.fatal "Hardware not responding, restarting media server" ∧
      (readHwFrames env frames).2.count (StreamEvent.pcmReadFrames frames)
        = mMaxReadWriteRetried ∧
      (readHwFrames env frames).2.getLast? = some (StreamEvent.pcmReadFrames frames)) := by
  refine ⟨readHwLoop_total env frames _ 0 [] (by decide) (by simp), ?_⟩
  intro hfail
  have h := readHwLoop_all_fail env frames hfail 49 0 [] (by decide)
  unfold readHwFrames
  have h50 : mMaxReadWriteRetried = 49 + 1 := rfl
  rw [h50, h]
  refine ⟨rfl, ?_, ?_⟩
  · simp only [List.nil_append, List.count_cons_self, count_read_retryBlocks]
  · simp [List.replicate_succ', retryBlock, List.getLast?_append]

/-- Witness of C13 on the hardware that fails every read. -/
theorem readHwFrames_bounded_retry_witness :
    (∀ k, deadHardware.pcmReadFrames k < 0) ∧
    (readHwFrames deadHardware 160).1
      = Outcome.fatal "Hardware not responding, restarting media server" ∧
    (readHwFrames deadHardware 160).2.count (StreamEvent.pcmReadFrames 160)
      = mMaxReadWriteRetried :=
  ⟨fun _ => by show (-5 : Int) < 0; decide,
   ((readHwFrames_bounded_retry deadHardware 160).2
      (fun _ => by show (-5 : Int) < 0; decide)).1,
   ((readHwFrames_bounded_retry deadHardware 160).2
      (fun _ => by show (-5 : Int) < 0; decide)).2.1⟩

/-- Counterexample to C14 as stated: with a hardware that fails every read, the
first event of `readHwFrames` is a read attempt, with no sleep before it, and
the 50 read attempts come with 49 sleeps only. -/
theorem first_read_has_no_sleep :
    (readHwFrames deadHardware 160).2.head? = some (StreamEvent.pcmReadFrames 160) ∧
    (readHwFrames deadHardware 160).2.count (StreamEvent.pcmReadFrames 160) = 50 ∧
    (readHwFrames deadHardware 160).2.count (StreamEvent.safeSleep 20000) = 49 := by
  decide

/-- C14 (amended): when the hardware read fails on every call, the events of
`readHwFrames` are the first read attempt followed by 49 retries, each retry
being a sleep requested for `routeSampleSpec().convertFramesToUsec(frames)`
microseconds and then the next read attempt: every read attempt but the first
is preceded by such a sleep. -/
theorem readHwFrames_sleeps_before_retry (env : CaptureEnv) (frames : Nat)
    (hfail : ∀ k, env.pcmReadFrames k < 0) :
    (readHwFrames env frames).2
      = StreamEvent.pcmReadFrames frames ::
          (List.replicate 49
            (retryBlock frames (env.routeConvertFramesToUsec frames))).flatten := by
  have h := readHwLoop_all_fail env frames hfail 49 0 [] (by decide)
  unfold readHwFrames
  have h50 : mMaxReadWriteRetried = 49 + 1 := rfl
  rw [h50, h]
  rfl

/-- Witness of C14 (amended) on the hardware that fails every read. -/
theorem readHwFrames_sleeps_before_retry_witness :
    (∀ k, deadHardware.pcmReadFrames k < 0) ∧
    (readHwFrames deadHardware 160).2
      = StreamEvent.pcmReadFrames 160 ::
          (List.replicate 49
            (retryBlock 160 (deadHardware.routeConvertFramesToUsec 160))).flatten :=
  ⟨fun _ => by show (-5 : Int) < 0; decide,
   readHwFrames_sleeps_before_retry deadHardware 160 (fun _ => by show (-5 : Int) < 0; decide)⟩

/-! ## Standby -/

theorem setStandby_same_state (parentStatus : status_t) (isSet : Bool) (s : AudioStream)
    (h : s.isStarted = !isSet) :
    AudioStream.setStandby parentStatus isSet s = (OK, s) := by
  unfold AudioStream.setStandby
  simp [h]

theorem setStandby_reaches_state (parentStatus : status_t) (isSet : Bool) (s : AudioStream) :
    (AudioStream.setStandby parentStatus isSet s).2.isStarted = !isSet := by
  unfold AudioStream.setStandby
  by_cases h : s.isStarted = !isSet
  · simp [h]
  · have h2 : (s.isStarted == !isSet) = false := by simpa using h
    simp only [h2, Bool.false_eq_true, if_false]
    cases isSet <;> simp [AudioStream.isStarted, AudioStream.setStarted]

theorem setStandby_notifications (parentStatus : status_t) (isSet : Bool) (s : AudioStream) :
    notifications (AudioStream.setStandby parentStatus isSet s).2.trace
      ≤ notifications s.trace + 1 := by
  unfold AudioStream.setStandby
  by_cases h : s.isStarted = !isSet
  · simp [h]
  · have h2 : (s.isStarted == !isSet) = false := by simpa using h
    simp only [h2, Bool.false_eq_true, if_false]
    cases isSet <;>
      simp [AudioStream.setStarted, notifications, List.count_append, List.count_cons] <;>
      omega

/-- C19: `setStandby(isSet)` on a stream that is already in the requested state
is a no-op: it returns `OK` and leaves the stream as it was, started flag and
trace included, so the parent is not notified. Hence the second of two
consecutive `setStandby` calls with the same argument changes nothing, and
the two calls together notify the parent at most once. -/
theorem setStandby_idempotent (p1 p2 : status_t) (isSet : Bool) (s : AudioStream) :
    (s.isStarted = (!isSet) → AudioStream.setStandby p1 isSet s = (OK, s)) ∧
    AudioStream.setStandby p2 isSet (AudioStream.setStandby p1 isSet s).2
      = (OK, (AudioStream.setStandby p1 isSet s).2) ∧
    notifications
        (AudioStream.setStandby p2 isSet (AudioStream.setStandby p1 isSet s).2).2.trace
      ≤ notifications s.trace + 1 := by
  have h2 := setStandby_same_state p2 isSet _ (setStandby_reaches_state p1 isSet s)
  refine ⟨setStandby_same_state p1 isSet s, h2, ?_⟩
  rw [h2]
  exact setStandby_notifications p1 isSet s

/-- Witness of C19: a started stream asked to start again. -/
theorem setStandby_idempotent_witness :
    AudioStream.isStarted ⟨false, []⟩ = (!false) ∧
    AudioStream.setStandby status_t.BAD_VALUE false ⟨false, []⟩ = (OK, ⟨false, []⟩) :=
  ⟨rfl, (setStandby_idempotent status_t.BAD_VALUE OK false ⟨false, []⟩).1 rfl⟩

/-- Counterexample to C20 as stated: `setStandby(false)` on a stream in standby
first writes the started flag and only then notifies the parent. -/
theorem setStandby_marks_before_notifying :
    (AudioStream.setStandby OK false ⟨true, []⟩).2.trace
      = [StreamEvent.setStarted true, StreamEvent.initAudioDump,
         StreamEvent.parentStartStream] ∧
    (AudioStream.setStandby OK true ⟨false, []⟩).2.trace
      = [StreamEvent.setStarted false, StreamEvent.parentStopStream] := by
  decide

/-- C20 (amended): `setStandby(false)` on a stream in standby first marks the
stream started (and initialises the audio dump) and then notifies the parent
with `startStream`, whose status it returns; symmetrically `setStandby(true)`
on a started stream first marks the stream standby and then notifies the
parent with `stopStream`. -/
theorem setStandby_order (parentStatus : status_t) (s : AudioStream) :
    (s.mStandby = true →
      AudioStream.setStandby parentStatus false s
        = (parentStatus,
           { mStandby := false
             trace := s.trace ++ [StreamEvent.setStarted true, StreamEvent.initAudioDump,
               StreamEvent.parentStartStream] })) ∧
    (s.mStandby = false →
      AudioStream.setStandby parentStatus true s
        = (parentStatus,
           { mStandby := true
             trace := s.trace ++ [StreamEvent.setStarted false,
               StreamEvent.parentStopStream] })) := by
  constructor
  · intro h
    simp [AudioStream.setStandby, AudioStream.isStarted, AudioStream.setStarted, h]
  · intro h
    simp [AudioStream.setStandby, AudioStream.isStarted, AudioStream.setStarted, h]

/-- Witness of C20 (amended) on a stream in standby. -/
theorem setStandby_order_witness :
    (⟨true, []⟩ : AudioStream).mStandby = true ∧
    AudioStream.setStandby OK false ⟨true, []⟩
      = (OK, { mStandby := false
               trace := [] ++ [StreamEvent.setStarted true, StreamEvent.initAudioDump,
                 StreamEvent.parentStartStream] }) :=
  ⟨rfl, (setStandby_order OK ⟨true, []⟩).1 rfl⟩

/-! ## The effect chain of the capture stream -/

theorem doProcessLoop_exit (env : CaptureEnv) (frames : Int)
    (effects : List AudioEffectHandle) :
    ∀ (fuel : Nat) (v w : ProcessVars),
      doProcessLoop env frames effects fuel v = some w →
      ¬ (w.processedFrames < frames ∧ w.processingFramesIn > 0 ∧ w.ret = 0) := by
  intro fuel
  induction fuel with
  | zero =>
    intro v w h
    unfold doProcessLoop at h
    split at h
    · cases h
    · rename_i hc
      simp only [Option.some.injEq] at h
      rw [← h]; exact hc
  | succ fuel ih =>
    intro v w h
    unfold doProcessLoop at h
    split at h
    · exact ih _ w h
    · rename_i hc
      simp only [Option.some.injEq] at h
      rw [← h]; exact hc

theorem reloadFrames_ok (env : CaptureEnv) (frames : Int) (st st1 : AudioStreamInImpl)
    (hre : reloadFrames env frames st = Except.ok st1) :
    frames ≤ st1.mProcessingFramesIn := by
  unfold reloadFrames at hre
  by_cases h1 : st.mProcessingFramesIn < frames
  · simp only [h1, if_true] at hre
    generalize (if st.mProcessingBufferSizeInFrames < frames
      then allocateProcessingMemory env frames st else (0, st)) = alloc at hre
    by_cases h2 : (alloc.1 != 0) = true
    · simp only [h2, if_true] at hre
      cases hre
    · simp only [h2, Bool.false_eq_true, if_false] at hre
      generalize readFrames env (toSizeT (frames - alloc.2.mProcessingFramesIn)) = rd at hre
      cases hrd : rd.1 with
      | outOfFuel => rw [hrd] at hre; cases hre
      | fatal msg => rw [hrd] at hre; cases hre
      | returned read_frames =>
        rw [hrd] at hre
        simp only at hre
        by_cases h3 : read_frames < 0
        · simp only [h3, if_true] at hre
          cases hre
        · simp only [h3, if_false] at hre
          by_cases h4 : alloc.2.mProcessingFramesIn + read_frames ≥ frames
          · simp only [h4, if_true, Except.ok.injEq] at hre
            rw [← hre]
            exact h4
          · simp only [h4, if_false] at hre
            cases hre
  · simp only [h1, if_false, Except.ok.injEq] at hre
    rw [← hre]; omega

/-- Counterexample to C15 as stated: with 160 frames requested and one effect
that consumes all the buffered input and produces half the output asked
for, `processFrames` returns 80 without any error of the chain (nothing is
passed through and no input is left); with two such effects it returns 120. -/
theorem processFrames_short_count :
    (processFrames (workingHardware halvingProcess) 10 160
      (freshCapture [⟨7, 0⟩])).outcome = Outcome.returned 80 ∧
    (processFrames (workingHardware halvingProcess) 10 160
      (freshCapture [⟨7, 0⟩])).copied = none ∧
    (processFrames (workingHardware halvingProcess) 10 160
      (freshCapture [⟨7, 0⟩])).stream.mProcessingFramesIn = 0 ∧
    (processFrames (workingHardware halvingProcess) 10 160
      (freshCapture [⟨7, 0⟩])).stream.trace
      = [StreamEvent.pcmReadFrames 160, StreamEvent.process 7 160 160] ∧
    (processFrames (workingHardware halvingProcess) 10 160
      (freshCapture [⟨7, 0⟩, ⟨8, 0⟩])).outcome = Outcome.returned 120 := by
  decide

/-- C15 (amended): when `processFrames(buffer, frames)` returns a count `n`,
either the reload failed and `n` is the status of the allocation or of the
read, or the effect chain ran over at least `frames` buffered frames and
stopped for one of three reasons: the effect called last in a pass signalled
an error (then `n` is the number of buffered input frames); or the requested
frame count has been produced (`frames ≤ n`); or the buffered input is
exhausted (then `n` is what was produced so far, possibly less than
`frames`). -/
theorem processFrames_return_cases (env : CaptureEnv) (fuel : Nat) (frames n : Int)
    (st : AudioStreamInImpl)
    (h : (processFrames env fuel frames st).outcome = Outcome.returned n) :
    (∃ r, reloadFrames env frames st = Except.error r ∧ r.outcome = Outcome.returned n) ∨
    (∃ st1 v, reloadFrames env frames st = Except.ok st1 ∧
      frames ≤ st1.mProcessingFramesIn ∧
      doProcessFrames env fuel st1.mPreprocessorsHandlerList frames 0
        st1.mProcessingFramesIn st1.trace = some v ∧
      ((v.ret ≠ 0 ∧ n = st1.mProcessingFramesIn) ∨
       (v.ret = 0 ∧ n = v.processedFrames ∧
        (frames ≤ n ∨ v.processingFramesIn = 0) ∧
        (processFrames env fuel frames st).stream.mProcessingFramesIn
          = v.processingFramesIn))) := by
  unfold processFrames at h ⊢
  cases hre : reloadFrames env frames st with
  | error r =>
    rw [hre] at h
    exact Or.inl ⟨r, rfl, h⟩
  | ok st1 =>
    rw [hre] at h
    simp only at h ⊢
    right
    have hge : frames ≤ st1.mProcessingFramesIn := reloadFrames_ok env frames st st1 hre
    unfold processBuffered at h ⊢
    cases hloop : doProcessFrames env fuel st1.mPreprocessorsHandlerList frames 0
        st1.mProcessingFramesIn st1.trace with
    | none => rw [hloop] at h; simp at h
    | some v =>
      rw [hloop] at h
      refine ⟨st1, v, rfl, hge, hloop, ?_⟩
      have hexit := doProcessLoop_exit env frames _ fuel _ v hloop
      simp only at h ⊢
      by_cases hret : v.ret = 0
      · right
        have hret2 : (v.ret != 0) = false := by simp [hret]
        simp only [hret2, Bool.false_eq_true, if_false] at h ⊢
        by_cases hz : v.processingFramesIn = 0
        · have hz2 : (v.processingFramesIn != 0) = false := by simp [hz]
          simp only [hz2, Bool.false_eq_true, if_false, Outcome.returned.injEq] at h ⊢
          exact ⟨hret, h.symm, Or.inr hz, trivial⟩
        · have hz2 : (v.processingFramesIn != 0) = true := by simp [hz]
          simp only [hz2, if_true] at h ⊢
          by_cases hpos : v.processingFramesIn > 0
          · simp only [hpos, if_true, Outcome.returned.injEq] at h ⊢
            refine ⟨hret, h.symm, Or.inl ?_, trivial⟩
            rw [← h]
            by_contra hlt
            exact hexit ⟨by omega, hpos, hret⟩
          · simp [hpos] at h
      · left
        have hret2 : (v.ret != 0) = true := by simp [hret]
        simp only [hret2, if_true, Outcome.returned.injEq] at h
        exact ⟨hret, h.symm⟩

/-- Witness of C15 (amended) at the input of the counterexample: the chain
stopped because the buffered input was exhausted. -/
theorem processFrames_return_cases_witness :
    (processFrames (workingHardware halvingProcess) 10 160
      (freshCapture [⟨7, 0⟩])).outcome = Outcome.returned 80 ∧
    ((∃ r, reloadFrames (workingHardware halvingProcess) 160 (freshCapture [⟨7, 0⟩])
        = Except.error r ∧ r.outcome = Outcome.returned 80) ∨
     (∃ st1 v, reloadFrames (workingHardware halvingProcess) 160 (freshCapture [⟨7, 0⟩])
        = Except.ok st1 ∧
      160 ≤ st1.mProcessingFramesIn ∧
      doProcessFrames (workingHardware halvingProcess) 10 st1.mPreprocessorsHandlerList 160 0
        st1.mProcessingFramesIn st1.trace = some v ∧
      ((v.ret ≠ 0 ∧ (80 : Int) = st1.mProcessingFramesIn) ∨
       (v.ret = 0 ∧ 80 = v.processedFrames ∧
        ((160 : Int) ≤ 80 ∨ v.processingFramesIn = 0) ∧
        (processFrames (workingHardware halvingProcess) 10 160
          (freshCapture [⟨7, 0⟩])).stream.mProcessingFramesIn = v.processingFramesIn)))) :=
  ⟨by decide,
   processFrames_return_cases (workingHardware halvingProcess) 10 160 80
     (freshCapture [⟨7, 0⟩]) (by decide)⟩

set_option maxRecDepth 100000 in
/-- C17, evaluated on the code: with the effects 7 and 8 attached, effect 7
consuming 80 of the 160 buffered frames and effect 8 failing, `processFrames`
returns 160 after copying all 160 buffered frames to the client, and keeps
`mProcessingFramesIn` at 80 without compacting the buffer: the frames retained
for the next call are the former frames 0..79, which were consumed by effect
7 and delivered to the client, not the unconsumed frames 80..159. -/
theorem failed_chain_retains_delivered_frames :
    (processFrames (workingHardware secondFailsProcess) 10 160
      (freshCapture [⟨7, 0⟩, ⟨8, 0⟩])).outcome = Outcome.returned 160 ∧
    (processFrames (workingHardware secondFailsProcess) 10 160
      (freshCapture [⟨7, 0⟩, ⟨8, 0⟩])).copied = some (List.range 160) ∧
    (processFrames (workingHardware secondFailsProcess) 10 160
      (freshCapture [⟨7, 0⟩, ⟨8, 0⟩])).stream.mProcessingFramesIn = 80 ∧
    (processFrames (workingHardware secondFailsProcess) 10 160
      (freshCapture [⟨7, 0⟩, ⟨8, 0⟩])).stream.mProcessingBuffer.take 80 = List.range 80 ∧
    (processFrames (workingHardware secondFailsProcess) 10 160
      (freshCapture [⟨7, 0⟩, ⟨8, 0⟩])).stream.mProcessingBuffer.take 80
      ≠ (List.range 160).drop 80 := by
  decide

/-! ## Registration of effects on the capture stream -/

theorem addSwAudioEffectL_list (env : EffectEnv) (effect reference : Nat)
    (st : AudioStreamInImpl) :
    ((addSwAudioEffectL env effect reference st).2.mPreprocessorsHandlerList
        = st.mPreprocessorsHandlerList) ∨
    ((st.mPreprocessorsHandlerList.any (fun h => h.mPreprocessor == effect)) = false ∧
      (addSwAudioEffectL env effect reference st).2.mPreprocessorsHandlerList
        = st.mPreprocessorsHandlerList ++
            [{ mPreprocessor := effect, mEchoReference := reference }]) := by
  unfold addSwAudioEffectL
  by_cases h0 : (effect == 0) = true
  · simp [h0]
  · simp only [h0, Bool.false_eq_true, if_false]
    by_cases hany : (st.mPreprocessorsHandlerList.any (fun h => h.mPreprocessor == effect))
        = true
    · simp [hany]
    · cases hv : env.vectorAddError with
      | some ret => simp [hany]
      | none =>
        right
        refine ⟨by simpa using hany, ?_⟩
        simp only [hany, Bool.false_eq_true, if_false]

theorem addSwAudioEffectL_nodup (env : EffectEnv) (effect reference : Nat)
    (st : AudioStreamInImpl) (h : NoDuplicateEffect st) :
    NoDuplicateEffect (addSwAudioEffectL env effect reference st).2 := by
  unfold NoDuplicateEffect at *
  rcases addSwAudioEffectL_list env effect reference st with hl | ⟨hany, hl⟩
  · rw [hl]; exact h
  · rw [hl, List.map_append, List.nodup_append]
    refine ⟨h, by simp, ?_⟩
    intro a ha hb
    simp only [List.map_cons, List.map_nil, List.mem_singleton] at hb
    subst hb
    rw [List.mem_map] at ha
    obtain ⟨x, hx, hxe⟩ := ha
    rw [List.any_eq_false] at hany
    exact hany x hx (by simpa using hxe)

theorem addAudioEffect_nodup (env : EffectEnv) (effect : Nat) (st : AudioStreamInImpl)
    (h : NoDuplicateEffect st) : NoDuplicateEffect (addAudioEffect env effect st).2 := by
  unfold addAudioEffect
  by_cases h0 : (effect == 0) = true
  · simp only [h0, if_true]; exact h
  · simp only [h0, Bool.false_eq_true, if_false]
    by_cases hhw : isHwEffectL env effect = true
    · simp only [hhw, if_true]
      cases env.getDescriptor effect with
      | none => exact h
      | some desc =>
        simp only
        split <;> exact h
    · simp only [hhw, Bool.false_eq_true, if_false]
      by_cases haec : isAecEffect env effect = true
      · simp only [haec, if_true]
        exact addSwAudioEffectL_nodup env effect _ _ h
      · simp only [haec, Bool.false_eq_true, if_false]
        have := addSwAudioEffectL_nodup env effect 0 st h
        cases hadd : addSwAudioEffectL env effect 0 st with
        | mk o st1 =>
          rw [hadd] at this
          cases o <;> exact this

theorem removeAudioEffect_nodup (env : EffectEnv) (effect : Nat) (st : AudioStreamInImpl)
    (h : NoDuplicateEffect st) : NoDuplicateEffect (removeAudioEffect env effect st).2 := by
  have hrem : NoDuplicateEffect (removeSwAudioEffectL effect st).2 := by
    unfold removeSwAudioEffectL
    by_cases h0 : (effect == 0) = true
    · simp only [h0, if_true]; exact h
    · simp only [h0, Bool.false_eq_true, if_false]
      cases st.mPreprocessorsHandlerList.find? (fun h => h.mPreprocessor == effect) with
      | none => exact h
      | some it =>
        unfold NoDuplicateEffect at *
        exact h.sublist ((List.erase_sublist it _).map _)
  unfold removeAudioEffect
  by_cases h0 : (effect == 0) = true
  · simp only [h0, if_true]; exact h
  · simp only [h0, Bool.false_eq_true, if_false]
    by_cases hhw : isHwEffectL env effect = true
    · simp only [hhw, if_true]
      cases env.getDescriptor effect with
      | none => exact h
      | some desc =>
        simp only
        split <;> exact h
    · simp only [hhw, Bool.false_eq_true, if_false]
      cases hr : removeSwAudioEffectL effect st with
      | mk o st1 =>
        rw [hr] at hrem
        cases o <;> exact hrem

/-- The part of C18 that holds: adding a software effect that is already in the
list returns `NO_ERROR` and leaves the effect list unchanged, and for every
sequence of add / remove calls from a list without duplicates the list never
holds two handles with the same underlying effect. -/
theorem repeated_add_keeps_list (env : EffectEnv) (effect : Nat) (st : AudioStreamInImpl)
    (calls : List EffectCall) :
    (effect ≠ 0 → isHwEffectL env effect = false →
      (st.mPreprocessorsHandlerList.any (fun h => h.mPreprocessor == effect)) = true →
        (addAudioEffect env effect st).1 = Outcome.returned status_t.NO_ERROR ∧
        (addAudioEffect env effect st).2.mPreprocessorsHandlerList
          = st.mPreprocessorsHandlerList) ∧
    (NoDuplicateEffect st → NoDuplicateEffect (runEffectCalls env calls st)) := by
  constructor
  · intro h0 hhw hany
    have h0b : (effect == 0) = false := by simpa using h0
    unfold addAudioEffect
    simp only [h0b, Bool.false_eq_true, if_false, hhw]
    have hadd : ∀ reference st1, st1.mPreprocessorsHandlerList = st.mPreprocessorsHandlerList →
        addSwAudioEffectL env effect reference st1
          = (Outcome.returned status_t.NO_ERROR, st1) := by
      intro reference st1 hst1
      unfold addSwAudioEffectL
      simp only [h0b, Bool.false_eq_true, if_false, hst1, hany, if_true]
    by_cases haec : isAecEffect env effect = true
    · simp only [haec, if_true]
      rw [hadd env.getEchoReference
        { st with trace := st.trace ++ [StreamEvent.getEchoReference] } rfl]
      exact ⟨rfl, rfl⟩
    · simp only [haec, Bool.false_eq_true, if_false]
      rw [hadd 0 st rfl]
      exact ⟨rfl, rfl⟩
  · intro h
    induction calls generalizing st with
    | nil => exact h
    | cons c cs ih =>
      cases c with
      | addAudioEffect e =>
        unfold runEffectCalls
        exact ih _ (addAudioEffect_nodup env e st h)
      | removeAudioEffect e =>
        unfold runEffectCalls
        exact ih _ (removeAudioEffect_nodup env e st h)

set_option maxRecDepth 100000 in
/-- C18, evaluated on the code: adding the echo canceller 7 a second time
returns `NO_ERROR` and leaves the effect list unchanged, but the call still
asks the parent for an echo reference (`getEchoReference`) before the
duplicate is detected: the repeated add acquires a reference that no handle
of the list holds. -/
theorem repeated_aec_add_acquires_reference :
    (addAudioEffect sampleEffectEnv 7 (freshCapture [])).2.mPreprocessorsHandlerList
      = [⟨7, 42⟩] ∧
    (addAudioEffect sampleEffectEnv 7 (freshCapture [])).2.trace
      = [StreamEvent.getEchoReference] ∧
    (addAudioEffect sampleEffectEnv 7
      (addAudioEffect sampleEffectEnv 7 (freshCapture [])).2).1
      = Outcome.returned status_t.NO_ERROR ∧
    (addAudioEffect sampleEffectEnv 7
      (addAudioEffect sampleEffectEnv 7 (freshCapture [])).2).2.mPreprocessorsHandlerList
      = [⟨7, 42⟩] ∧
    (addAudioEffect sampleEffectEnv 7
      (addAudioEffect sampleEffectEnv 7 (freshCapture [])).2).2.trace
      = [StreamEvent.getEchoReference, StreamEvent.getEchoReference] := by
  decide

/-! ## The value `safeSleep` returns -/

/-- C25 (the code evaluated at the failing input): `safeSleep` returns false when
`nanosleep` honoured the request (result 0), and false as well when it was
interrupted (result -1), for every sleep time. -/
theorem safeSleep_false_on_success (sleepTimeUs : Nat) :
    (safeSleep 0 sleepTimeUs).1 = false ∧ (safeSleep (-1) sleepTimeUs).1 = false := by
  constructor <;> simp [safeSleep]

/-! ## The aggregate of the render direction -/

theorem routedMask_skips_unrouted (heap : Heap) (pre post : List StreamPtr) (q : StreamPtr)
    (hq : (heap q).getDevices = 0) :
    routedMask heap (pre ++ q :: post) = routedMask heap (pre ++ post) := by
  unfold routedMask
  simp [List.filter_append, List.filter_cons, hq]

theorem routedMask_none (heap : Heap) (l : List StreamPtr)
    (h : ∀ q ∈ l, (heap q).getDevices = 0) : routedMask heap l = 0 := by
  unfold routedMask
  have hnil : l.filter (fun p => (heap p).getDevices != 0) = [] := by
    rw [List.filter_eq_nil_iff]
    intro q hq
    simp [h q hq]
  rw [hnil]
  rfl

theorem output_update_step (defs : AudioDefs) (heap : Heap) (s : AudioPlatformState)
    (roster : Bool → List StreamPtr) (hr : StateChangedReady s)
    (ho : Registered s mOutputFlagsCriterionName) :
    ∃ s1, ((updateActiveStreamsParameters defs heap true
          { s.emit Event.writeLock with mActiveStreamsList := roster }).bind
          fun _ s3 => Result.ok () (s3.emit Event.unlock)) = Result.ok () s1 ∧
      s1.mActiveStreamsList = roster ∧
      getValue mOutputFlagsCriterionName s1 = some (routedMask heap (roster true)) := by
  have hr2 : StateChangedReady { s.emit Event.writeLock with mActiveStreamsList := roster } :=
    hr
  obtain ⟨s3, h3, r3, v3, _⟩ := updateActiveStreamsParameters_out defs heap _ hr2 ho
  exact ⟨s3.emit Event.unlock, by rw [h3]; rfl, r3.roster, v3⟩

/-- C26: a `startStream` or `stopStream` call on an output stream returns, leaves
the stream added to (removed from) the output roster, and leaves in the
`OutputFlags` criterion the bitwise OR of the applicability masks of the
streams of that roster whose device mask is non-zero; a roster stream with
device mask 0 contributes nothing to that OR, and when no roster stream has a
device the value is 0. -/
theorem output_flags_is_or_of_routed_streams (defs : AudioDefs) (heap : Heap)
    (c : StreamCall) (s : AudioPlatformState) (hc : c.stream ≠ NULL)
    (hout : (heap c.stream).isOut = true) (hr : StateChangedReady s)
    (ho : Registered s mOutputFlagsCriterionName) :
    ∃ s1, runCall defs heap c s = Result.ok () s1 ∧
      s1.mActiveStreamsList true =
        (match c with
         | StreamCall.startStream p => s.mActiveStreamsList true ++ [p]
         | StreamCall.stopStream p => (s.mActiveStreamsList true).filter (fun q => q != p)) ∧
      getValue mOutputFlagsCriterionName s1
        = some (routedMask heap (s1.mActiveStreamsList true)) ∧
      (∀ pre q post, (heap q).getDevices = 0 →
        routedMask heap (pre ++ q :: post) = routedMask heap (pre ++ post)) ∧
      ((∀ q ∈ s1.mActiveStreamsList true, (heap q).getDevices = 0) →
        getValue mOutputFlagsCriterionName s1 = some 0) := by
  cases c with
  | startStream p =>
    have hp0 : (p == NULL) = false := by simpa [StreamCall.stream] using hc
    have hout2 : (heap p).isOut = true := hout
    obtain ⟨s1, h1, hros, hval⟩ := output_update_step defs heap s
      (fun d => if d = true then s.mActiveStreamsList d ++ [p] else s.mActiveStreamsList d)
      hr ho
    have hv : getValue mOutputFlagsCriterionName s1
        = some (routedMask heap (s1.mActiveStreamsList true)) := by rw [hval, hros]
    refine ⟨s1, ?_, by rw [hros]; simp, hv,
      fun pre q post hq => routedMask_skips_unrouted heap pre post q hq, ?_⟩
    · unfold runCall startStream
      simp only [hp0, Bool.false_eq_true, if_false, hout2]
      exact h1
    · intro hall
      rw [hv, routedMask_none heap _ hall]
  | stopStream p =>
    have hp0 : (p == NULL) = false := by simpa [StreamCall.stream] using hc
    have hout2 : (heap p).isOut = true := hout
    obtain ⟨s1, h1, hros, hval⟩ := output_update_step defs heap s
      (fun d => if d = true then (s.mActiveStreamsList d).filter (fun q => q != p)
        else s.mActiveStreamsList d)
      hr ho
    have hv : getValue mOutputFlagsCriterionName s1
        = some (routedMask heap (s1.mActiveStreamsList true)) := by rw [hval, hros]
    refine ⟨s1, ?_, by rw [hros]; simp, hv,
      fun pre q post hq => routedMask_skips_unrouted heap pre post q hq, ?_⟩
    · unfold runCall stopStream
      simp only [hp0, Bool.false_eq_true, if_false, hout2]
      exact h1
    · intro hall
      rw [hv, routedMask_none heap _ hall]

set_option maxRecDepth 100000 in
/-- Witness of C26 on the sample state: starting the output stream 2 (device 2,
flags 1) when the output roster holds stream 1 (no device, flags 4) leaves
`OutputFlags` at 1. -/
theorem output_flags_is_or_of_routed_streams_witness :
    ∃ s1, runCall androidDefs sampleHeap (StreamCall.startStream 2)
        { sampleState with mActiveStreamsList := fun d => if d then [1] else [] }
        = Result.ok () s1 ∧
      s1.mActiveStreamsList true = [1, 2] ∧
      getValue mOutputFlagsCriterionName s1 = some 1 := by
  obtain ⟨s1, h1, hros, hval, _, _⟩ := output_flags_is_or_of_routed_streams androidDefs
    sampleHeap (StreamCall.startStream 2)
    { sampleState with mActiveStreamsList := fun d => if d then [1] else [] }
    (by decide) (by decide) sampleState_ready (by decide)
  refine ⟨s1, h1, hros, ?_⟩
  rw [hval, hros]
  decide

/-! ## Criteria a stream call needs -/

theorem SameRegistry.throughBind {α β : Type} {s : AudioPlatformState} (r : Result α)
    (f : α → AudioPlatformState → Result β) (h1 : SameRegistry s r.state)
    (h2 : ∀ a s1, SameRegistry s1 (f a s1).state) : SameRegistry s (r.bind f).state := by
  cases r with
  | ok a s1 => exact h1.andThen (h2 a s1)
  | fatal s1 => exact h1

theorem setPlatformStateEvent_registry (e : String) (s : AudioPlatformState) :
    SameRegistry s (setPlatformStateEvent e s).state := by
  unfold setPlatformStateEvent
  split
  · exact SameRegistry.same s
  · split
    · exact SameRegistry.same s
    · split
      · exact ⟨rfl, rfl, rfl, fun k => critType_setCriterionValue _ _ _ _⟩
      · refine ⟨rfl, rfl, rfl, fun k => ?_⟩
        show critType (AudioPlatformState.setCriterionValue _ _ _) k = _
        rw [critType_setCriterionValue]; rfl

theorem setValue_registry (v : Nat) (n : String) (s : AudioPlatformState) :
    SameRegistry s (setValue v n s).state := by
  unfold setValue
  split
  · exact SameRegistry.same s
  · split
    · have hreg : SameRegistry s
          ((s.setCriterionValue n v).emit (Event.setCriterionState n v)) :=
        ⟨rfl, rfl, rfl, fun k => critType_setCriterionValue s n k v⟩
      exact hreg.andThen (setPlatformStateEvent_registry _ _)
    · exact SameRegistry.same s

theorem applyPlatformConfiguration_registry (s : AudioPlatformState) :
    SameRegistry s (applyPlatformConfiguration s).state := by
  unfold applyPlatformConfiguration
  split
  · exact SameRegistry.same s
  · unfold clearPlatformStateEvents
    split
    · exact ⟨rfl, rfl, rfl, fun _ => rfl⟩
    · refine ⟨rfl, rfl, rfl, fun k => ?_⟩
      show critType (AudioPlatformState.setCriterionValue _ _ _) k = _
      rw [critType_setCriterionValue]; rfl

theorem bind_isOk {α β : Type} (r : Result α) (f : α → AudioPlatformState → Result β)
    (h : (r.bind f).isOk = true) : ∃ a s1, r = Result.ok a s1 ∧ (f a s1).isOk = true := by
  cases r with
  | ok a s1 => exact ⟨a, s1, rfl, h⟩
  | fatal s1 => simp [Result.bind, Result.isOk] at h

theorem setValue_isOk_registered (v : Nat) (n : String) (s : AudioPlatformState)
    (h : (setValue v n s).isOk = true) : Registered s n := by
  rw [registered_iff_find]
  unfold setValue at h
  cases hf : mapFind s.mRouteCriterionMap n with
  | none => simp [hf, Result.isOk] at h
  | some c => exact ⟨c, rfl⟩

theorem updateActiveStreamsParameters_isOk_out (defs : AudioDefs) (heap : Heap)
    (s : AudioPlatformState)
    (h : (updateActiveStreamsParameters defs heap true s).isOk = true) :
    Registered s mOutputFlagsCriterionName := by
  unfold updateActiveStreamsParameters at h
  rw [updateActiveStreamsLoop_out] at h
  simp only [Result.bind, if_true] at h
  obtain ⟨_, _, h1, _⟩ := bind_isOk _ _ h
  exact setValue_isOk_registered _ _ _ (by rw [h1]; rfl)

theorem updateActiveStreamsParameters_isOk_in (defs : AudioDefs) (heap : Heap)
    (s : AudioPlatformState)
    (h : (updateActiveStreamsParameters defs heap false s).isOk = true) :
    Registered s mInputSourcesCriterionName ∧
    Registered s mPreProcRequestedByActiveInputCriterionName ∧
    ((activeInput heap (s.mActiveStreamsList false)).isSome = true →
      Registered s mVoipBandCriterionName) := by
  unfold updateActiveStreamsParameters at h
  obtain ⟨r, s0, h0, h⟩ := bind_isOk _ _ h
  obtain ⟨_, s1, h1, h⟩ := bind_isOk _ _ h
  obtain ⟨_, s2, h2, _⟩ := bind_isOk _ _ h
  simp only [Bool.not_false, if_true, Bool.false_eq_true, if_false] at h1 h2
  -- the loop keeps the registry and needs the band type when an input is routed
  have hloop : SameRegistry s s0 ∧
      ((activeInput heap (s.mActiveStreamsList false)).isSome = true →
        Registered s mVoipBandCriterionName) := by
    rw [updateActiveStreamsLoop_in] at h0
    cases ha : activeInput heap (s.mActiveStreamsList false) with
    | none =>
      rw [ha] at h0
      simp only [Result.ok.injEq] at h0
      rw [← h0.2]
      exact ⟨SameRegistry.same s, fun hx => by simp at hx⟩
    | some p =>
      rw [ha] at h0
      simp only at h0
      cases hb : setVoipBandType defs (heap p) s with
      | fatal sf => rw [hb] at h0; simp [Result.bind] at h0
      | ok u sb =>
        rw [hb] at h0
        simp only [Result.bind, Result.ok.injEq] at h0
        unfold setVoipBandType at hb
        have hreg := setValue_registry
          (if (heap p).sampleRate == defs.mVoiceStreamRateForNarrowBandProcessing
           then defs.ENarrow else defs.EWide) mVoipBandCriterionName s
        have hok := setValue_isOk_registered
          (if (heap p).sampleRate == defs.mVoiceStreamRateForNarrowBandProcessing
           then defs.ENarrow else defs.EWide) mVoipBandCriterionName s
        simp only at hb
        rw [hb] at hreg hok
        rw [← h0.2]
        exact ⟨hreg, fun _ => hok rfl⟩
  have hs1 : SameRegistry s0 s1 := by
    have := setValue_registry r.1 mInputSourcesCriterionName s0
    rw [h1] at this; exact this
  have hi : Registered s0 mInputSourcesCriterionName :=
    setValue_isOk_registered _ _ _ (by rw [h1]; rfl)
  have hp : Registered s1 mPreProcRequestedByActiveInputCriterionName :=
    setValue_isOk_registered _ _ _ (by rw [h2]; rfl)
  refine ⟨?_, ?_, hloop.2⟩
  · unfold Registered at *; rw [← hloop.1.shape]; exact hi
  · unfold Registered at *; rw [← hloop.1.shape, ← hs1.shape]; exact hp

theorem activeInput_isSome_iff (heap : Heap) (l : List StreamPtr) :
    (activeInput heap l).isSome = true ↔ ∃ q ∈ l, (heap q).getDevices ≠ 0 := by
  unfold activeInput
  rw [List.find?_isSome]
  constructor
  · rintro ⟨q, hq, hd⟩
    exact ⟨q, hq, by simpa using hd⟩
  · rintro ⟨q, hq, hd⟩
    exact ⟨q, hq, by simpa using hd⟩

theorem roster_update_isOk (defs : AudioDefs) (heap : Heap) (s : AudioPlatformState)
    (roster : Bool → List StreamPtr) (isOut : Bool)
    (h : ((updateActiveStreamsParameters defs heap isOut
          { s.emit Event.writeLock with mActiveStreamsList := roster }).bind
          fun _ s3 => Result.ok () (s3.emit Event.unlock)).isOk = true) :
    (isOut = true → Registered s mOutputFlagsCriterionName) ∧
    (isOut = false →
      Registered s mInputSourcesCriterionName ∧
      Registered s mPreProcRequestedByActiveInputCriterionName ∧
      ((∃ q ∈ roster false, (heap q).getDevices ≠ 0) →
        Registered s mVoipBandCriterionName)) := by
  obtain ⟨_, s3, h3, _⟩ := bind_isOk _ _ h
  have hok : (updateActiveStreamsParameters defs heap isOut
      { s.emit Event.writeLock with mActiveStreamsList := roster }).isOk = true := by
    rw [h3]; rfl
  constructor
  · intro hout
    subst hout
    have h1 := updateActiveStreamsParameters_isOk_out defs heap _ hok
    exact h1
  · intro hout
    subst hout
    have h1 := updateActiveStreamsParameters_isOk_in defs heap _ hok
    obtain ⟨a, b, c⟩ := h1
    exact ⟨a, b, fun hq => c ((activeInput_isSome_iff heap (roster false)).mpr hq)⟩

/-- C29: a `startStream` or `stopStream` call that completes without a fatal
assertion had its criteria registered: `OutputFlags` for an output stream;
`InputSources` and `PreProcessorRequestedByActiveInput` for an input stream,
and `VoIPBandType` too when a stream of the input roster, as the call leaves
it, has a non-zero device mask. On a state whose route criterion map holds
`StatesChanged` only, no `startStream` call completes. -/
theorem stream_calls_need_registered_criteria (defs : AudioDefs) (heap : Heap)
    (c : StreamCall) (s : AudioPlatformState)
    (h : (runCall defs heap c s).isOk = true) :
    ((heap c.stream).isOut = true → Registered s mOutputFlagsCriterionName) ∧
    ((heap c.stream).isOut = false →
      Registered s mInputSourcesCriterionName ∧
      Registered s mPreProcRequestedByActiveInputCriterionName ∧
      ((∃ q ∈ (match c with
                | StreamCall.startStream p => s.mActiveStreamsList false ++ [p]
                | StreamCall.stopStream p =>
                  (s.mActiveStreamsList false).filter (fun q => q != p)),
          (heap q).getDevices ≠ 0) →
        Registered s mVoipBandCriterionName)) ∧
    (∀ (s0 : AudioPlatformState) (p : StreamPtr),
      (∀ k, Registered s0 k → k = mStateChangedCriterionName) →
      (startStream defs heap p s0).isOk = false) := by
  have hstart : ∀ (s0 : AudioPlatformState) (p : StreamPtr),
      (startStream defs heap p s0).isOk = true →
      ((heap p).isOut = true → Registered s0 mOutputFlagsCriterionName) ∧
      ((heap p).isOut = false →
        Registered s0 mInputSourcesCriterionName ∧
        Registered s0 mPreProcRequestedByActiveInputCriterionName ∧
        ((∃ q ∈ s0.mActiveStreamsList false ++ [p], (heap q).getDevices ≠ 0) →
          Registered s0 mVoipBandCriterionName)) := by
    intro s0 p h0
    unfold startStream at h0
    by_cases hp : (p == NULL) = true
    · simp [hp, Result.isOk] at h0
    · simp only [hp, if_false] at h0
      obtain ⟨a, b⟩ := roster_update_isOk defs heap s0 _ (heap p).isOut h0
      refine ⟨a, fun hin => ?_⟩
      obtain ⟨b1, b2, b3⟩ := b hin
      refine ⟨b1, b2, fun hq => b3 ?_⟩
      simpa [hin] using hq
  refine ⟨?_, ?_, ?_⟩
  · cases c with
    | startStream p => exact (hstart s p h).1
    | stopStream p =>
      unfold runCall stopStream at h
      by_cases hp : (p == NULL) = true
      · simp [hp, Result.isOk] at h
      · simp only [hp, if_false] at h
        exact (roster_update_isOk defs heap s _ (heap p).isOut h).1
  · cases c with
    | startStream p => exact (hstart s p h).2
    | stopStream p =>
      unfold runCall stopStream at h
      by_cases hp : (p == NULL) = true
      · simp [hp, Result.isOk] at h
      · simp only [hp, if_false] at h
        intro hin
        obtain ⟨b1, b2, b3⟩ := (roster_update_isOk defs heap s _ (heap p).isOut h).2 hin
        refine ⟨b1, b2, fun hq => b3 ?_⟩
        have hin2 : (heap p).isOut = false := hin
        simpa [hin2] using hq
  · intro s0 p honly
    cases hres : (startStream defs heap p s0).isOk with
    | false => rfl
    | true =>
      obtain ⟨a, b⟩ := hstart s0 p hres
      cases hio : (heap p).isOut with
      | true => exact absurd (honly _ (a hio)) (by decide)
      | false => exact absurd (honly _ (b hio).1) (by decide)

set_option maxRecDepth 100000 in
/-- Witness of C29 on the sample state: starting the output stream 2 completes,
and `OutputFlags` is registered there. -/
theorem stream_calls_need_registered_criteria_witness :
    (runCall androidDefs sampleHeap (StreamCall.startStream 2) sampleState).isOk = true ∧
    Registered sampleState mOutputFlagsCriterionName :=
  ⟨by decide,
   (stream_calls_need_registered_criteria androidDefs sampleHeap (StreamCall.startStream 2)
      sampleState (by decide)).1 (by decide)⟩

set_option maxRecDepth 100000 in
/-- C22 (counterexample): `loadCriterionType` on four declarations. The
inclusive type declared with "3:x" gives `x` the code 3, which is not a single
bit. The exclusive type declared with "1:a,1:b" gives the two different
literals `a` and `b` the same code 1. The exclusive type declared with
"5:a,b" gives `a` and `b` the same code 5. The inclusive type declared with
the 34 literals `v0` to `v33`, without explicit pairs, gives both `v32` and
`v33` the code 0 (`1 << index` taken on 32 bits), which is no bit at all. -/
theorem explicit_pair_shares_its_code :
    typeValues (loadCriterionTypeRoute decimalConvertTo true
        [{ name := "Mask", value := "3:x" }] emptyRouteState).state "Mask"
      = some [(3, "x")] ∧
    typeValues (loadCriterionTypeRoute decimalConvertTo false
        [{ name := "Band", value := "1:a,1:b" }] emptyRouteState).state "Band"
      = some [(1, "a"), (1, "b")] ∧
    typeValues (loadCriterionTypeRoute decimalConvertTo false
        [{ name := "Band", value := "5:a,b" }] emptyRouteState).state "Band"
      = some [(5, "a"), (5, "b")] ∧
    (typeValues (loadCriterionTypeRoute decimalConvertTo true
        [{ name := "Wide",
           value := "v0,v1,v2,v3,v4,v5,v6,v7,v8,v9,v10,v11,v12,v13,v14,v15,v16,v17,v18,v19,v20,v21,v22,v23,v24,v25,v26,v27,v28,v29,v30,v31,v32,v33" }]
        emptyRouteState).state "Wide").map (fun vals => (vals[31]?, vals[32]?, vals[33]?))
      = some (some (2147483648, "v31"), some (0, "v32"), some (0, "v33")) := by
  decide

/-! ## Codes given at configuration load -/

theorem mapFind_mapInsert_self {α : Type} (m : List (String × α)) (k : String) (v : α) :
    mapFind (mapInsert m k v) k = some v := by
  unfold mapInsert mapFind
  by_cases h : (m.lookup k).isSome = true
  · simp only [mapFind, h, if_true]
    induction m with
    | nil => simp at h
    | cons p m ih =>
      obtain ⟨a, c⟩ := p
      by_cases hka : k = a
      · subst hka; simp
      · have hka2 : (k == a) = false := by simpa using hka
        have hak : (a == k) = false := by simpa using fun h => hka h.symm
        simp only [List.lookup_cons, hka2] at h
        simp only [List.map_cons, hak, Bool.false_eq_true, if_false, List.lookup_cons, hka2]
        exact ih h
  · simp only [mapFind, h, Bool.false_eq_true, if_false]
    have hn : m.lookup k = none := by
      cases hl : m.lookup k with
      | none => rfl
      | some x => simp [hl] at h
    clear h
    induction m with
    | nil => simp
    | cons p m ih =>
      obtain ⟨a, c⟩ := p
      by_cases hka : k = a
      · subst hka; simp at hn
      · have hka2 : (k == a) = false := by simpa using hka
        simp only [List.lookup_cons, hka2] at hn
        simp only [List.cons_append, List.lookup_cons, hka2]
        exact ih hn

theorem mapInsert_length_fresh {α : Type} (m : List (String × α)) (k : String) (v : α)
    (h : (mapFind m k).isSome = false) : (mapInsert m k v).length = m.length + 1 := by
  unfold mapInsert
  simp [h]

theorem shl32_eq (i : Nat) (hi : i < 32) : shl32 i = 2 ^ i := by
  unfold shl32
  rw [Nat.one_shiftLeft]
  exact Nat.mod_eq_of_lt (Nat.pow_lt_pow_right (by decide) hi)

theorem addCriterionTypeValuePairRoute_ok (typeName : String) (numericValue : Nat)
    (literalValue : String) (s : AudioPlatformState) (t : CriterionType)
    (ht : mapFind s.mRouteCriterionTypeMap typeName = some t) :
    ∃ s1, addCriterionTypeValuePairRoute typeName numericValue literalValue s
        = Result.ok () s1 ∧
      mapFind s1.mRouteCriterionTypeMap typeName
        = some (t.addValuePair numericValue literalValue) := by
  unfold addCriterionTypeValuePairRoute
  rw [ht]
  exact ⟨_, rfl, mapFind_mapInsert_self _ _ _⟩

theorem loadValueNames_plain (convertTo : String → Nat → Bool × Nat) (typeName : String)
    (isInclusive : Bool) (tokens : List String) :
    ∀ (index : Nat) (s : AudioPlatformState) (t : CriterionType),
      mapFind s.mRouteCriterionTypeMap typeName = some t →
      (∀ tok ∈ tokens, tok.data.contains ':' = false) →
      ∃ s1, loadValueNames convertTo typeName isInclusive tokens index s = Result.ok () s1 ∧
        typeValues s1 typeName = some (t.valuePairs ++ (tokens.enumFrom index).map
          (fun p => (if isInclusive then shl32 p.1 else p.1, p.2))) := by
  induction tokens with
  | nil =>
    intro index s t ht _
    exact ⟨s, rfl, by simp [typeValues, ht]⟩
  | cons tok rest ih =>
    intro index s t ht hplain
    have htok : tok.data.contains ':' = false := hplain tok (List.mem_cons_self _ _)
    obtain ⟨s1, h1, ht1⟩ := addCriterionTypeValuePairRoute_ok typeName
      (if isInclusive then shl32 index else index) tok s t ht
    obtain ⟨s2, h2, hv2⟩ := ih (index + 1) s1 _ ht1
      (fun x hx => hplain x (List.mem_cons_of_mem _ hx))
    refine ⟨s2, ?_, ?_⟩
    · unfold loadValueNames
      simp only [htok, Bool.false_eq_true, if_false]
      rw [h1]
      exact h2
    · rw [hv2]
      simp [CriterionType.addValuePair, List.enumFrom_cons]

theorem loadValueNames_pairs (convertTo : String → Nat → Bool × Nat) (read : String → Nat)
    (typeName : String) (isInclusive : Bool) (tokens : List String) :
    ∀ (index : Nat) (s : AudioPlatformState) (t : CriterionType),
      mapFind s.mRouteCriterionTypeMap typeName = some t →
      (∀ tok ∈ tokens, tok.data.contains ':' = true ∧
        ∃ first second more, strtok tok ':' = first :: second :: more ∧
          ∀ idx, (convertTo first idx).2 = read first) →
      ∃ s1, loadValueNames convertTo typeName isInclusive tokens index s = Result.ok () s1 ∧
        typeValues s1 typeName
          = some (t.valuePairs ++ tokens.map (explicitPair read)) := by
  induction tokens with
  | nil =>
    intro index s t ht _
    exact ⟨s, rfl, by simp [typeValues, ht]⟩
  | cons tok rest ih =>
    intro index s t ht hpairs
    obtain ⟨hcolon, first, second, more, hsplit, hread⟩ := hpairs tok (List.mem_cons_self _ _)
    obtain ⟨s1, h1, ht1⟩ := addCriterionTypeValuePairRoute_ok typeName
      (convertTo first index).2 second s t ht
    obtain ⟨s2, h2, hv2⟩ := ih (convertTo first index).2 s1 _ ht1
      (fun x hx => hpairs x (List.mem_cons_of_mem _ hx))
    refine ⟨s2, ?_, ?_⟩
    · conv_lhs => unfold loadValueNames
      simp only [hcolon, if_true, hsplit]
      rw [h1]
      exact h2
    · rw [hv2]
      simp [CriterionType.addValuePair, explicitPair, hsplit, hread]

/-- C22 (amended): for a criterion type declared with a value list without
explicit index pairs, `loadCriterionType` registers the type and gives the
i-th non-empty literal (from 0) the code `1 << i` when the type is inclusive
(for i < 32) and the code i when it is exclusive, so that literals at
different positions get different codes; for a value list made of explicit
pairs `index:literal` only, whose indexes `convertTo` reads, each literal is
registered with the index of its own pair as its code, as provided. -/
theorem loadCriterionType_codes (convertTo : String → Nat → Bool × Nat)
    (read : String → Nat) (isInclusive : Bool)
    (node : CriterionTypeNode) (s : AudioPlatformState)
    (hfresh : mapFind s.mRouteCriterionTypeMap node.name = none) :
    ((∀ tok ∈ strtok node.value ',', tok.data.contains ':' = false) →
      ∃ s1 vals, loadCriterionTypeRoute convertTo isInclusive [node] s = Result.ok () s1 ∧
        typeValues s1 node.name = some vals ∧
        vals.length = (strtok node.value ',').length ∧
        (∀ i tok, (strtok node.value ',')[i]? = some tok → (isInclusive = true → i < 32) →
          vals[i]? = some (if isInclusive then 2 ^ i else i, tok)) ∧
        (∀ i j ci cj, i ≠ j → (isInclusive = true → i < 32 ∧ j < 32) →
          (vals[i]?).map Prod.fst = some ci → (vals[j]?).map Prod.fst = some cj →
          ci ≠ cj)) ∧
    ((∀ tok ∈ strtok node.value ',', tok.data.contains ':' = true ∧
        ∃ first second more, strtok tok ':' = first :: second :: more ∧
          ∀ idx, (convertTo first idx).2 = read first) →
      ∃ s1 vals, loadCriterionTypeRoute convertTo isInclusive [node] s = Result.ok () s1 ∧
        typeValues s1 node.name = some vals ∧
        vals.length = (strtok node.value ',').length ∧
        (∀ (i : Nat) tok first second more, (strtok node.value ',')[i]? = some tok →
          strtok tok ':' = first :: second :: more →
          vals[i]? = some (read first, second))) := by
  have hadd : addCriterionTypeRoute node.name isInclusive s
      = Result.ok ()
        { s with
          mRouteCriterionTypeMap :=
            mapInsert s.mRouteCriterionTypeMap node.name
              { name := node.name, isInclusive := isInclusive, valuePairs := [] } } := by
    unfold addCriterionTypeRoute
    simp [hfresh]
  have hload : ∀ s1, loadValueNames convertTo node.name isInclusive (strtok node.value ',') 0
        { s with
          mRouteCriterionTypeMap :=
            mapInsert s.mRouteCriterionTypeMap node.name
              { name := node.name, isInclusive := isInclusive, valuePairs := [] } }
        = Result.ok () s1 →
      loadCriterionTypeRoute convertTo isInclusive [node] s = Result.ok () s1 := by
    intro s1 h1
    unfold loadCriterionTypeRoute
    rw [hadd]
    simp only [Result.bind]
    rw [h1]
    rfl
  constructor
  · intro hplain
    obtain ⟨s1, h1, hv1⟩ := loadValueNames_plain convertTo node.name isInclusive
      (strtok node.value ',') 0
      { s with
        mRouteCriterionTypeMap :=
          mapInsert s.mRouteCriterionTypeMap node.name
            { name := node.name, isInclusive := isInclusive, valuePairs := [] } }
      { name := node.name, isInclusive := isInclusive, valuePairs := [] }
      (mapFind_mapInsert_self s.mRouteCriterionTypeMap node.name
        { name := node.name, isInclusive := isInclusive, valuePairs := [] }) hplain
    have hcode : ∀ i : Nat, (List.map
          (fun p : Nat × String => (if isInclusive then shl32 p.1 else p.1, p.2))
          (List.enumFrom 0 (strtok node.value ',')))[i]?
        = ((strtok node.value ',')[i]?).map
            (fun tok => (if isInclusive then shl32 i else i, tok)) := by
      intro i
      simp [List.getElem?_enumFrom]
      cases (strtok node.value ',')[i]? <;> simp
    refine ⟨s1, _, hload s1 h1, hv1, by simp, ?_, ?_⟩
    · intro i tok hi h32
      have := hcode i
      rw [hi] at this
      simp only [List.nil_append, List.get?_eq_getElem?] at this ⊢
      rw [this]
      cases hinc : isInclusive with
      | false => simp
      | true => simp [shl32_eq i (h32 hinc)]
    · intro i j ci cj hij h32 hi hj
      have e1 := hcode i
      have e2 := hcode j
      simp only [List.nil_append, List.get?_eq_getElem?] at e1 e2 hi hj
      rw [e1] at hi
      rw [e2] at hj
      cases hti : (strtok node.value ',')[i]? with
      | none => simp [hti] at hi
      | some ti =>
        cases htj : (strtok node.value ',')[j]? with
        | none => simp [htj] at hj
        | some tj =>
          simp only [hti, htj, Option.map_some', Option.some.injEq] at hi hj
          cases hinc : isInclusive with
          | false =>
            simp only [hinc, Bool.false_eq_true, if_false] at hi hj
            omega
          | true =>
            simp only [hinc, if_true] at hi hj
            rw [shl32_eq i (h32 hinc).1] at hi
            rw [shl32_eq j (h32 hinc).2] at hj
            intro hc
            rw [← hi, ← hj] at hc
            exact hij (Nat.pow_right_injective (le_refl 2) hc)
  · intro hpairs
    obtain ⟨s1, h1, hv1⟩ := loadValueNames_pairs convertTo read node.name isInclusive
      (strtok node.value ',') 0
      { s with
        mRouteCriterionTypeMap :=
          mapInsert s.mRouteCriterionTypeMap node.name
            { name := node.name, isInclusive := isInclusive, valuePairs := [] } }
      { name := node.name, isInclusive := isInclusive, valuePairs := [] }
      (mapFind_mapInsert_self s.mRouteCriterionTypeMap node.name
        { name := node.name, isInclusive := isInclusive, valuePairs := [] }) hpairs
    refine ⟨s1, _, hload s1 h1, hv1, by simp, ?_⟩
    intro i tok first second more hi hsplit
    simp only [List.nil_append, List.getElem?_map, hi, Option.map_some', explicitPair, hsplit]

set_option maxRecDepth 100000 in
/-- Witness of C22 (amended): the exclusive type `Band` declared with the value
list "narrow,wide" on the empty route state gets the codes 0 and 1; the
inclusive type `Mask` declared with the pairs "4:left,8:right" gets the codes
4 and 8. -/
theorem loadCriterionType_codes_witness :
    (∃ s1, loadCriterionTypeRoute decimalConvertTo false
        [{ name := "Band", value := "narrow,wide" }] emptyRouteState = Result.ok () s1 ∧
      typeValues s1 "Band" = some [(0, "narrow"), (1, "wide")]) ∧
    (∃ s1, loadCriterionTypeRoute decimalConvertTo true
        [{ name := "Mask", value := "4:left,8:right" }] emptyRouteState = Result.ok () s1 ∧
      typeValues s1 "Mask" = some [(4, "left"), (8, "right")]) := by
  constructor
  · obtain ⟨s1, vals, h1, hv, hlen, hcodes, _⟩ := (loadCriterionType_codes decimalConvertTo
      readDecimal false { name := "Band", value := "narrow,wide" } emptyRouteState
      (by decide)).1 (by decide)
    refine ⟨s1, h1, ?_⟩
    rw [hv]
    have h0 := hcodes 0 "narrow" (by decide) (by simp)
    have h1 := hcodes 1 "wide" (by decide) (by simp)
    have hl : vals.length = 2 := by rw [hlen]; decide
    match vals, hl, h0, h1 with
    | [a, b], _, h0, h1 =>
      simp at h0 h1
      simp [h0, h1]
  · obtain ⟨s1, vals, h1, hv, hlen, hcodes⟩ := (loadCriterionType_codes decimalConvertTo
      readDecimal true { name := "Mask", value := "4:left,8:right" } emptyRouteState
      (by decide)).2
      (by
        intro tok htok
        have hmem : tok = "4:left" ∨ tok = "8:right" := by
          have hl : strtok "4:left,8:right" ',' = ["4:left", "8:right"] := by decide
          have htok2 : tok ∈ strtok "4:left,8:right" ',' := htok
          rw [hl] at htok2
          simpa using htok2
        rcases hmem with h | h
        · subst h
          exact ⟨by decide, "4", "left", [], by decide, fun _ => rfl⟩
        · subst h
          exact ⟨by decide, "8", "right", [], by decide, fun _ => rfl⟩)
    refine ⟨s1, h1, ?_⟩
    rw [hv]
    have h0 := hcodes 0 "4:left" "4" "left" [] (by decide) (by decide)
    have h1 := hcodes 1 "8:right" "8" "right" [] (by decide) (by decide)
    have hl : vals.length = 2 := by rw [hlen]; decide
    have e4 : readDecimal "4" = 4 := by decide
    have e8 : readDecimal "8" = 8 := by decide
    rw [e4] at h0
    rw [e8] at h1
    match vals, hl, h0, h1 with
    | [a, b], _, h0, h1 =>
      simp at h0 h1
      simp [h0, h1]

/-! ## One bit of the `StatesChanged` type per route criterion -/

theorem addRouteCriterion_ok_inv (c : Criterion) (s s1 : AudioPlatformState)
    (t : CriterionType)
    (ht : mapFind s.mRouteCriterionTypeMap mStateChangedCriterionName = some t)
    (h : addRouteCriterion c s = Result.ok () s1) :
    mapFind s1.mRouteCriterionTypeMap mStateChangedCriterionName
      = some (t.addValuePair (shl32 s.mRouteCriterionMap.length) c.name) ∧
    s1.mRouteCriterionMap.length = s.mRouteCriterionMap.length + 1 := by
  unfold addRouteCriterion at h
  by_cases hdup : (mapFind s.mRouteCriterionMap c.name).isSome = true
  · simp [hdup] at h
  · simp only [hdup, Bool.false_eq_true, if_false, ht, Result.ok.injEq, true_and] at h
    rw [← h]
    exact ⟨mapFind_mapInsert_self _ _ _,
      mapInsert_length_fresh _ _ _ (by simpa using hdup)⟩

theorem loadCriterionRoute_ok_inv (node : CriterionNode) (s s1 : AudioPlatformState)
    (t : CriterionType)
    (ht : mapFind s.mRouteCriterionTypeMap mStateChangedCriterionName = some t)
    (h : loadCriterionRoute node s = Result.ok () s1) :
    mapFind s1.mRouteCriterionTypeMap mStateChangedCriterionName
      = some (t.addValuePair (shl32 s.mRouteCriterionMap.length) node.criterionName) ∧
    s1.mRouteCriterionMap.length = s.mRouteCriterionMap.length + 1 := by
  unfold loadCriterionRoute at h
  by_cases hdup : (mapFind s.mRouteCriterionMap node.criterionName).isSome = true
  · simp [hdup] at h
  · simp only [hdup, Bool.false_eq_true, if_false] at h
    by_cases hkey : (node.paramKeyName != "") = true
    · simp only [hkey, if_true] at h
      unfold addParameterRouteCriterion at h
      cases hty : mapFind s.mRouteCriterionTypeMap node.typeName with
      | none => simp [hty] at h
      | some ty =>
        simp only [hty] at h
        have h2 := addRouteCriterion_ok_inv _ _ s1 t (by exact ht) h
        exact h2
    · simp only [hkey, Bool.false_eq_true, if_false] at h
      unfold addCriterionRoute at h
      cases hty : mapFind s.mRouteCriterionTypeMap node.typeName with
      | none => simp [hty] at h
      | some ty =>
        simp only [hty] at h
        exact addRouteCriterion_ok_inv _ _ s1 t ht h

theorem loadCriteriaRoute_ok_inv (nodes : List CriterionNode) :
    ∀ (s s1 : AudioPlatformState) (t : CriterionType),
      mapFind s.mRouteCriterionTypeMap mStateChangedCriterionName = some t →
      loadCriteriaRoute nodes s = Result.ok () s1 →
      ∃ t1, mapFind s1.mRouteCriterionTypeMap mStateChangedCriterionName = some t1 ∧
        t1.valuePairs = t.valuePairs ++ (nodes.enumFrom s.mRouteCriterionMap.length).map
          (fun p => (shl32 p.1, p.2.criterionName)) := by
  induction nodes with
  | nil =>
    intro s s1 t ht h
    simp only [loadCriteriaRoute, Result.ok.injEq, true_and] at h
    subst h
    exact ⟨t, ht, by simp⟩
  | cons node rest ih =>
    intro s s1 t ht h
    unfold loadCriteriaRoute at h
    cases hn : loadCriterionRoute node s with
    | fatal sf => simp [hn, Result.bind] at h
    | ok u s0 =>
      rw [hn] at h
      simp only [Result.bind] at h
      obtain ⟨ht0, hlen⟩ := loadCriterionRoute_ok_inv node s s0 t ht hn
      obtain ⟨t1, ht1, hv⟩ := ih s0 s1 _ ht0 h
      refine ⟨t1, ht1, ?_⟩
      rw [hv, hlen]
      simp [CriterionType.addValuePair, List.enumFrom_cons]

theorem testBit_changedBits (changed : List Nat) (k : Nat) :
    (changedBits changed).testBit k = decide (k ∈ changed) := by
  unfold changedBits
  have hgen : ∀ (l : List Nat) (acc : Nat),
      (l.foldl (fun acc k => acc ||| 2 ^ k) acc).testBit k
        = (acc.testBit k || decide (k ∈ l)) := by
    intro l
    induction l with
    | nil => intro acc; simp
    | cons a l ih =>
      intro acc
      simp only [List.foldl_cons, ih, Nat.testBit_or, Nat.testBit_two_pow, List.mem_cons]
      by_cases hak : a = k
      · subst hak; simp
      · have hka : ¬ k = a := fun h => hak h.symm
        simp [hak, hka]
  rw [hgen]
  simp

/-- C23: when the criteria of the configuration are loaded on a platform state
as the constructor prepares it (no route criterion yet, the `StatesChanged`
type without values) and every registration succeeds, the k-th criterion
(from 0, k < 32) is the k-th value of the `StatesChanged` type, with the code
`1 << k`; two registered criteria at different positions below 32 have
different codes; and from the OR of the codes of a set of changed criteria,
a criterion is known to be in the set exactly when its bit is set. -/
theorem route_criterion_gets_own_bit (nodes : List CriterionNode)
    (s s1 : AudioPlatformState) (t : CriterionType)
    (hmap : s.mRouteCriterionMap = [])
    (ht : mapFind s.mRouteCriterionTypeMap mStateChangedCriterionName = some t)
    (hvals : t.valuePairs = [])
    (hload : loadCriteriaRoute nodes s = Result.ok () s1) :
    ∃ t1, mapFind s1.mRouteCriterionTypeMap mStateChangedCriterionName = some t1 ∧
      (∀ k node, nodes[k]? = some node → k < 32 →
        t1.valuePairs[k]? = some (2 ^ k, node.criterionName)) ∧
      (∀ j k cj ck, j < 32 → k < 32 → j ≠ k →
        (t1.valuePairs[j]?).map Prod.fst = some cj →
        (t1.valuePairs[k]?).map Prod.fst = some ck → cj ≠ ck) ∧
      (∀ (changed : List Nat) (k : Nat),
        (changedBits changed).testBit k = decide (k ∈ changed)) := by
  obtain ⟨t1, ht1, hv⟩ := loadCriteriaRoute_ok_inv nodes s s1 t ht hload
  rw [hvals, hmap] at hv
  have hcode : ∀ k : Nat, t1.valuePairs[k]?
      = (nodes[k]?).map (fun node => (shl32 k, node.criterionName)) := by
    intro k
    rw [hv]
    simp [List.getElem?_enumFrom]
    cases nodes[k]? <;> simp
  refine ⟨t1, ht1, ?_, ?_, testBit_changedBits⟩
  · intro k node hk h32
    rw [hcode k, hk]
    simp [shl32_eq k h32]
  · intro j k cj ck hj hk hjk ej ek
    rw [hcode j] at ej
    rw [hcode k] at ek
    cases hnj : nodes[j]? with
    | none => simp [hnj] at ej
    | some nj =>
      cases hnk : nodes[k]? with
      | none => simp [hnk] at ek
      | some nk =>
        simp only [hnj, hnk, Option.map_some', Option.some.injEq] at ej ek
        rw [shl32_eq j hj] at ej
        rw [shl32_eq k hk] at ek
        intro hc
        rw [← ej, ← ek] at hc
        exact hjk (Nat.pow_right_injective (le_refl 2) hc)

set_option maxRecDepth 100000 in
/-- Witness of C23: loading the two sample criterion nodes on the empty route
state succeeds, and the second criterion, `Bluetooth`, is the `StatesChanged`
value of code 2. -/
theorem route_criterion_gets_own_bit_witness :
    ∃ t1, mapFind (loadCriteriaRoute sampleCriterionNodes
        emptyRouteState).state.mRouteCriterionTypeMap mStateChangedCriterionName = some t1 ∧
      t1.valuePairs[1]? = some (2, "Bluetooth") := by
  obtain ⟨t1, h1, hk, _⟩ := route_criterion_gets_own_bit sampleCriterionNodes
    emptyRouteState (loadCriteriaRoute sampleCriterionNodes emptyRouteState).state
    { name := "StatesChanged", isInclusive := true, valuePairs := [] } rfl (by decide) rfl rfl
  exact ⟨t1, h1, hk 1 _ (rfl : sampleCriterionNodes[1]? = some _) (by decide)⟩

/-! ## Bounds of the effect chain -/

set_option maxRecDepth 100000 in
/-- C27 (the code evaluated at the failing input): with one effect whose
`process` always fails, `processFrames(buffer, 8)` returns 8 and keeps the 8
frames in the scratch buffer; the next call `processFrames(buffer, 4)` then
returns 8 and copies 8 frames to the client buffer, which holds 4. -/
theorem failure_path_overruns_client_buffer :
    (processFrames (workingHardware firstFailsProcess) 10 8
        (freshCapture [{ mPreprocessor := 7, mEchoReference := 0 }])).stream.mProcessingFramesIn
      = 8 ∧
    (processFrames (workingHardware firstFailsProcess) 10 4
        (processFrames (workingHardware firstFailsProcess) 10 8
          (freshCapture [{ mPreprocessor := 7, mEchoReference := 0 }])).stream).outcome
      = Outcome.returned 8 ∧
    (processFrames (workingHardware firstFailsProcess) 10 4
        (processFrames (workingHardware firstFailsProcess) 10 8
          (freshCapture [{ mPreprocessor := 7, mEchoReference := 0 }])).stream).copied
      = some [0, 1, 2, 3, 4, 5, 6, 7] := by
  decide

theorem toSizeT_of_word (x : Int) (h0 : 0 ≤ x) (h1 : x < 2 ^ 32) : (toSizeT x : Int) = x := by
  unfold toSizeT
  rw [Int.emod_eq_of_lt h0 h1]
  exact Int.toNat_of_nonneg h0

theorem effectsPass_bounds (env : CaptureEnv) (frames : Int)
    (hb : ∀ e k i o, (env.process e k i o).1 = 0 →
      (env.process e k i o).2.1 ≤ i ∧ (env.process e k i o).2.2 ≤ o)
    (list : List AudioEffectHandle) :
    ∀ v : ProcessVars, 0 ≤ v.processingFramesIn → v.processingFramesIn < 2 ^ 32 →
      v.processedFrames ≤ frames → frames - v.processedFrames < 2 ^ 32 →
      0 ≤ (effectsPass env frames list v).processingFramesIn ∧
      (effectsPass env frames list v).processingFramesIn ≤ v.processingFramesIn ∧
      v.processedFrames ≤ (effectsPass env frames list v).processedFrames ∧
      (effectsPass env frames list v).processedFrames ≤ frames := by
  induction list with
  | nil =>
    intro v h0 _ h2 _
    exact ⟨h0, le_refl _, le_refl _, h2⟩
  | cons it rest ih =>
    intro v h0 h1 h2 h3
    unfold effectsPass
    simp only
    have hin := toSizeT_of_word v.processingFramesIn h0 h1
    have hout := toSizeT_of_word (frames - v.processedFrames) (by omega) h3
    have key : ∀ X : ProcessVars, 0 ≤ X.processingFramesIn →
        X.processingFramesIn ≤ v.processingFramesIn → v.processedFrames ≤ X.processedFrames →
        X.processedFrames ≤ frames →
        0 ≤ (effectsPass env frames rest X).processingFramesIn ∧
        (effectsPass env frames rest X).processingFramesIn ≤ v.processingFramesIn ∧
        v.processedFrames ≤ (effectsPass env frames rest X).processedFrames ∧
        (effectsPass env frames rest X).processedFrames ≤ frames := by
      intro X a b c d
      obtain ⟨e, f, g, h⟩ := ih X a (by omega) d (by omega)
      exact ⟨e, by omega, by omega, h⟩
    by_cases hr : (env.process it.mPreprocessor v.calls (toSizeT v.processingFramesIn)
        (toSizeT (frames - v.processedFrames))).1 = 0
    · obtain ⟨hc, hp⟩ := hb _ _ _ _ hr
      have hc2 : ((env.process it.mPreprocessor v.calls (toSizeT v.processingFramesIn)
          (toSizeT (frames - v.processedFrames))).2.1 : Int) ≤ v.processingFramesIn := by
        exact le_trans (Int.ofNat_le.mpr hc) (le_of_eq hin)
      have hp2 : ((env.process it.mPreprocessor v.calls (toSizeT v.processingFramesIn)
          (toSizeT (frames - v.processedFrames))).2.2 : Int) ≤ frames - v.processedFrames := by
        exact le_trans (Int.ofNat_le.mpr hp) (le_of_eq hout)
      have hbeq : ((env.process it.mPreprocessor v.calls (toSizeT v.processingFramesIn)
          (toSizeT (frames - v.processedFrames))).1 == 0) = true := by simpa using hr
      rw [if_pos hbeq]
      apply key <;> simp only <;> omega
    · have hbeq : ((env.process it.mPreprocessor v.calls (toSizeT v.processingFramesIn)
          (toSizeT (frames - v.processedFrames))).1 == 0) = false := by simpa using hr
      rw [if_neg (by simp [hbeq])]
      apply key <;> simp only <;> omega

theorem doProcessLoop_total (env : CaptureEnv) (effects : List AudioEffectHandle)
    (frames : Int)
    (hb : ∀ e k i o, (env.process e k i o).1 = 0 →
      (env.process e k i o).2.1 ≤ i ∧ (env.process e k i o).2.2 ≤ o)
    (hp : ∀ v : ProcessVars, 0 < v.processingFramesIn → v.processingFramesIn < 2 ^ 32 →
      v.processedFrames < frames → frames - v.processedFrames < 2 ^ 32 →
      (effectsPass env frames effects v).ret = 0 →
      (effectsPass env frames effects v).processingFramesIn < v.processingFramesIn ∨
      v.processedFrames < (effectsPass env frames effects v).processedFrames) :
    ∀ (fuel : Nat) (v : ProcessVars), 0 ≤ v.processingFramesIn →
      v.processingFramesIn < 2 ^ 32 → v.processedFrames ≤ frames →
      frames - v.processedFrames < 2 ^ 32 →
      ((frames - v.processedFrames) + v.processingFramesIn).toNat ≤ fuel →
      ∃ w, doProcessLoop env frames effects fuel v = some w ∧
        0 ≤ w.processingFramesIn ∧ w.processedFrames ≤ frames := by
  intro fuel
  induction fuel with
  | zero =>
    intro v h0 _ h2 _ hf
    refine ⟨v, ?_, h0, h2⟩
    unfold doProcessLoop
    have hz : v.processingFramesIn = 0 := by omega
    simp [hz]
  | succ fuel ih =>
    intro v h0 h1 h2 h3 hf
    unfold doProcessLoop
    by_cases hc : v.processedFrames < frames ∧ v.processingFramesIn > 0 ∧ v.ret = 0
    · rw [if_pos hc]
      obtain ⟨b0, b1, b2, b3⟩ := effectsPass_bounds env frames hb effects v h0 h1 h2 h3
      by_cases hret : (effectsPass env frames effects v).ret = 0
      · have hprog := hp v hc.2.1 h1 hc.1 h3 hret
        exact ih _ b0 (by omega) b3 (by omega) (by omega)
      · -- the chain failed: the loop condition is false at the next test
        refine ⟨effectsPass env frames effects v, ?_, b0, b3⟩
        cases fuel with
        | zero =>
          unfold doProcessLoop
          simp [hret]
        | succ n =>
          unfold doProcessLoop
          simp [hret]
    · rw [if_neg hc]
      exact ⟨v, rfl, h0, h2⟩

/-- C28: with effects that, when they return 0, consume at most the input
offered and produce at most the output asked for, and such that every pass
over the effect list ending with status 0 consumes or produces at least one
frame, `doProcessFrames` on a non-empty effect list returns once the bound on
passes is at least `(frames - processedFrames) + processingFramesIn`, with
`0 <= processingFramesIn` and `processedFrames <= frames` at the end; and
every pass made under the loop condition keeps these two bounds, keeps the
quantity non-negative, and strictly decreases it when it ends with status 0.
The counts are those of a call from `processFrames`: within a 32-bit word,
`0 <= processingFramesIn` and `processedFrames <= frames` at entry. -/
theorem doProcessFrames_terminates (env : CaptureEnv) (effects : List AudioEffectHandle)
    (frames : Int) (_hne : effects ≠ [])
    (hb : ∀ e k i o, (env.process e k i o).1 = 0 →
      (env.process e k i o).2.1 ≤ i ∧ (env.process e k i o).2.2 ≤ o)
    (hp : ∀ v : ProcessVars, 0 < v.processingFramesIn → v.processingFramesIn < 2 ^ 32 →
      v.processedFrames < frames → frames - v.processedFrames < 2 ^ 32 →
      (effectsPass env frames effects v).ret = 0 →
      (effectsPass env frames effects v).processingFramesIn < v.processingFramesIn ∨
      v.processedFrames < (effectsPass env frames effects v).processedFrames)
    (processedFrames processingFramesIn : Int) (trace : List StreamEvent)
    (h0 : 0 ≤ processingFramesIn) (h1 : processingFramesIn < 2 ^ 32)
    (h2 : processedFrames ≤ frames) (h3 : frames - processedFrames < 2 ^ 32)
    (fuel : Nat)
    (hfuel : ((frames - processedFrames) + processingFramesIn).toNat ≤ fuel) :
    (∃ w, doProcessFrames env fuel effects frames processedFrames processingFramesIn trace
        = some w ∧
      0 ≤ w.processingFramesIn ∧ w.processedFrames ≤ frames) ∧
    (∀ v : ProcessVars, 0 ≤ v.processingFramesIn → v.processingFramesIn < 2 ^ 32 →
      v.processedFrames ≤ frames → frames - v.processedFrames < 2 ^ 32 →
      (v.processedFrames < frames ∧ v.processingFramesIn > 0 ∧ v.ret = 0) →
      0 ≤ (effectsPass env frames effects v).processingFramesIn ∧
      (effectsPass env frames effects v).processedFrames ≤ frames ∧
      0 ≤ (frames - (effectsPass env frames effects v).processedFrames)
            + (effectsPass env frames effects v).processingFramesIn ∧
      ((effectsPass env frames effects v).ret = 0 →
        (frames - (effectsPass env frames effects v).processedFrames)
            + (effectsPass env frames effects v).processingFramesIn
          < (frames - v.processedFrames) + v.processingFramesIn)) := by
  constructor
  · unfold doProcessFrames
    exact doProcessLoop_total env effects frames hb hp fuel _ h0 h1 h2 h3 hfuel
  · intro v a0 a1 a2 a3 hc
    obtain ⟨b0, b1, b2, b3⟩ := effectsPass_bounds env frames hb effects v a0 a1 a2 a3
    refine ⟨b0, b3, by omega, fun hret => ?_⟩
    have hprog := hp v hc.2.1 a1 hc.1 a3 hret
    omega

/-- Witness of C28: one effect that consumes all the input it is offered and
produces half the output asked for; a request of 160 frames with 160 buffered
frames returns within 320 passes. -/
theorem doProcessFrames_terminates_witness :
    ∃ w, doProcessFrames (workingHardware halvingProcess) 320
        [{ mPreprocessor := 7, mEchoReference := 0 }] 160 0 160 [] = some w ∧
      0 ≤ w.processingFramesIn ∧ w.processedFrames ≤ 160 :=
  (doProcessFrames_terminates (workingHardware halvingProcess)
    [{ mPreprocessor := 7, mEchoReference := 0 }] 160 (by simp)
    (by
      intro e k i o _
      exact ⟨le_refl _, Nat.div_le_self _ _⟩)
    (by
      intro v hpos hlt _ _ _
      left
      have hin := toSizeT_of_word v.processingFramesIn (le_of_lt hpos) hlt
      simp only [effectsPass, workingHardware, halvingProcess, beq_self_eq_true, if_true]
      omega)
    0 160 [] (by decide) (by decide) (by decide) (by decide) 320 (by decide)).1

/-! ## The `InputDevices` event -/

theorem BitsKept.unchanged (s : AudioPlatformState) : BitsKept s s :=
  ⟨⟨[], by simp, by simp⟩, fun v hv => ⟨v, hv, fun _ h => h⟩⟩

theorem BitsKept.chain {s s1 s2 : AudioPlatformState} (h1 : BitsKept s s1)
    (h2 : BitsKept s1 s2) : BitsKept s s2 := by
  obtain ⟨⟨e1, t1, g1⟩, b1⟩ := h1
  obtain ⟨⟨e2, t2, g2⟩, b2⟩ := h2
  refine ⟨⟨e1 ++ e2, by rw [t2, t1, List.append_assoc], ?_⟩, ?_⟩
  · intro e he
    rcases List.mem_append.mp he with h | h
    · exact g1 e h
    · exact g2 e h
  · intro v hv
    obtain ⟨v1, hv1, k1⟩ := b1 v hv
    obtain ⟨v2, hv2, k2⟩ := b2 v1 hv1
    exact ⟨v2, hv2, fun i hi => k2 i (k1 i hi)⟩

theorem BitsKept.bindStep {α β : Type} {s : AudioPlatformState} (r : Result α)
    (f : α → AudioPlatformState → Result β) (h1 : BitsKept s r.state)
    (h2 : ∀ a s1, BitsKept s1 (f a s1).state) : BitsKept s (r.bind f).state := by
  cases r with
  | ok a s1 => exact h1.chain (h2 a s1)
  | fatal s1 => exact h1

theorem bitsKept_setStateChanged (s : AudioPlatformState) (c : Criterion) (b : Nat)
    (flag : Bool)
    (hc : mapFind s.mRouteCriterionMap mStateChangedCriterionName = some c) :
    BitsKept s (AudioPlatformState.setCriterionValue { s with mAudioPfwHasChanged := flag }
      mStateChangedCriterionName (c.value ||| b)) := by
  refine ⟨⟨[], by simp [AudioPlatformState.setCriterionValue], by simp⟩, ?_⟩
  intro v hv
  have hvc : v = c.value := by
    unfold getValue at hv
    rw [hc] at hv
    simpa using hv.symm
  refine ⟨c.value ||| b, ?_, ?_⟩
  · rw [getValue_setCriterionValue, if_pos rfl]
    show Option.map _ (getValue mStateChangedCriterionName s) = _
    rw [hv]; rfl
  · intro i hi
    rw [Nat.testBit_or, ← hvc, hi]
    rfl

theorem setPlatformStateEvent_bits (e : String) (s : AudioPlatformState) :
    BitsKept s (setPlatformStateEvent e s).state := by
  unfold setPlatformStateEvent
  split
  · exact BitsKept.unchanged s
  · rename_i c hc
    split
    · exact BitsKept.unchanged s
    · split
      · exact bitsKept_setStateChanged s c _ s.mAudioPfwHasChanged hc
      · exact bitsKept_setStateChanged s c 0 true hc

theorem setValue_bits (v : Nat) (n : String) (s : AudioPlatformState)
    (hne : n ≠ mStateChangedCriterionName) : BitsKept s (setValue v n s).state := by
  unfold setValue
  split
  · exact BitsKept.unchanged s
  · split
    · refine BitsKept.chain ?_ (setPlatformStateEvent_bits _ _)
      refine ⟨⟨[Event.setCriterionState n v], rfl, by simp⟩, ?_⟩
      intro x hx
      refine ⟨x, ?_, fun _ h => h⟩
      show getValue mStateChangedCriterionName (s.setCriterionValue n v) = some x
      rw [getValue_setCriterionValue, if_neg (fun h => hne h.symm)]
      exact hx
    · exact BitsKept.unchanged s

theorem updateActiveStreamsLoop_bits (defs : AudioDefs) (heap : Heap) (l : List StreamPtr)
    (m e : Nat) (s : AudioPlatformState) :
    BitsKept s (updateActiveStreamsLoop defs heap false l m e s).state := by
  rw [updateActiveStreamsLoop_in]
  cases activeInput heap l with
  | none => exact BitsKept.unchanged s
  | some p =>
    refine BitsKept.bindStep _ _ ?_ (fun _ s1 => BitsKept.unchanged s1)
    unfold setVoipBandType
    exact setValue_bits _ _ _ (by decide)

theorem applyPlatformConfiguration_full (s : AudioPlatformState) (c : Criterion)
    (hc : mapFind s.mRouteCriterionMap mStateChangedCriterionName = some c) :
    ∃ s1, applyPlatformConfiguration s = Result.ok () s1 ∧
      s1.trace = s.trace ++ [Event.setCriterionState mStateChangedCriterionName c.value,
        Event.applyConfigurations] ∧
      getValue mStateChangedCriterionName s1 = some 0 ∧ s1.mAudioPfwHasChanged = false := by
  unfold applyPlatformConfiguration clearPlatformStateEvents
  rw [hc]
  simp only
  have hc2 : mapFind ((s.emit (Event.setCriterionState mStateChangedCriterionName
      c.value)).emit Event.applyConfigurations).mRouteCriterionMap
      mStateChangedCriterionName = some c := hc
  rw [hc2]
  refine ⟨_, rfl, ?_, ?_, rfl⟩
  · show (s.trace ++ [_]) ++ [_] = _
    simp
  · show getValue _ (AudioPlatformState.setCriterionValue _ _ _) = _
    rw [getValue_setCriterionValue, if_pos rfl]
    show Option.map _ (getValue mStateChangedCriterionName s) = _
    unfold getValue; rw [hc]; rfl

theorem updateActiveStreamsParameters_commit (defs : AudioDefs) (heap : Heap)
    (s s1 : AudioPlatformState)
    (h : updateActiveStreamsParameters defs heap false s = Result.ok () s1) :
    ∃ s3 c3, BitsKept s s3 ∧
      mapFind s3.mRouteCriterionMap mStateChangedCriterionName = some c3 ∧
      s1.trace = s3.trace ++ [Event.setCriterionState mStateChangedCriterionName c3.value,
        Event.applyConfigurations] ∧
      getValue mStateChangedCriterionName s1 = some 0 ∧ s1.mAudioPfwHasChanged = false := by
  unfold updateActiveStreamsParameters at h
  have hok : ∀ {α : Type} (r : Result α) (x : AudioPlatformState) (a : α),
      r = Result.ok a x → r.state = x := by
    intro α r x a hr; rw [hr]; rfl
  cases h0 : updateActiveStreamsLoop defs heap false (s.mActiveStreamsList false) 0 0 s with
  | fatal sf => simp [h0, Result.bind] at h
  | ok r s0 =>
    rw [h0] at h
    simp only [Result.bind, Bool.false_eq_true, if_false, Bool.not_false, if_true] at h
    have b0 : BitsKept s s0 := by
      have := updateActiveStreamsLoop_bits defs heap (s.mActiveStreamsList false) 0 0 s
      rw [h0] at this; exact this
    cases h1 : setValue r.1 mInputSourcesCriterionName s0 with
    | fatal sf => simp [h1] at h
    | ok u1 sa =>
      rw [h1] at h
      simp only at h
      have b1 : BitsKept s0 sa := by
        have := setValue_bits r.1 mInputSourcesCriterionName s0 (by decide)
        rw [h1] at this; exact this
      cases h2 : setValue r.2 mPreProcRequestedByActiveInputCriterionName sa with
      | fatal sf => simp [h2] at h
      | ok u2 sb =>
        rw [h2] at h
        simp only at h
        have b2 : BitsKept sa sb := by
          have := setValue_bits r.2 mPreProcRequestedByActiveInputCriterionName sa (by decide)
          rw [h2] at this; exact this
        cases hc : mapFind sb.mRouteCriterionMap mStateChangedCriterionName with
        | none =>
          unfold applyPlatformConfiguration at h
          simp [hc] at h
        | some c3 =>
          obtain ⟨sz, hz, tz, vz, fz⟩ := applyPlatformConfiguration_full sb c3 hc
          rw [hz] at h
          simp only [Result.ok.injEq, true_and] at h
          subst h
          exact ⟨sb, c3, (b0.chain b1).chain b2, hc, tz, vz, fz⟩

theorem or_ne_zero_left (a b : Nat) (h : a ≠ 0) : a ||| b ≠ 0 := by
  intro h0
  apply h
  apply Nat.eq_of_testBit_eq
  intro i
  have := congrArg (fun x => Nat.testBit x i) h0
  simp only [Nat.testBit_or, Nat.zero_testBit, Bool.or_eq_false_iff] at this
  rw [this.1]; simp

theorem setPlatformStateEvent_value (e : String) (s : AudioPlatformState) (c : Criterion)
    (ty : CriterionType)
    (hc : mapFind s.mRouteCriterionMap mStateChangedCriterionName = some c)
    (hty : mapFind s.mRouteCriterionTypeMap c.criterionType = some ty) :
    ∃ s1, setPlatformStateEvent e s = Result.ok () s1 ∧ SameRegistry s s1 ∧
      s1.trace = s.trace ∧
      getValue mStateChangedCriterionName s1
        = some (c.value ||| (ty.getNumericalValue e).getD 0) ∧
      s1.mAudioPfwHasChanged = (s.mAudioPfwHasChanged || (ty.getNumericalValue e).isNone) ∧
      ∀ k, k ≠ mStateChangedCriterionName → getValue k s1 = getValue k s := by
  have hg : getValue mStateChangedCriterionName s = some c.value := by
    unfold getValue; rw [hc]; rfl
  unfold setPlatformStateEvent
  rw [hc]
  simp only
  rw [hty]
  simp only
  cases ty.getNumericalValue e with
  | some eventId =>
    refine ⟨_, rfl, ⟨rfl, rfl, rfl, fun k => critType_setCriterionValue _ _ _ _⟩, rfl, ?_,
      by simp [AudioPlatformState.setCriterionValue], ?_⟩
    · rw [getValue_setCriterionValue, if_pos rfl, hg]; rfl
    · intro k hk
      rw [getValue_setCriterionValue, if_neg hk]
  | none =>
    refine ⟨_, rfl, ⟨rfl, rfl, rfl, fun k => ?_⟩, rfl, ?_,
      by simp [AudioPlatformState.setCriterionValue], ?_⟩
    · rw [critType_setCriterionValue]; rfl
    · rw [getValue_setCriterionValue, if_pos rfl]
      show Option.map _ (getValue mStateChangedCriterionName s) = _
      rw [hg]; rfl
    · intro k hk
      rw [getValue_setCriterionValue, if_neg hk]; rfl

theorem hasPlatformStateChanged_eq (s : AudioPlatformState) (v : Nat)
    (hv : getValue mStateChangedCriterionName s = some v) :
    hasPlatformStateChanged s = some (v != 0 || s.mAudioPfwHasChanged) := by
  unfold getValue at hv
  unfold hasPlatformStateChanged
  cases hc : mapFind s.mRouteCriterionMap mStateChangedCriterionName with
  | none => simp [hc] at hv
  | some c =>
    simp only [hc, Option.map_some', Option.some.injEq] at hv
    simp [hv]

theorem stateChanged_parts (s : AudioPlatformState) (hr : StateChangedReady s) :
    ∃ c ty, mapFind s.mRouteCriterionMap mStateChangedCriterionName = some c ∧
      mapFind s.mRouteCriterionTypeMap c.criterionType = some ty := by
  obtain ⟨t, ht, hty⟩ := hr
  unfold critType at ht
  cases hc : mapFind s.mRouteCriterionMap mStateChangedCriterionName with
  | none => simp [hc] at ht
  | some c =>
    have hct : c.criterionType = t := by simpa [hc] using ht
    cases hty2 : mapFind s.mRouteCriterionTypeMap t with
    | none => simp [hty2] at hty
    | some ty => exact ⟨c, ty, rfl, by rw [hct]; exact hty2⟩

theorem SameRegistry.nonZero {s s1 : AudioPlatformState} (h : SameRegistry s s1)
    (hnz : NonZeroInputCode s) : NonZeroInputCode s1 := by
  intro c1 ty b hc1 hty hb
  have hshape := h.shape mStateChangedCriterionName
  unfold critType at hshape
  rw [hc1] at hshape
  cases hc : mapFind s.mRouteCriterionMap mStateChangedCriterionName with
  | none => simp [hc] at hshape
  | some c =>
    have hct : c1.criterionType = c.criterionType := by simpa [hc] using hshape
    refine hnz c ty b hc ?_ hb
    rw [← hct, ← h.types]; exact hty

theorem pending_after_event (s s1 : AudioPlatformState) (c : Criterion) (x : Nat)
    (flag : Bool)
    (hc : mapFind s.mRouteCriterionMap mStateChangedCriterionName = some c)
    (hv : getValue mStateChangedCriterionName s1 = some (c.value ||| x))
    (hf : s1.mAudioPfwHasChanged = (s.mAudioPfwHasChanged || flag))
    (hp : Pending s) : Pending s1 := by
  have hg : getValue mStateChangedCriterionName s = some c.value := by
    unfold getValue; rw [hc]; rfl
  unfold Pending at *
  rw [hasPlatformStateChanged_eq s _ hg] at hp
  rw [hasPlatformStateChanged_eq s1 _ hv, hf]
  simp only [Option.some.injEq, Bool.or_eq_true, bne_iff_ne, ne_eq] at hp ⊢
  rcases hp with h | h
  · exact Or.inl (or_ne_zero_left _ _ h)
  · exact Or.inr (Or.inl h)

theorem parameterHasChanged_progress (defs : AudioDefs) (heap : Heap) (event : String)
    (s : AudioPlatformState) (hr : EventsReady s) (hnz : NonZeroInputCode s) :
    ∃ s1, parameterHasChanged defs heap event s = Result.ok () s1 ∧ SameRegistry s s1 ∧
      applyCount s.trace ≤ applyCount s1.trace ∧
      (Pending s → Pending s1) ∧
      (event = mInputDevicesCriterionName →
        Pending s1 ∧ applyCount s.trace + 1 ≤ applyCount s1.trace) := by
  obtain ⟨c, ty, hc, hty⟩ := stateChanged_parts s hr.1
  unfold parameterHasChanged
  by_cases h1 : event = mAndroidModeCriterionName
  · obtain ⟨cm, hcm⟩ := (registered_iff_find s _).mp hr.2.1
    have hg : getValue mAndroidModeCriterionName s = some cm.value := by
      unfold getValue; rw [hcm]; rfl
    simp only [h1, beq_self_eq_true, if_true, hg]
    obtain ⟨s1, hs1, r1, t1, v1, f1, _⟩ := setPlatformStateEvent_value
      mAndroidModeCriterionName (s.emit (Event.wakeup (cm.value == defs.MODE_IN_CALL))) c ty
      hc hty
    refine ⟨s1, hs1, ⟨r1.types, r1.params, r1.roster, r1.shape⟩, ?_, ?_, ?_⟩
    · rw [t1]
      simp [applyCount, AudioPlatformState.emit, List.count_append]
    · exact pending_after_event s s1 c _ _ hc v1 f1
    · intro h; exact absurd h (by decide)
  · have h1b : (event == mAndroidModeCriterionName) = false := by simpa using h1
    simp only [h1b, Bool.false_eq_true, if_false]
    by_cases h2 : event = mInputDevicesCriterionName
    · simp only [h2, beq_self_eq_true, if_true]
      obtain ⟨sU, hU, rU, _⟩ := updateActiveStreamsParameters_in defs heap s hr.1 hr.2.2.1
        hr.2.2.2.1 (fun _ => hr.2.2.2.2)
      obtain ⟨s3, c3, b3, _, tU, vU, fU⟩ := updateActiveStreamsParameters_commit defs heap s sU hU
      obtain ⟨cU, tyU, hcU, htyU⟩ := stateChanged_parts sU (rU.ready hr.1)
      obtain ⟨s1, hs1, r1, t1, v1, f1, _⟩ := setPlatformStateEvent_value
        mInputDevicesCriterionName sU cU tyU hcU htyU
      have hcU0 : cU.value = 0 := by
        unfold getValue at vU
        rw [hcU] at vU
        simpa using vU
      have hcount : applyCount s.trace + 1 ≤ applyCount s1.trace := by
        obtain ⟨⟨evs, hevs, _⟩, _⟩ := b3
        rw [t1, tU, hevs]
        simp [applyCount, List.count_append]
      refine ⟨s1, by rw [hU]; exact hs1, rU.andThen r1, by omega, ?_, fun _ => ⟨?_, hcount⟩⟩
      all_goals
        have hpend : Pending s1 := by
          unfold Pending
          rw [hasPlatformStateChanged_eq s1 _ v1, f1, fU, hcU0]
          cases hb : tyU.getNumericalValue mInputDevicesCriterionName with
          | none => simp
          | some b =>
            have hbn : b ≠ 0 := (rU.nonZero hnz) cU tyU b hcU htyU hb
            simp [hbn]
      · exact fun _ => hpend
      · exact hpend
    · have h2b : (event == mInputDevicesCriterionName) = false := by simpa using h2
      simp only [h2b, Bool.false_eq_true, if_false]
      obtain ⟨s1, hs1, r1, t1, v1, f1, _⟩ := setPlatformStateEvent_value event s c ty hc hty
      refine ⟨s1, hs1, r1, by rw [t1], ?_, fun h => absurd h h2⟩
      exact pending_after_event s s1 c _ _ hc v1 f1

theorem SameRegistry.nonZeroReady {s s1 : AudioPlatformState} (h : SameRegistry s s1)
    (hr : EventsReady s) (hnz : NonZeroInputCode s) : EventsReady s1 ∧ NonZeroInputCode s1 :=
  ⟨h.eventsReady hr, h.nonZero hnz⟩

theorem setFromAndroidParameter_progress (defs : AudioDefs) (heap : Heap)
    (paramIn : AudioParameter) (p : Parameter) (n : Nat) (s : AudioPlatformState)
    (hr : EventsReady s) (hnz : NonZeroInputCode s) :
    ∃ n1 s1, setFromAndroidParameter defs heap paramIn p n s = Result.ok n1 s1 ∧
      SameRegistry s s1 ∧ applyCount s.trace ≤ applyCount s1.trace ∧
      (Pending s → Pending s1) ∧
      (reportsInputDevices paramIn p = true →
        Pending s1 ∧ applyCount s.trace + 1 ≤ applyCount s1.trace) := by
  unfold setFromAndroidParameter reportsInputDevices
  cases AudioParameter.get paramIn p.key with
  | none =>
    exact ⟨_, s, rfl, SameRegistry.same s, le_refl _, fun h => h, fun h => by simp at h⟩
  | some value =>
    simp only
    cases hev : (p.set value).2 with
    | none =>
      exact ⟨_, s, rfl, SameRegistry.same s, le_refl _, fun h => h, fun h => by simp at h⟩
    | some ev =>
      obtain ⟨s1, hs1, r1, c1, p1, i1⟩ := parameterHasChanged_progress defs heap ev s hr hnz
      refine ⟨(if (p.set value).1 = true then n else n + 1), s1,
        by simp only [hs1, Result.bind], r1, c1, p1, fun h => i1 ?_⟩
      simpa using h

theorem setFromAndroidParameters_progress (defs : AudioDefs) (heap : Heap)
    (paramIn : AudioParameter) (params : List Parameter) :
    ∀ (n : Nat) (s : AudioPlatformState), EventsReady s → NonZeroInputCode s →
      ∃ n1 s1, setFromAndroidParameters defs heap paramIn params n s = Result.ok n1 s1 ∧
        SameRegistry s s1 ∧ applyCount s.trace ≤ applyCount s1.trace ∧
        (Pending s → Pending s1) ∧
        ((∃ p ∈ params, reportsInputDevices paramIn p = true) →
          Pending s1 ∧ applyCount s.trace + 1 ≤ applyCount s1.trace) := by
  induction params with
  | nil =>
    intro n s _ _
    exact ⟨n, s, rfl, SameRegistry.same s, le_refl _, fun h => h, fun ⟨p, hp, _⟩ => by cases hp⟩
  | cons p ps ih =>
    intro n s hr hnz
    obtain ⟨n2, s2, h2, r2, c2, p2, i2⟩ :=
      setFromAndroidParameter_progress defs heap paramIn p n s hr hnz
    obtain ⟨n3, s3, h3, r3, c3, p3, i3⟩ := ih n2 s2 (r2.eventsReady hr) (r2.nonZero hnz)
    refine ⟨n3, s3, ?_, r2.andThen r3, by omega, fun h => p3 (p2 h), ?_⟩
    · unfold setFromAndroidParameters
      rw [h2]
      exact h3
    · rintro ⟨q, hq, hrep⟩
      rcases List.mem_cons.mp hq with hqp | hqps
      · subst hqp
        obtain ⟨a, b⟩ := i2 hrep
        exact ⟨p3 a, by omega⟩
      · obtain ⟨a, b⟩ := i3 ⟨q, hqps, hrep⟩
        exact ⟨a, by omega⟩

theorem setParameters_applies_twice (defs : AudioDefs) (heap : Heap)
    (keyValuePairs : AudioParameter) (s : AudioPlatformState) (hr : EventsReady s)
    (hnz : NonZeroInputCode s)
    (hrep : ∃ p ∈ s.mParameterVector, reportsInputDevices keyValuePairs p = true) :
    applyCount s.trace + 2
      ≤ applyCount (setParameters defs heap keyValuePairs s).state.trace := by
  have hr0 : EventsReady (s.emit Event.writeLock) := hr
  have hnz0 : NonZeroInputCode (s.emit Event.writeLock) := hnz
  obtain ⟨n1, s1, h1, r1, _, _, i1⟩ := setFromAndroidParameters_progress defs heap
    keyValuePairs (s.emit Event.writeLock).mParameterVector 0 (s.emit Event.writeLock) hr0 hnz0
  obtain ⟨hpend, hcount⟩ := i1 hrep
  obtain ⟨c1, _, hc1, _⟩ := stateChanged_parts s1 (r1.ready hr0.1)
  obtain ⟨s2, h2, t2, _, _⟩ := applyPlatformConfiguration_full s1 c1 hc1
  have hres : (setParameters defs heap keyValuePairs s).state
      = (s2.emit Event.unlock).emit Event.reconsiderRouting := by
    unfold setParameters
    simp only
    rw [h1]
    simp only [Result.bind]
    unfold Pending at hpend
    rw [hpend]
    simp only
    rw [h2]
    rfl
  rw [hres]
  have hc0 : applyCount (s.emit Event.writeLock).trace = applyCount s.trace := by
    simp [applyCount, AudioPlatformState.emit, List.count_append]
  have hfin : applyCount ((s2.emit Event.unlock).emit Event.reconsiderRouting).trace
      = applyCount s1.trace + 1 := by
    show applyCount ((s2.trace ++ [Event.unlock]) ++ [Event.reconsiderRouting]) = _
    rw [t2]
    simp [applyCount, List.count_append]
  rw [hfin]
  omega

/-- On a state ready for the parameter events, `parameterHasChanged("InputDevices")`
returns after recomputing the capture aggregates and applying the
configuration: its calls are writes of criteria, then the commit of a
`StatesChanged` value holding every bit pending before the call, then
`applyConfigurations`; on return `StatesChanged` is the code of `InputDevices`
and the device-domain flag is false when `InputDevices` is a value of the
`StatesChanged` type, otherwise `StatesChanged` is 0 and the flag is true.
When the code of `InputDevices`, if it has one, is not 0, a `setParameters`
call in which a registered parameter reports the `InputDevices` event calls
`applyConfigurations` at least twice. -/
theorem inputDevices_event_applies_first (defs : AudioDefs) (heap : Heap)
    (s : AudioPlatformState) (c : Criterion) (ty : CriterionType) (hr : EventsReady s)
    (hc : mapFind s.mRouteCriterionMap mStateChangedCriterionName = some c)
    (hty : mapFind s.mRouteCriterionTypeMap c.criterionType = some ty) :
    (∃ s1 evs v,
      parameterHasChanged defs heap mInputDevicesCriterionName s = Result.ok () s1 ∧
      getValue mInputSourcesCriterionName s1
        = some (activeInputMask heap (s.mActiveStreamsList false)) ∧
      getValue mPreProcRequestedByActiveInputCriterionName s1
        = some (match activeInput heap (s.mActiveStreamsList false) with
                | some p => (heap p).getEffectRequested
                | none => 0) ∧
      s1.trace = s.trace ++ evs ++
        [Event.setCriterionState mStateChangedCriterionName v, Event.applyConfigurations] ∧
      (∀ e ∈ evs, ∃ n x, e = Event.setCriterionState n x) ∧
      (∀ i, c.value.testBit i = true → v.testBit i = true) ∧
      (∀ b, ty.getNumericalValue mInputDevicesCriterionName = some b →
        getValue mStateChangedCriterionName s1 = some b ∧ s1.mAudioPfwHasChanged = false) ∧
      (ty.getNumericalValue mInputDevicesCriterionName = none →
        getValue mStateChangedCriterionName s1 = some 0 ∧ s1.mAudioPfwHasChanged = true)) ∧
    (∀ keyValuePairs : AudioParameter,
      (∃ p ∈ s.mParameterVector, reportsInputDevices keyValuePairs p = true) →
      (∀ b, ty.getNumericalValue mInputDevicesCriterionName = some b → b ≠ 0) →
      applyCount s.trace + 2
        ≤ applyCount (setParameters defs heap keyValuePairs s).state.trace) := by
  constructor
  · obtain ⟨sU, hU, rU, vI, vP, _, _⟩ := updateActiveStreamsParameters_in defs heap s hr.1
      hr.2.2.1 hr.2.2.2.1 (fun _ => hr.2.2.2.2)
    obtain ⟨s3, c3, b3, hc3, tU, vU, fU⟩ :=
      updateActiveStreamsParameters_commit defs heap s sU hU
    obtain ⟨cU, tyU, hcU, htyU⟩ := stateChanged_parts sU (rU.ready hr.1)
    obtain ⟨s1, hs1, r1, t1, v1, f1, o1⟩ := setPlatformStateEvent_value
      mInputDevicesCriterionName sU cU tyU hcU htyU
    have hcU0 : cU.value = 0 := by
      unfold getValue at vU
      rw [hcU] at vU
      simpa using vU
    -- the type of `StatesChanged` is the same after the update
    have htyEq : tyU = ty := by
      have hshape := rU.shape mStateChangedCriterionName
      unfold critType at hshape
      rw [hcU, hc] at hshape
      have hct : cU.criterionType = c.criterionType := by simpa using hshape
      rw [hct, rU.types, hty] at htyU
      exact (Option.some.inj htyU).symm
    subst htyEq
    obtain ⟨⟨evs, hevs, hwrites⟩, hbits⟩ := b3
    have hg : getValue mStateChangedCriterionName s = some c.value := by
      unfold getValue; rw [hc]; rfl
    obtain ⟨v3, hv3, hkeep⟩ := hbits c.value hg
    have hv3c : v3 = c3.value := by
      unfold getValue at hv3
      rw [hc3] at hv3
      simpa using hv3.symm
    refine ⟨s1, evs, c3.value, ?_, ?_, ?_, ?_, hwrites, ?_, ?_, ?_⟩
    · unfold parameterHasChanged
      simp only [show (mInputDevicesCriterionName == mAndroidModeCriterionName) = false by decide,
        Bool.false_eq_true, if_false, beq_self_eq_true, if_true]
      rw [hU]
      exact hs1
    · rw [o1 _ (by decide), vI]; rfl
    · rw [o1 _ (by decide), vP]
    · rw [t1, tU, hevs]
    · intro i hi
      rw [← hv3c]
      exact hkeep i hi
    · intro b hb
      rw [v1, f1, fU, hcU0, hb]
      simp
    · intro hb
      rw [v1, f1, fU, hcU0, hb]
      simp
  · intro keyValuePairs hrep hb
    refine setParameters_applies_twice defs heap keyValuePairs s hr ?_ hrep
    intro c2 ty2 b hc2 hty2 hb2
    rw [hc] at hc2
    have hcc : c = c2 := Option.some.inj hc2
    subst hcc
    rw [hty] at hty2
    have htt : ty = ty2 := Option.some.inj hty2
    subst htt
    exact hb b hb2

/-- C21 (counterexample): a detached capture stream at 8 kHz mono is attached to
a 48 kHz stereo route for which no conversion is supported: `attachRouteL`
returns the error -22, and the stream is left routed on the new route, not
detached. -/
theorem failed_attach_leaves_stream_attached :
    detachedCapture.isRouted = false ∧
    (AudioStreamInImpl.attachRouteL noConversionEnv detachedCapture).1 = -22 ∧
    (AudioStreamInImpl.attachRouteL noConversionEnv detachedCapture).2.isRouted = true ∧
    (AudioStreamInImpl.attachRouteL noConversionEnv detachedCapture).2.currentStreamRoute
      = 5 := by
  decide

/-- C21 (amended): when configuring the conversion chain fails during the route
attachment, `AudioStream::attachRouteL` returns that error and leaves the
stream as the base-class attachment made it (the attachment is retained);
`AudioStreamInImpl::attachRouteL` returns the same error and state, so no
hardware buffer is allocated and the buffer pointer is untouched. -/
theorem failed_attach_returns_error_keeps_base_attachment (env : AttachEnv)
    (st : RoutedStream)
    (hfail : env.configure
        (if st.isOut then st.streamSampleSpec else env.routeSampleSpecOf st.newStreamRoute)
        (if st.isOut then env.routeSampleSpecOf st.newStreamRoute else st.streamSampleSpec)
      ≠ 0) :
    AudioStream.attachRouteL env st
      = (env.configure
          (if st.isOut then st.streamSampleSpec else env.routeSampleSpecOf st.newStreamRoute)
          (if st.isOut then env.routeSampleSpecOf st.newStreamRoute else st.streamSampleSpec),
         TinyAlsaStream.attachRouteL env st) ∧
    AudioStreamInImpl.attachRouteL env st = AudioStream.attachRouteL env st ∧
    (AudioStreamInImpl.attachRouteL env st).2.allocations = st.allocations ∧
    (AudioStreamInImpl.attachRouteL env st).2.mHwBuffer = st.mHwBuffer ∧
    (AudioStreamInImpl.attachRouteL env st).2.isRouted = true ∧
    (AudioStreamInImpl.attachRouteL env st).2.currentStreamRoute = st.newStreamRoute := by
  have h1 : AudioStream.attachRouteL env st
      = (env.configure
          (if st.isOut then st.streamSampleSpec else env.routeSampleSpecOf st.newStreamRoute)
          (if st.isOut then env.routeSampleSpecOf st.newStreamRoute else st.streamSampleSpec),
         TinyAlsaStream.attachRouteL env st) := by
    unfold AudioStream.attachRouteL
    simp only [TinyAlsaStream.attachRouteL]
    have hb : (env.configure
        (if st.isOut then st.streamSampleSpec else env.routeSampleSpecOf st.newStreamRoute)
        (if st.isOut then env.routeSampleSpecOf st.newStreamRoute else st.streamSampleSpec)
        != 0) = true := by simpa using hfail
    rw [if_pos hb]
  have h2 : AudioStreamInImpl.attachRouteL env st = AudioStream.attachRouteL env st := by
    unfold AudioStreamInImpl.attachRouteL
    simp only [h1]
    have hb : (env.configure
        (if st.isOut then st.streamSampleSpec else env.routeSampleSpecOf st.newStreamRoute)
        (if st.isOut then env.routeSampleSpecOf st.newStreamRoute else st.streamSampleSpec)
        != 0) = true := by simpa using hfail
    rw [if_pos hb]
  refine ⟨h1, h2, ?_, ?_, ?_, ?_⟩ <;> rw [h2, h1] <;> rfl

/-- Witness of C21 (amended) on the detached capture stream and the
conversion library without conversions. -/
theorem failed_attach_returns_error_keeps_base_attachment_witness :
    (AudioStreamInImpl.attachRouteL noConversionEnv detachedCapture).2.allocations = 0 ∧
    (AudioStreamInImpl.attachRouteL noConversionEnv detachedCapture).2.mHwBuffer = none :=
  ⟨(failed_attach_returns_error_keeps_base_attachment noConversionEnv detachedCapture
      (by decide)).2.2.1,
   (failed_attach_returns_error_keeps_base_attachment noConversionEnv detachedCapture
      (by decide)).2.2.2.1⟩

/-! ## The echo delay handed to the effect -/

set_option maxRecDepth 100000 in
/-- C24 (the code evaluated at the failing input): an 8 kHz capture with 160
frames queued in the hardware and 160 frames buffered in software has a
capture-delay estimate of 40000 microseconds; `pushEchoReference` fetches the
160 reference frames with that value as `delay_ns` and hands the effect the
echo delay 40, the estimate divided by 1000. -/
theorem echo_delay_is_divided_by_1000 :
    captureDelayUsec echoEnv8k 160 echoState160 = 40000 ∧
    (pushEchoReference echoEnv8k 160 7 9 echoState160).1 = Outcome.returned 0 ∧
    (pushEchoReference echoEnv8k 160 7 9 echoState160).2.trace
      = [EchoEvent.getFramesAvailable, EchoEvent.referenceRead 160 40000,
         EchoEvent.processReverse 7 160, EchoEvent.setPreprocessorEchoDelay 7 40] ∧
    echoDelays (pushEchoReference echoEnv8k 160 7 9 echoState160).2.trace = [40] := by
  decide

end AudioHal
